import Mathlib

/-!
# Order gateway (`src/order/order.go`): validation, translation, handlers

A shallow embedding of the `trade` package of `src/order/order.go`.

Modelling conventions
* Go `string` is `String`; Go `int` is `Int`.  The one arithmetic operation on
  an integer field, `qty * -1` in the matcher of `ConvertPosition`, is taken in
  the 64-bit `int` (`wrapInt64`).
* Go `float64` request fields (`Price`, `TriggerPrice`, `ProfitValue`,
  `StoplossValue`, `LegNo`) are `ℚ`.  A request reaches the validators only
  after JSON binding, which cannot produce NaN or an infinity, and on finite
  floats the comparisons `<=`, `<`, `>` agree with the comparisons of the
  rationals they denote (`-0.0` and `0.0` both denote `0`).
* The `float64` fields of the position rows enter arithmetic and are
  `Float64`, a model of IEEE 754 binary64 with rounding to nearest, signed
  zeros, infinities and not-a-number.
* A Go `error` result is `Option String`: `none` is `nil`, `some msg` is
  `errors.New(msg)`.
* Logging calls and `time.Now()` have no effect on the results and are left out.
-/

namespace Trade

/-! ## Constants of the package (declared outside `src/`) -/

/-- Modelled from the spec: the order-type token `LMT` (its declaration is not
under `src/`; §3 lists the order types `MKT, LMT, SL, SLM`). -/
def LMT : String := "LMT"

/-- Modelled from the spec: the order-type token `SL` (declaration not under
`src/`; the value is the one used by `order_test.go`). -/
def SL : String := "SL"

/-- Modelled from the spec: the order-type token `SLM` (declaration not under
`src/`). -/
def SLM : String := "SLM"

/-- Modelled from the spec: the order-type token `MKT` (declaration not under
`src/`; the value is the one used by `order_test.go`). -/
def MKT : String := "MKT"

/-- Modelled from the spec: the validity token `IOC` (declaration not under
`src/`; §3 lists the validities `DAY, IOC`). -/
def IOC : String := "IOC"

/-- Modelled from the spec: the validity token `DAY` (declaration not under
`src/`; the value is the one used by `order_test.go`). -/
def DAY : String := "DAY"

/-- Modelled from the spec: the transaction side `BUY` (declaration not under
`src/`; `order_test.go` sends `"B"` for the buy-side cases). -/
def BUY : String := "B"

/-- Modelled from the spec: the transaction side `SELL` (declaration not under
`src/`; `order_test.go` sends `"S"` for the sell-side case). -/
def SELL : String := "S"

/-! ## Request types -/

/-- The fields of `PlaceOrderRequest` that `order.go` reads. -/
structure PlaceOrderRequest where
  TxnType : String := ""
  Exchange : String := ""
  Segment : String := ""
  Product : String := ""
  ExchangeToken : Int := 0
  Quantity : Int := 0
  DisclosedQty : Int := 0
  Price : ℚ := 0
  TriggerPrice : ℚ := 0
  Validity : String := ""
  OrderType : String := ""
  OffMktFlag : Bool := false
  OffMktOrderTimeFlag : Int := 0

/-- The fields of `PlaceCoverOrderRequest` that `order.go` reads. -/
structure PlaceCoverOrderRequest where
  TxnType : String := ""
  Exchange : String := ""
  Segment : String := ""
  Product : String := ""
  ExchangeToken : Int := 0
  Quantity : Int := 0
  Price : ℚ := 0
  TriggerPrice : ℚ := 0
  Validity : String := ""
  OrderType : String := ""
  OffMktFlag : Bool := false
  OffMktOrderTimeFlag : Int := 0

/-- The fields of `PlaceBracketOrderRequest` that `order.go` reads. -/
structure PlaceBracketOrderRequest where
  TxnType : String := ""
  Exchange : String := ""
  Segment : String := ""
  Product : String := ""
  ExchangeToken : Int := 0
  Quantity : Int := 0
  Price : ℚ := 0
  ProfitValue : ℚ := 0
  StoplossValue : ℚ := 0
  Validity : String := ""
  OrderType : String := ""
  OffMktFlag : Bool := false
  OffMktOrderTimeFlag : Int := 0

/-! ## Validation engine -/

/-- Embedding of `normalOrderValidation` (order.go, lines 106-140).  The
`if / else if` chain on the order type comes first and each `return` inside
it leaves the function; the after-market check is reached only when the chain
falls through. -/
def normalOrderValidation (request : PlaceOrderRequest) : Option String :=
  let orderTypeChain : Option String :=
    if request.OrderType = LMT ∧ request.Price ≤ 0 then
      some ":Price cannot be zero with limit order"
    else if request.OrderType = SL then
      if request.Price ≤ 0 then
        some ":Price cannot be zero with trigger limit order"
      else if request.TriggerPrice ≤ 0 then
        some ":Trigger Price cannot be zero with limit order"
      else if request.Validity = IOC then
        some ":Validity cannot be IOC with Trigger order"
      else if request.TxnType = BUY ∧ request.TriggerPrice > request.Price then
        some ":Trigger Price cannot be greater than limit buy price"
      else if request.TxnType = SELL ∧ request.TriggerPrice < request.Price then
        some ":Trigger Price cannot be less than limit buy price"
      else none
    else if request.OrderType = SLM then
      if request.TriggerPrice ≤ 0 then
        some ":Trigger Price cannot be zero with limit order"
      else if request.Validity = IOC then
        some ":Validity cannot be IOC with Trigger order"
      else none
    else none
  match orderTypeChain with
  | some err => some err
  | none =>
    if request.OffMktFlag = true ∧ request.OffMktOrderTimeFlag ≤ 0 then
      some ":OffMktOrderTimeFlag possible allowed values are 1|2|3 in AMO"
    else none

/-- Embedding of `coverOrderValidation` (order.go, lines 1237-1253). -/
def coverOrderValidation (request : PlaceCoverOrderRequest) : Option String :=
  if request.OrderType = LMT ∧ request.Price ≤ 0 then
    some ":Price cannot be zero with limit order"
  else if request.TriggerPrice ≤ 0 then
    some ":Trigger Price cannot be zero"
  else if request.OffMktFlag = true ∧ request.OffMktOrderTimeFlag ≤ 0 then
    some ":OffMktOrderTimeFlag possible allowed values are 1|2|3 in AMO"
  else none

/-- Embedding of `bracketOrderValidation` (order.go, lines 1259-1282). -/
def bracketOrderValidation (request : PlaceBracketOrderRequest) : Option String :=
  if request.OrderType = LMT ∧ request.Price ≤ 0 then
    some ":Price cannot be zero with limit order"
  else if request.ProfitValue ≤ 0 ∧ request.StoplossValue ≤ 0 then
    some ":ProfitValue, StoplossValue cannot be zero"
  else if request.ProfitValue ≤ 0 then
    some ":ProfitValue cannot be zero"
  else if request.StoplossValue ≤ 0 then
    some ":StoplossValue cannot be zero"
  else if request.OffMktFlag = true ∧ request.OffMktOrderTimeFlag ≤ 0 then
    some ":OffMktOrderTimeFlag possible allowed values are 1|2|3 in AMO"
  else none

/-- The detail text `msg` contains the word `w` (as a contiguous run of
characters). -/
def mentions (msg w : String) : Prop := w.toList <:+: msg.toList

instance (msg w : String) : Decidable (mentions msg w) := by
  unfold mentions; infer_instance

/-! ## Formatting verbs of `fmt.Sprintf` -/

/-- The verb `%d` of `fmt.Sprintf` on a Go `int`: the base-10 numeral without
padding, with a leading `-` for a negative number. -/
def sprintfD : Int → String
  | Int.ofNat m => Nat.repr m
  | Int.negSucc m => "-" ++ Nat.repr (m + 1)

/-- The value of a run of decimal digit characters, most significant first. -/
def parseDigits (ds : List Char) : Nat :=
  ds.foldl (fun acc c => 10 * acc + (c.toNat - 48)) 0

/-- The reading of a base-10 numeral with an optional leading `-`, as the
receiver of a payload reads a `%d` field back.  It is not part of `order.go`;
it serves to state that the `%d` rendering determines the number. -/
def parseD (s : String) : Int :=
  match s.data with
  | '-' :: ds => - (parseDigits ds : Int)
  | ds => (parseDigits ds : Int)

/-- The verb `%v` of `fmt.Sprintf` on a Go `bool`. -/
def sprintfV : Bool → String
  | true => "true"
  | false => "false"

/-- The conversion `int(x)` of a finite Go `float64`: the fractional part is
discarded (truncation towards zero).  For a value outside the range of the
integer type Go leaves the result to the implementation; here it is the exact
integer. -/
def floatToInt (x : ℚ) : Int := Int.tdiv x.num x.den

/-! ## Package configuration and library constants -/

/-- The package-level constants and configuration values that `order.go` reads
and that are declared outside `src/`: the vendor endpoint and API paths, the
static headers, the timeout, the `Source` tag, the success message of the
modify handlers, the table `e.RupeeseedErrors` (a Go map: an absent key reads as
`0`) and the library verb `%f` of `fmt.Sprintf` on a `float64`. -/
structure Env where
  EndPoint : String
  OrderApi : String
  ModifyOrderApi : String
  BoModifyOrderAPI : String
  CoModifyOrderApi : String
  rupeeseedHeaders : List (String × String)
  ApiTimeout : Nat
  Source : String
  OrderModificationSuccess : String
  RupeeseedErrors : String → Int
  sprintfF : ℚ → String

/-- Modelled from the spec: the literal success token of the vendor envelope
(declaration not under `src/`; `order_test.go` answers `"success"` in its only
successful case). -/
def Success : String := "success"

/-- Modelled from the spec: the product code of a cover order, `V` (declaration
not under `src/`; the handler comment reads "product V(CO – Cover Order)"). -/
def CoProductValue : String := "V"

/-- Go `http.MethodPost`. -/
def MethodPost : String := "POST"

/-- Go `http.StatusOK`. -/
def StatusOK : Int := 200

/-- Go `http.StatusBadRequest`. -/
def StatusBadRequest : Int := 400

/-- Go `http.StatusInternalServerError`. -/
def StatusInternalServerError : Int := 500

/-! ## Vendor payloads -/

/-- The `Data` part of `RupeeseedNormalOrderRequest`, with the fields that
`getRupeeseedOrderRequestBody` writes; every field starts at its Go zero value. -/
structure RupeeseedNormalOrderData where
  ClientId : String := ""
  UserId : String := ""
  TxnType : String := ""
  Exchange : String := ""
  Segment : String := ""
  Product : String := ""
  ExchangeToken : String := ""
  Qty : String := ""
  Price : String := ""
  Valdity : String := ""
  OrderType : String := ""
  DisclosedQty : String := ""
  TriggerPrice : String := ""
  OffMktFlag : String := ""
  EncashFlag : Int := 0
  deriving DecidableEq, Repr

/-- The vendor payload of a normal order. -/
structure RupeeseedNormalOrderRequest where
  EntityId : String := ""
  Source : String := ""
  Data : RupeeseedNormalOrderData := {}
  deriving DecidableEq, Repr

/-- Embedding of `getRupeeseedOrderRequestBody` (order.go, lines 221-253); the
assignments to `temp` are made in source order. -/
def getRupeeseedOrderRequestBody (env : Env) (req : PlaceOrderRequest) :
    RupeeseedNormalOrderRequest := Id.run do
  let mut temp : RupeeseedNormalOrderRequest := {}
  let userId := "TEST2"
  temp := { temp with EntityId := userId }
  temp := { temp with Source := env.Source }
  temp := { temp with Data.ClientId := userId }
  temp := { temp with Data.UserId := userId }
  temp := { temp with Data.TxnType := req.TxnType }
  temp := { temp with Data.Exchange := req.Exchange }
  temp := { temp with Data.Segment := req.Segment }
  temp := { temp with Data.Product := req.Product }
  temp := { temp with Data.ExchangeToken := sprintfD req.ExchangeToken }
  temp := { temp with Data.Qty := sprintfD req.Quantity }
  temp := { temp with Data.Price := env.sprintfF req.Price }
  temp := { temp with Data.Valdity := req.Validity }
  temp := { temp with Data.OrderType := req.OrderType }
  if req.DisclosedQty > 0 then
    temp := { temp with Data.DisclosedQty := sprintfD req.Quantity }
  if req.TriggerPrice > 0 then
    temp := { temp with Data.TriggerPrice := env.sprintfF req.TriggerPrice }
  temp := { temp with Data.OffMktFlag := "false" }
  if req.OffMktFlag = true then
    temp := { temp with Data.OffMktFlag := "true" }
    if req.OffMktOrderTimeFlag > 0 then
      temp := { temp with Data.EncashFlag := req.OffMktOrderTimeFlag }
  return temp

/-- The fields of `ModifyOrderRequest` that `parseVendorRequestBody` reads. -/
structure ModifyOrderRequest where
  TxnType : String := ""
  Exchange : String := ""
  Segment : String := ""
  Product : String := ""
  ExchangeToken : Int := 0
  Qty : Int := 0
  Price : ℚ := 0
  TriggerPrice : ℚ := 0
  Validity : String := ""
  OrderType : String := ""
  OffMktFlag : Bool := false
  OrderNo : String := ""
  GroupId : Int := 0
  SerialNo : Int := 0
  LegNo : ℚ := 0
  AlgoOrderNo : String := ""

/-- The `Data` part of `VendorRequest`, with the fields that
`parseVendorRequestBody` writes. -/
structure VendorRequestData where
  ClientId : String := ""
  UserId : String := ""
  TxnType : String := ""
  Exchange : String := ""
  Segment : String := ""
  Product : String := ""
  ExchangeToken : String := ""
  Qty : String := ""
  Price : String := ""
  Validity : String := ""
  OrderType : String := ""
  DisclosedQty : String := ""
  TriggerPrice : String := ""
  OffMktFlag : String := ""
  OrderNo : String := ""
  GroupId : String := ""
  SerialNo : String := ""
  LegNo : String := ""
  AlgoOrderNo : String := ""
  deriving DecidableEq, Repr

/-- The vendor payload of a modify request. -/
structure VendorRequest where
  EntityId : String := ""
  Source : String := ""
  Data : VendorRequestData := {}
  deriving DecidableEq, Repr

/-- Embedding of `parseVendorRequestBody` (order.go, lines 564-601).  Both
product tests compare with `CoProductValue`, as the source does. -/
def parseVendorRequestBody (env : Env) (req : ModifyOrderRequest) : VendorRequest := Id.run do
  let mut temp : VendorRequest := {}
  let userId := "TEST2"
  temp := { temp with EntityId := userId }
  temp := { temp with Source := env.Source }
  temp := { temp with Data.ClientId := userId }
  temp := { temp with Data.UserId := userId }
  temp := { temp with Data.TxnType := req.TxnType }
  temp := { temp with Data.Exchange := req.Exchange }
  temp := { temp with Data.Segment := req.Segment }
  temp := { temp with Data.Product := req.Product }
  temp := { temp with Data.ExchangeToken := sprintfD req.ExchangeToken }
  temp := { temp with Data.Qty := sprintfD req.Qty }
  temp := { temp with Data.Price := env.sprintfF req.Price }
  temp := { temp with Data.Validity := req.Validity }
  temp := { temp with Data.OrderType := req.OrderType }
  temp := { temp with Data.DisclosedQty := sprintfD req.Qty }
  temp := { temp with Data.TriggerPrice := env.sprintfF req.TriggerPrice }
  temp := { temp with Data.OffMktFlag := sprintfV req.OffMktFlag }
  temp := { temp with Data.OrderNo := req.OrderNo }
  temp := { temp with Data.GroupId := sprintfD req.GroupId }
  temp := { temp with Data.SerialNo := sprintfD req.SerialNo }
  if req.Product = CoProductValue then
    temp := { temp with Data.LegNo := env.sprintfF req.LegNo }
  if req.Product = CoProductValue then
    temp := { temp with Data.LegNo := sprintfD (floatToInt req.LegNo) }
    temp := { temp with Data.AlgoOrderNo := req.AlgoOrderNo }
  return temp

/-! ## Responses, errors and the request context -/

/-- Modelled from the spec: a structured error of package `e` (not under
`src/`), "a named error kind plus a free-text detail string" (§3). -/
structure ErrorDetail where
  kind : String
  detail : String
  deriving DecidableEq, Repr

/-- Modelled from the spec: `e.ErrorInfo[name].GetErrorDetails(detail)` of
package `e` (not under `src/`): the error of kind `name` carrying `detail`. -/
def GetErrorDetails (name detail : String) : ErrorDetail :=
  { kind := name, detail := detail }

/-- The vendor envelope `RupeeseedNormalOrderResponse`; `D` is the type of its
`data` member and `none` its Go zero value. -/
structure RupeeseedNormalOrderResponse (D : Type) where
  Status : String := ""
  ErrCode : String := ""
  Message : String := ""
  Data : Option D := none

/-- The client envelope `PlaceOrderResponse`. -/
structure PlaceOrderResponse (D : Type) where
  Status : Bool := false
  Data : Option D := none
  Errors : List ErrorDetail := []
  deriving DecidableEq

/-- The client envelope `Response` of the modify handlers. -/
structure Response (D : Type) where
  Status : Bool := false
  Data : Option D := none
  Message : String := ""
  Errors : List ErrorDetail := []
  deriving DecidableEq

/-- One call of `restCaller.InvokeHttp`, with its five arguments. -/
structure VendorCall (P : Type) where
  method : String
  uri : String
  body : P
  headers : List (String × String)
  timeout : Nat
  deriving DecidableEq

/-- The result `(body, status, err)` of `restCaller.InvokeHttp`; the body is
kept as text and `err = none` is a nil error. -/
structure VendorReply where
  body : String := ""
  status : Int := 0
  err : Option String := none
  deriving DecidableEq

/-- What a handler did with its `*gin.Context` and its rest caller: the vendor
calls issued, in order; the `(status, body)` given to `c.JSON`; whether
`c.Abort()` was called. -/
structure GinContext (P R : Type) where
  calls : List (VendorCall P) := []
  written : Option (Int × R) := none
  aborted : Bool := false

/-- The effect of `c.JSON(code, obj)`. -/
def GinContext.JSON {P R : Type} (c : GinContext P R) (code : Int) (obj : R) : GinContext P R :=
  { c with written := some (code, obj) }

/-- The effect of `c.Abort()`. -/
def GinContext.Abort {P R : Type} (c : GinContext P R) : GinContext P R :=
  { c with aborted := true }

/-- The effect of one `restCaller.InvokeHttp(...)`: the call is recorded. -/
def GinContext.invoked {P R : Type} (c : GinContext P R) (call : VendorCall P) : GinContext P R :=
  { c with calls := c.calls ++ [call] }

/-! ## Handlers -/

/-- Embedding of `(*trade).PlaceOrder` (order.go, lines 23-100).  `bound` is
the outcome of `c.BindJSON(&request)` (`none` when binding fails), `InvokeHttp`
the rest caller and `Unmarshal` the decoding of the vendor body by
`json.Unmarshal` (`none` when it fails). -/
def PlaceOrder {D : Type} (env : Env)
    (InvokeHttp : VendorCall RupeeseedNormalOrderRequest → VendorReply)
    (Unmarshal : String → Option (RupeeseedNormalOrderResponse D))
    (bound : Option PlaceOrderRequest) :
    GinContext RupeeseedNormalOrderRequest (PlaceOrderResponse D) := Id.run do
  let mut c : GinContext RupeeseedNormalOrderRequest (PlaceOrderResponse D) := {}
  let mut response : PlaceOrderResponse D := {}
  match bound with
  | none =>
    response := { response with Errors := response.Errors ++ [GetErrorDetails "BadRequest" ""] }
    c := c.JSON StatusBadRequest response
    c := c.Abort
    return c
  | some request =>
    match normalOrderValidation request with
    | some err =>
      response := { response with Errors := response.Errors ++ [GetErrorDetails "BadRequest" err] }
      c := c.JSON StatusBadRequest response
      c := c.Abort
      return c
    | none =>
      let uri := env.EndPoint ++ env.OrderApi
      let requestBody := getRupeeseedOrderRequestBody env request
      let call : VendorCall RupeeseedNormalOrderRequest :=
        ⟨MethodPost, uri, requestBody, env.rupeeseedHeaders, env.ApiTimeout⟩
      let reply := InvokeHttp call
      c := c.invoked call
      if reply.err ≠ none then
        response := { response with Errors := response.Errors ++ [GetErrorDetails "VendorApiFailure" ""] }
        c := c.JSON StatusInternalServerError response
        c := c.Abort
        return c
      else if reply.status ≠ StatusOK then
        response := { response with Errors := response.Errors ++ [GetErrorDetails "VendorConnectionFailure" ""] }
        c := c.JSON reply.status response
        c := c.Abort
        return c
      match Unmarshal reply.body with
      | none =>
        response := { response with Errors := response.Errors ++ [GetErrorDetails "JsonUnmarshalError" ""] }
        c := c.JSON StatusInternalServerError response
        c := c.Abort
        return c
      | some obj =>
        if obj.Status ≠ Success then
          if env.RupeeseedErrors obj.ErrCode = StatusBadRequest then
            response := { response with Errors := response.Errors ++ [GetErrorDetails "BadRequest" (":" ++ obj.Message)] }
            c := c.JSON StatusBadRequest response
          else if env.RupeeseedErrors obj.ErrCode = StatusInternalServerError then
            response := { response with Errors := response.Errors ++ [GetErrorDetails "InternalServerError" (":" ++ obj.Message)] }
            c := c.JSON StatusInternalServerError response
          else
            response := { response with Errors := response.Errors ++ [GetErrorDetails "InternalServerError" ""] }
            c := c.JSON StatusInternalServerError response
          c := c.Abort
          return c
        response := { response with Data := obj.Data }
        response := { response with Status := true }
        c := c.JSON StatusOK response
        return c

/-- Embedding of `(*trade).ModifyOrder` (order.go, lines 147-215): the request is
bound and translated, with no validator in between; `bound`, `InvokeHttp` and
`Unmarshal` are as for `PlaceOrder`. -/
def ModifyOrder {D : Type} (env : Env)
    (InvokeHttp : VendorCall VendorRequest → VendorReply)
    (Unmarshal : String → Option (RupeeseedNormalOrderResponse D))
    (bound : Option ModifyOrderRequest) :
    GinContext VendorRequest (Response D) := Id.run do
  let mut c : GinContext VendorRequest (Response D) := {}
  let mut response : Response D := {}
  match bound with
  | none =>
    response := { response with Errors := response.Errors ++ [GetErrorDetails "BadRequest" ""] }
    c := c.JSON StatusBadRequest response
    c := c.Abort
    return c
  | some request =>
    let uri := env.EndPoint ++ env.ModifyOrderApi
    let requestBody := parseVendorRequestBody env request
    let call : VendorCall VendorRequest :=
      ⟨MethodPost, uri, requestBody, env.rupeeseedHeaders, env.ApiTimeout⟩
    let reply := InvokeHttp call
    c := c.invoked call
    if reply.err ≠ none then
      response := { response with Errors := response.Errors ++ [GetErrorDetails "VendorApiFailure" ""] }
      c := c.JSON StatusInternalServerError response
      c := c.Abort
      return c
    else if reply.status ≠ StatusOK then
      response := { response with Errors := response.Errors ++ [GetErrorDetails "VendorConnectionFailure" ""] }
      c := c.JSON reply.status response
      c := c.Abort
      return c
    match Unmarshal reply.body with
    | none =>
      response := { response with Errors := response.Errors ++ [GetErrorDetails "JsonUnmarshalError" ""] }
      c := c.JSON StatusInternalServerError response
      c := c.Abort
      return c
    | some obj =>
      if obj.Status ≠ Success then
        if env.RupeeseedErrors obj.ErrCode = StatusBadRequest then
          response := { response with Errors := response.Errors ++ [GetErrorDetails "BadRequest" (":" ++ obj.Message)] }
          c := c.JSON StatusBadRequest response
        else if env.RupeeseedErrors obj.ErrCode = StatusInternalServerError then
          response := { response with Errors := response.Errors ++ [GetErrorDetails "InternalServerError" (":" ++ obj.Message)] }
          c := c.JSON StatusInternalServerError response
        else
          response := { response with Errors := response.Errors ++ [GetErrorDetails "InternalServerError" ""] }
          c := c.JSON StatusInternalServerError response
        c := c.Abort
        return c
      response := { response with Data := obj.Data }
      response := { response with Status := true }
      response := { response with Message := env.OrderModificationSuccess }
      c := c.JSON StatusOK response
      return c

/-- Embedding of `(*trade).BracketOrderModify` (order.go, lines 890-955): the request is
bound and translated, with no validator in between; `bound`, `InvokeHttp` and
`Unmarshal` are as for `PlaceOrder`. -/
def BracketOrderModify {D : Type} (env : Env)
    (InvokeHttp : VendorCall VendorRequest → VendorReply)
    (Unmarshal : String → Option (RupeeseedNormalOrderResponse D))
    (bound : Option ModifyOrderRequest) :
    GinContext VendorRequest (Response D) := Id.run do
  let mut c : GinContext VendorRequest (Response D) := {}
  let mut response : Response D := {}
  match bound with
  | none =>
    response := { response with Errors := response.Errors ++ [GetErrorDetails "BadRequest" ""] }
    c := c.JSON StatusBadRequest response
    c := c.Abort
    return c
  | some request =>
    let uri := env.EndPoint ++ env.BoModifyOrderAPI
    let requestBody := parseVendorRequestBody env request
    let call : VendorCall VendorRequest :=
      ⟨MethodPost, uri, requestBody, env.rupeeseedHeaders, env.ApiTimeout⟩
    let reply := InvokeHttp call
    c := c.invoked call
    if reply.err ≠ none then
      response := { response with Errors := response.Errors ++ [GetErrorDetails "VendorApiFailure" ""] }
      c := c.JSON StatusInternalServerError response
      c := c.Abort
      return c
    else if reply.status ≠ StatusOK then
      response := { response with Errors := response.Errors ++ [GetErrorDetails "VendorConnectionFailure" ""] }
      c := c.JSON reply.status response
      c := c.Abort
      return c
    match Unmarshal reply.body with
    | none =>
      response := { response with Errors := response.Errors ++ [GetErrorDetails "JsonUnmarshalError" ""] }
      c := c.JSON StatusInternalServerError response
      c := c.Abort
      return c
    | some obj =>
      if obj.Status ≠ Success then
        if env.RupeeseedErrors obj.ErrCode = StatusBadRequest then
          response := { response with Errors := response.Errors ++ [GetErrorDetails "BadRequest" (":" ++ obj.Message)] }
          c := c.JSON StatusBadRequest response
        else if env.RupeeseedErrors obj.ErrCode = StatusInternalServerError then
          response := { response with Errors := response.Errors ++ [GetErrorDetails "InternalServerError" (":" ++ obj.Message)] }
          c := c.JSON StatusInternalServerError response
        else
          response := { response with Errors := response.Errors ++ [GetErrorDetails "InternalServerError" ""] }
          c := c.JSON StatusInternalServerError response
        c := c.Abort
        return c
      response := { response with Data := obj.Data }
      response := { response with Status := true }
      response := { response with Message := env.OrderModificationSuccess }
      c := c.JSON StatusOK response
      return c

/-- Embedding of `(*trade).CoverOrderModify` (order.go, lines 963-1027): the request is
bound and translated, with no validator in between; `bound`, `InvokeHttp` and
`Unmarshal` are as for `PlaceOrder`. -/
def CoverOrderModify {D : Type} (env : Env)
    (InvokeHttp : VendorCall VendorRequest → VendorReply)
    (Unmarshal : String → Option (RupeeseedNormalOrderResponse D))
    (bound : Option ModifyOrderRequest) :
    GinContext VendorRequest (Response D) := Id.run do
  let mut c : GinContext VendorRequest (Response D) := {}
  let mut response : Response D := {}
  match bound with
  | none =>
    response := { response with Errors := response.Errors ++ [GetErrorDetails "BadRequest" ""] }
    c := c.JSON StatusBadRequest response
    c := c.Abort
    return c
  | some request =>
    let uri := env.EndPoint ++ env.CoModifyOrderApi
    let requestBody := parseVendorRequestBody env request
    let call : VendorCall VendorRequest :=
      ⟨MethodPost, uri, requestBody, env.rupeeseedHeaders, env.ApiTimeout⟩
    let reply := InvokeHttp call
    c := c.invoked call
    if reply.err ≠ none then
      response := { response with Errors := response.Errors ++ [GetErrorDetails "VendorApiFailure" ""] }
      c := c.JSON StatusInternalServerError response
      c := c.Abort
      return c
    else if reply.status ≠ StatusOK then
      response := { response with Errors := response.Errors ++ [GetErrorDetails "VendorConnectionFailure" ""] }
      c := c.JSON reply.status response
      c := c.Abort
      return c
    match Unmarshal reply.body with
    | none =>
      response := { response with Errors := response.Errors ++ [GetErrorDetails "JsonUnmarshalError" ""] }
      c := c.JSON StatusInternalServerError response
      c := c.Abort
      return c
    | some obj =>
      if obj.Status ≠ Success then
        if env.RupeeseedErrors obj.ErrCode = StatusBadRequest then
          response := { response with Errors := response.Errors ++ [GetErrorDetails "BadRequest" (":" ++ obj.Message)] }
          c := c.JSON StatusBadRequest response
        else if env.RupeeseedErrors obj.ErrCode = StatusInternalServerError then
          response := { response with Errors := response.Errors ++ [GetErrorDetails "InternalServerError" (":" ++ obj.Message)] }
          c := c.JSON StatusInternalServerError response
        else
          response := { response with Errors := response.Errors ++ [GetErrorDetails "InternalServerError" ""] }
          c := c.JSON StatusInternalServerError response
        c := c.Abort
        return c
      response := { response with Data := obj.Data }
      response := { response with Status := true }
      response := { response with Message := env.OrderModificationSuccess }
      c := c.JSON StatusOK response
      return c

/-! ## Sample values for concrete evaluations -/

/-- A sample configuration for evaluating the handlers on concrete requests.
Its entries stand for values declared outside `src/`; no general statement
depends on them. -/
def sampleEnv : Env :=
  { EndPoint := "https://vendor.example"
    OrderApi := "/OrderEntry"
    ModifyOrderApi := "/OrderModify"
    BoModifyOrderAPI := "/BoOrderModify"
    CoModifyOrderApi := "/CoOrderModify"
    rupeeseedHeaders := [("Content-Type", "application/json")]
    ApiTimeout := 5
    Source := "W"
    OrderModificationSuccess := "Order modified successfully"
    RupeeseedErrors := fun code =>
      if code = "RS-0001" then 400 else if code = "RS-0002" then 500 else 0
    sprintfF := fun x => toString x.num ++ "/" ++ toString x.den }

/-- A sample vendor that always answers HTTP 200 with the body `"ok"`. -/
def sampleVendor {P : Type} : VendorCall P → VendorReply :=
  fun _ => { body := "ok", status := 200, err := none }

/-- A sample decoder that reads every body as a success envelope without data. -/
def sampleUnmarshal : String → Option (RupeeseedNormalOrderResponse Unit) :=
  fun _ => some { Status := "success" }

/-! ## The spec's reading of the validation order (§4.1) -/

/-- A validation rule in the spec's sense: the condition under which a request
violates it and the detail reported then. -/
structure Rule (α : Type) where
  violated : α → Bool
  detail : String

/-- The spec's "first violated rule wins": the detail of the first rule of the
list that the request violates, and no error when it violates none. -/
def firstViolated {α : Type} (rules : List (Rule α)) (r : α) : Option String :=
  (rules.find? (fun rule => rule.violated r)).map Rule.detail

/-- The detail of the after-market rule, shared by the three families. -/
def amoDetail : String := ":OffMktOrderTimeFlag possible allowed values are 1|2|3 in AMO"

/-- The rules of a normal order in the spec's fixed order: the LMT price rule;
for SL the price, trigger price, validity, buy-side and sell-side rules; for SLM
the trigger price and validity rules; the after-market rule last. -/
def normalRules : List (Rule PlaceOrderRequest) :=
  [ ⟨fun r => decide (r.OrderType = LMT ∧ r.Price ≤ 0),
      ":Price cannot be zero with limit order"⟩,
    ⟨fun r => decide (r.OrderType = SL ∧ r.Price ≤ 0),
      ":Price cannot be zero with trigger limit order"⟩,
    ⟨fun r => decide (r.OrderType = SL ∧ r.TriggerPrice ≤ 0),
      ":Trigger Price cannot be zero with limit order"⟩,
    ⟨fun r => decide (r.OrderType = SL ∧ r.Validity = IOC),
      ":Validity cannot be IOC with Trigger order"⟩,
    ⟨fun r => decide (r.OrderType = SL ∧ r.TxnType = BUY ∧ r.TriggerPrice > r.Price),
      ":Trigger Price cannot be greater than limit buy price"⟩,
    ⟨fun r => decide (r.OrderType = SL ∧ r.TxnType = SELL ∧ r.TriggerPrice < r.Price),
      ":Trigger Price cannot be less than limit buy price"⟩,
    ⟨fun r => decide (r.OrderType = SLM ∧ r.TriggerPrice ≤ 0),
      ":Trigger Price cannot be zero with limit order"⟩,
    ⟨fun r => decide (r.OrderType = SLM ∧ r.Validity = IOC),
      ":Validity cannot be IOC with Trigger order"⟩,
    ⟨fun r => decide (r.OffMktFlag = true ∧ r.OffMktOrderTimeFlag ≤ 0), amoDetail⟩ ]

/-- The rules of a cover order in the spec's fixed order, the after-market rule
last. -/
def coverRules : List (Rule PlaceCoverOrderRequest) :=
  [ ⟨fun r => decide (r.OrderType = LMT ∧ r.Price ≤ 0),
      ":Price cannot be zero with limit order"⟩,
    ⟨fun r => decide (r.TriggerPrice ≤ 0), ":Trigger Price cannot be zero"⟩,
    ⟨fun r => decide (r.OffMktFlag = true ∧ r.OffMktOrderTimeFlag ≤ 0), amoDetail⟩ ]

/-- The rules of a bracket order in the spec's fixed order, the after-market
rule last. -/
def bracketRules : List (Rule PlaceBracketOrderRequest) :=
  [ ⟨fun r => decide (r.OrderType = LMT ∧ r.Price ≤ 0),
      ":Price cannot be zero with limit order"⟩,
    ⟨fun r => decide (r.ProfitValue ≤ 0 ∧ r.StoplossValue ≤ 0),
      ":ProfitValue, StoplossValue cannot be zero"⟩,
    ⟨fun r => decide (r.ProfitValue ≤ 0), ":ProfitValue cannot be zero"⟩,
    ⟨fun r => decide (r.StoplossValue ≤ 0), ":StoplossValue cannot be zero"⟩,
    ⟨fun r => decide (r.OffMktFlag = true ∧ r.OffMktOrderTimeFlag ≤ 0), amoDetail⟩ ]

/-! ## Bracket and cover payloads -/

/-- The `Data` part of `RupeseedBracketOrderRequest`, with the fields that
`getRupeseedBracketRequestBody` writes. -/
structure RupeseedBracketOrderData where
  ClientID : String := ""
  TxnType : String := ""
  Exchange : String := ""
  Segment : String := ""
  Product : String := ""
  Quantity : String := ""
  Price : String := ""
  Validity : String := ""
  OrderType : String := ""
  ProfitValue : String := ""
  StoplossValue : String := ""
  ExchangeToken : String := ""
  OffMktFlag : String := ""
  deriving DecidableEq, Repr

/-- The vendor payload of a bracket order. -/
structure RupeseedBracketOrderRequest where
  EntityID : String := ""
  Source : String := ""
  Data : RupeseedBracketOrderData := {}
  deriving DecidableEq, Repr

/-- Embedding of `getRupeseedBracketRequestBody` (order.go, lines 732-765); the
assignments to `temp` are made in source order. -/
def getRupeseedBracketRequestBody (env : Env) (req : PlaceBracketOrderRequest) :
    RupeseedBracketOrderRequest := Id.run do
  let userId := "TEST2"
  let mut temp : RupeseedBracketOrderRequest := {}
  temp := { temp with EntityID := userId }
  temp := { temp with Source := env.Source }
  temp := { temp with Data.ClientID := userId }
  temp := { temp with Data.TxnType := req.TxnType }
  temp := { temp with Data.Exchange := req.Exchange }
  temp := { temp with Data.Segment := req.Segment }
  temp := { temp with Data.Product := req.Product }
  temp := { temp with Data.Exchange := req.Exchange }
  temp := { temp with Data.Quantity := sprintfD req.Quantity }
  temp := { temp with Data.Price := env.sprintfF req.Price }
  temp := { temp with Data.Validity := req.Validity }
  temp := { temp with Data.OrderType := req.OrderType }
  temp := { temp with Data.ProfitValue := env.sprintfF req.ProfitValue }
  temp := { temp with Data.StoplossValue := env.sprintfF req.StoplossValue }
  temp := { temp with Data.ExchangeToken := sprintfD req.ExchangeToken }
  if req.ProfitValue > 0 then
    temp := { temp with Data.ProfitValue := env.sprintfF req.ProfitValue }
  if req.StoplossValue > 0 then
    temp := { temp with Data.StoplossValue := env.sprintfF req.StoplossValue }
  if req.OffMktFlag = true then
    temp := { temp with Data.OffMktFlag := "true" }
  else
    temp := { temp with Data.OffMktFlag := "false" }
  return temp

/-- The `Data` part of `RupeseedCoverOrderRequest`, with the fields that
`getRupeseedCoverRequestBody` writes. -/
structure RupeseedCoverOrderData where
  ClientID : String := ""
  TxnType : String := ""
  Exchange : String := ""
  Segment : String := ""
  Product : String := ""
  Quantity : String := ""
  Price : String := ""
  Validity : String := ""
  OrderType : String := ""
  TriggerPrice : String := ""
  ExchangeToken : String := ""
  OffMktFlag : String := ""
  deriving DecidableEq, Repr

/-- The vendor payload of a cover order. -/
structure RupeseedCoverOrderRequest where
  EntityID : String := ""
  Source : String := ""
  Data : RupeseedCoverOrderData := {}
  deriving DecidableEq, Repr

/-- Embedding of `getRupeseedCoverRequestBody` (order.go, lines 856-882); the
assignments to `temp` are made in source order. -/
def getRupeseedCoverRequestBody (env : Env) (req : PlaceCoverOrderRequest) :
    RupeseedCoverOrderRequest := Id.run do
  let userId := "TEST2"
  let mut temp : RupeseedCoverOrderRequest := {}
  temp := { temp with EntityID := userId }
  temp := { temp with Source := env.Source }
  temp := { temp with Data.ClientID := userId }
  temp := { temp with Data.TxnType := req.TxnType }
  temp := { temp with Data.Exchange := req.Exchange }
  temp := { temp with Data.Segment := req.Segment }
  temp := { temp with Data.Product := req.Product }
  temp := { temp with Data.Exchange := req.Exchange }
  temp := { temp with Data.Quantity := sprintfD req.Quantity }
  temp := { temp with Data.Price := env.sprintfF req.Price }
  temp := { temp with Data.Validity := req.Validity }
  temp := { temp with Data.OrderType := req.OrderType }
  temp := { temp with Data.TriggerPrice := env.sprintfF req.TriggerPrice }
  temp := { temp with Data.ExchangeToken := sprintfD req.ExchangeToken }
  if req.OffMktFlag = true then
    temp := { temp with Data.OffMktFlag := "true" }
  else
    temp := { temp with Data.OffMktFlag := "false" }
  return temp

/-- A run of decimal digits without padding: not empty, digits only, and a
leading `0` only when it is the single digit. -/
def unpaddedDigits (ds : List Char) : Bool :=
  !ds.isEmpty && ds.all Char.isDigit && (ds.head? != some '0' || ds.length == 1)

/-- A base-10 numeral without padding: an optional leading `-` followed by an
unpadded run of digits (no blank, no `+`, no leading zero). -/
def isUnpaddedNumeral (s : String) : Bool :=
  match s.data with
  | '-' :: ds => unpaddedDigits ds
  | ds => unpaddedDigits ds

/-! ## Further configuration and constants -/

/-- The remaining package-level constants that `order.go` reads and that are
declared outside `src/`: the API paths of the bracket, cover, order-book,
position-book and conversion endpoints and the two fixed tags of a conversion
request. -/
structure GatewayEnv extends Env where
  BracketOrderApi : String
  CoverOrderApi : String
  OrderBookApi : String
  PositionBookApi : String
  ConvertPositionApi : String
  RuppeeSeedMarketType : String
  UserTypeClient : String

/-- Go `http.StatusNotFound`. -/
def StatusNotFound : Int := 404

/-- Modelled from the spec: the error name `e.BadRequest` of package `e` (not
under `src/`), the name carried by the errors of kind `BadRequest`. -/
def BadRequest : String := "BadRequest"

/-- Modelled from the spec: the error name `e.VendorOMSError` of package `e`
(not under `src/`), the name carried by the errors of kind `VendorOMSError`. -/
def VendorOMSError : String := "VendorOMSError"

/-- Modelled from the spec: the vendor status `Transit` (declaration not under
`src/`; spelled as in the status table of `OrderBook`). -/
def Transit : String := "Transit"

/-- Modelled from the spec: the status `Pending`, both a vendor status and a
client status (declaration not under `src/`). -/
def Pending : String := "Pending"

/-- Modelled from the spec: the vendor status `Modified` (declaration not under
`src/`). -/
def Modified : String := "Modified"

/-- Modelled from the spec: the vendor status `Part-traded` (declaration not
under `src/`). -/
def PartTraded : String := "Part-traded"

/-- Modelled from the spec: the vendor status `Traded` (declaration not under
`src/`). -/
def Traded : String := "Traded"

/-- Modelled from the spec: the status `Rejected`, both a vendor status and a
client status (declaration not under `src/`). -/
def Rejected : String := "Rejected"

/-- Modelled from the spec: the status `Cancelled`, both a vendor status and a
client status (declaration not under `src/`). -/
def Cancelled : String := "Cancelled"

/-- Modelled from the spec: `Executed`, both the client status and the name of
the section (declaration not under `src/`). -/
def Executed : String := "Executed"

/-- Modelled from the spec: the client status `Partially Executed` (declaration
not under `src/`). -/
def PartExecuted : String := "Partially Executed"

/-- Modelled from the spec: the section `Open` (declaration not under `src/`). -/
def Open : String := "Open"

/-! ## Bracket and cover placement -/

/-- The vendor envelope `RupeeseedBracketOrderResponse`. -/
structure RupeeseedBracketOrderResponse (D : Type) where
  Status : String := ""
  ErrCode : String := ""
  Message : String := ""
  Data : Option D := none

/-- The client envelope `PlaceBracketOrderResponse`. -/
structure PlaceBracketOrderResponse (D : Type) where
  Status : Bool := false
  Data : Option D := none
  Errors : List ErrorDetail := []
  deriving DecidableEq

/-- Embedding of `(*trade).PlaceBracketOrder` (order.go, lines 649-726);
`bound`, `InvokeHttp` and `Unmarshal` are as for `PlaceOrder`. -/
def PlaceBracketOrder {D : Type} (env : GatewayEnv)
    (InvokeHttp : VendorCall RupeseedBracketOrderRequest → VendorReply)
    (Unmarshal : String → Option (RupeeseedBracketOrderResponse D))
    (bound : Option PlaceBracketOrderRequest) :
    GinContext RupeseedBracketOrderRequest (PlaceBracketOrderResponse D) := Id.run do
  let mut c : GinContext RupeseedBracketOrderRequest (PlaceBracketOrderResponse D) := {}
  let mut response : PlaceBracketOrderResponse D := {}
  match bound with
  | none =>
    response := { response with Errors := response.Errors ++ [GetErrorDetails "BadRequest" ""] }
    c := c.JSON StatusBadRequest response
    c := c.Abort
    return c
  | some request =>
    match bracketOrderValidation request with
    | some err =>
      response := { response with Errors := response.Errors ++ [GetErrorDetails "BadRequest" err] }
      c := c.JSON StatusBadRequest response
      c := c.Abort
      return c
    | none =>
      let uri := env.EndPoint ++ env.BracketOrderApi
      let requestBody := getRupeseedBracketRequestBody env.toEnv request
      let call : VendorCall RupeseedBracketOrderRequest :=
        ⟨MethodPost, uri, requestBody, env.rupeeseedHeaders, env.ApiTimeout⟩
      let reply := InvokeHttp call
      c := c.invoked call
      if reply.err ≠ none then
        response := { response with Errors := response.Errors ++ [GetErrorDetails "VendorApiFailure" ""] }
        c := c.JSON StatusInternalServerError response
        c := c.Abort
        return c
      else if reply.status ≠ StatusOK then
        response := { response with Errors := response.Errors ++ [GetErrorDetails "VendorConnectionFailure" ""] }
        c := c.JSON reply.status response
        c := c.Abort
        return c
      match Unmarshal reply.body with
      | none =>
        response := { response with Errors := response.Errors ++ [GetErrorDetails "JsonUnmarshalError" ""] }
        c := c.JSON StatusInternalServerError response
        c := c.Abort
        return c
      | some obj =>
        if obj.Status ≠ Success then
          if env.RupeeseedErrors obj.ErrCode = StatusBadRequest then
            response := { response with Errors := response.Errors ++ [GetErrorDetails "BadRequest" (":" ++ obj.Message)] }
            c := c.JSON StatusBadRequest response
          else if env.RupeeseedErrors obj.ErrCode = StatusInternalServerError then
            response := { response with Errors := response.Errors ++ [GetErrorDetails "InternalServerError" (":" ++ obj.Message)] }
            c := c.JSON StatusInternalServerError response
          else
            response := { response with Errors := response.Errors ++ [GetErrorDetails "InternalServerError" ""] }
            c := c.JSON StatusInternalServerError response
          c := c.Abort
          return c
        response := { response with Data := obj.Data }
        response := { response with Status := true }
        c := c.JSON StatusOK response
        return c

/-- Embedding of `(*trade).PlaceCoverOrder` (order.go, lines 773-850); `bound`,
`InvokeHttp` and `Unmarshal` are as for `PlaceOrder`. -/
def PlaceCoverOrder {D : Type} (env : GatewayEnv)
    (InvokeHttp : VendorCall RupeseedCoverOrderRequest → VendorReply)
    (Unmarshal : String → Option (RupeeseedNormalOrderResponse D))
    (bound : Option PlaceCoverOrderRequest) :
    GinContext RupeseedCoverOrderRequest (PlaceOrderResponse D) := Id.run do
  let mut c : GinContext RupeseedCoverOrderRequest (PlaceOrderResponse D) := {}
  let mut response : PlaceOrderResponse D := {}
  match bound with
  | none =>
    response := { response with Errors := response.Errors ++ [GetErrorDetails "BadRequest" ""] }
    c := c.JSON StatusBadRequest response
    c := c.Abort
    return c
  | some request =>
    match coverOrderValidation request with
    | some err =>
      response := { response with Errors := response.Errors ++ [GetErrorDetails "BadRequest" err] }
      c := c.JSON StatusBadRequest response
      c := c.Abort
      return c
    | none =>
      let uri := env.EndPoint ++ env.CoverOrderApi
      let requestBody := getRupeseedCoverRequestBody env.toEnv request
      let call : VendorCall RupeseedCoverOrderRequest :=
        ⟨MethodPost, uri, requestBody, env.rupeeseedHeaders, env.ApiTimeout⟩
      let reply := InvokeHttp call
      c := c.invoked call
      if reply.err ≠ none then
        response := { response with Errors := response.Errors ++ [GetErrorDetails "VendorApiFailure" ""] }
        c := c.JSON StatusInternalServerError response
        c := c.Abort
        return c
      else if reply.status ≠ StatusOK then
        response := { response with Errors := response.Errors ++ [GetErrorDetails "VendorConnectionFailure" ""] }
        c := c.JSON reply.status response
        c := c.Abort
        return c
      match Unmarshal reply.body with
      | none =>
        response := { response with Errors := response.Errors ++ [GetErrorDetails "JsonUnmarshalError" ""] }
        c := c.JSON StatusInternalServerError response
        c := c.Abort
        return c
      | some obj =>
        if obj.Status ≠ Success then
          if env.RupeeseedErrors obj.ErrCode = StatusBadRequest then
            response := { response with Errors := response.Errors ++ [GetErrorDetails "BadRequest" (":" ++ obj.Message)] }
            c := c.JSON StatusBadRequest response
          else if env.RupeeseedErrors obj.ErrCode = StatusInternalServerError then
            response := { response with Errors := response.Errors ++ [GetErrorDetails "InternalServerError" (":" ++ obj.Message)] }
            c := c.JSON StatusInternalServerError response
          else
            response := { response with Errors := response.Errors ++ [GetErrorDetails "InternalServerError" ""] }
            c := c.JSON StatusInternalServerError response
          c := c.Abort
          return c
        response := { response with Data := obj.Data }
        response := { response with Status := true }
        c := c.JSON StatusOK response
        return c

/-! ## Order book -/

/-- The functions of Go's `strings` package that `filterOrder` applies to
text: `strings.ToLower` and `strings.TrimSpace`, taken as given, with the one
fact about them that is used: lower-casing yields the empty string only from the
empty string. -/
structure GoStrings where
  ToLower : String → String
  TrimSpace : String → String
  toLower_eq_empty : ∀ s, ToLower s = "" ↔ s = ""

/-- Go `strings.Contains(s, substr)`: `substr` occurs in `s` as a contiguous
run. -/
def Contains (s substr : String) : Bool := decide (substr.data <:+: s.data)

/-- The four query parameters that `filterOrder` reads with `ctx.Query`; an
absent parameter reads as the empty string. -/
structure OrderQuery where
  SearchTxt : String := ""
  Segment : String := ""
  OptionsType : String := ""
  Status : String := ""

/-- A row of the vendor order book, `RupeeseedOrderBook`, with the fields that
`order.go` reads.  Their types are declared outside `src/`; the fields are
only copied or compared as text. -/
structure RupeeseedOrderBook where
  GoodTillDaysDate : String := ""
  Symbol : String := ""
  DqQtyRem : String := ""
  DiscQuantity : String := ""
  Price : String := ""
  Segment : String := ""
  LotSize : String := ""
  OrderType : String := ""
  SecurityID : String := ""
  ExpiryFlag : String := ""
  DisplayName : String := ""
  ProductName : String := ""
  LastUpdatedTime : String := ""
  TriggerPrice : String := ""
  ExchOrderTime : String := ""
  Exchange : String := ""
  ErrorCode : String := ""
  SerialNo : String := ""
  Status : String := ""
  OrderNo : String := ""
  RemainingQuantity : String := ""
  ParticipantType : String := ""
  Product : String := ""
  OrderDateTime : String := ""
  Quantity : String := ""
  ExpiryDate : String := ""
  ExchOrderNo : String := ""
  TradedPrice : String := ""
  TxnType : String := ""
  RemQtyTotQty : String := ""
  Validity : String := ""
  AvgTradedPrice : String := ""
  TradedQty : String := ""
  OptType : String := ""
  deriving DecidableEq, Repr

/-- A row of the client order book, the Go type `OrderBook`, with the fields
that `order.go` writes.  It is named as in spec §3, the name `OrderBook` being
taken by the handler. -/
structure OrderBookRow where
  GoodTillDaysDate : String := ""
  Symbol : String := ""
  DqQtyRem : String := ""
  DiscQuantity : String := ""
  Price : String := ""
  Segment : String := ""
  LotSize : String := ""
  OrderType : String := ""
  SecurityID : String := ""
  ExpiryFlag : String := ""
  DisplayName : String := ""
  ProductName : String := ""
  LastUpdatedTime : String := ""
  TriggerPrice : String := ""
  ExchOrderTime : String := ""
  Exchange : String := ""
  ErrorCode : String := ""
  SerialNo : String := ""
  Status : String := ""
  OrderNo : String := ""
  RemainingQuantity : String := ""
  ParticipantType : String := ""
  Product : String := ""
  OrderDateTime : String := ""
  Quantity : String := ""
  ExpiryDate : String := ""
  ExchOrderNo : String := ""
  TradedPrice : String := ""
  TxnType : String := ""
  RemQtyTotQty : String := ""
  Validity : String := ""
  AvgTradedPrice : String := ""
  TradedQty : String := ""
  StreamSymbol : String := ""
  Section : String := ""
  deriving DecidableEq, Repr

/-- Go's `&&` on two `bool` values. -/
def boolAnd (a b : Bool) : Bool :=
  match a with
  | true => b
  | false => false

/-- Go's `||` on two `bool` values. -/
def boolOr (a b : Bool) : Bool :=
  match a with
  | true => true
  | false => b

/-- Embedding of `filterOrder` (order.go, lines 603-641); `ctx` holds the
values of the four query parameters, and `len(x) != 0` is `x ≠ ""`. -/
def filterOrder (lib : GoStrings) (ctx : OrderQuery) (order : RupeeseedOrderBook) : Bool :=
  Id.run do
  let mut flag := true
  let searchTxt := lib.ToLower (lib.TrimSpace ctx.SearchTxt)
  let segment := lib.ToLower (lib.TrimSpace ctx.Segment)
  let optionsType := lib.ToLower (lib.TrimSpace ctx.OptionsType)
  let status := lib.ToLower (lib.TrimSpace ctx.Status)
  if searchTxt ≠ "" then
    flag := boolAnd flag (boolOr (Contains (lib.ToLower order.Symbol) searchTxt)
      (Contains (lib.ToLower order.DisplayName) searchTxt))
  if segment ≠ "" then
    flag := boolAnd flag (lib.ToLower order.Segment == segment)
  if optionsType ≠ "" then
    flag := boolAnd flag (lib.ToLower order.OptType == optionsType)
  if status ≠ "" then
    let orderStatus := lib.ToLower order.Status
    if status = lib.ToLower Open then
      flag := boolAnd flag (boolOr (orderStatus == lib.ToLower Transit)
        (boolOr (orderStatus == lib.ToLower Pending)
          (boolOr (orderStatus == lib.ToLower Modified)
            (orderStatus == lib.ToLower PartTraded))))
    else if status = lib.ToLower Executed then
      flag := boolAnd flag (boolOr (orderStatus == lib.ToLower Traded)
        (boolOr (orderStatus == lib.ToLower Rejected)
          (orderStatus == lib.ToLower Cancelled)))
    else
      flag := false
  return flag

/-- The body of the `for ... range obj.Data` loop of `OrderBook` for a row that
passed the filter (order.go, lines 352-416): the copy of the vendor row, the
stream symbol, and the status and section mapping.  The second `if` tests the
client status written so far (`orderBook.Status`), as the source does. -/
def toOrderBookRow (rOrderBook : RupeeseedOrderBook) : OrderBookRow := Id.run do
  let mut orderBook : OrderBookRow := {}
  orderBook := { orderBook with GoodTillDaysDate := rOrderBook.GoodTillDaysDate }
  orderBook := { orderBook with Symbol := rOrderBook.Symbol }
  orderBook := { orderBook with DqQtyRem := rOrderBook.DqQtyRem }
  orderBook := { orderBook with DiscQuantity := rOrderBook.DiscQuantity }
  orderBook := { orderBook with Price := rOrderBook.Price }
  orderBook := { orderBook with Segment := rOrderBook.Segment }
  orderBook := { orderBook with LotSize := rOrderBook.LotSize }
  orderBook := { orderBook with OrderType := rOrderBook.OrderType }
  orderBook := { orderBook with SecurityID := rOrderBook.SecurityID }
  orderBook := { orderBook with ExpiryFlag := rOrderBook.ExpiryFlag }
  orderBook := { orderBook with DisplayName := rOrderBook.DisplayName }
  orderBook := { orderBook with ProductName := rOrderBook.ProductName }
  orderBook := { orderBook with LastUpdatedTime := rOrderBook.LastUpdatedTime }
  orderBook := { orderBook with TriggerPrice := rOrderBook.TriggerPrice }
  orderBook := { orderBook with ExchOrderTime := rOrderBook.ExchOrderTime }
  orderBook := { orderBook with Exchange := rOrderBook.Exchange }
  orderBook := { orderBook with ErrorCode := rOrderBook.ErrorCode }
  orderBook := { orderBook with SerialNo := rOrderBook.SerialNo }
  orderBook := { orderBook with Status := rOrderBook.Status }
  orderBook := { orderBook with OrderNo := rOrderBook.OrderNo }
  orderBook := { orderBook with RemainingQuantity := rOrderBook.RemainingQuantity }
  orderBook := { orderBook with ParticipantType := rOrderBook.ParticipantType }
  orderBook := { orderBook with Product := rOrderBook.Product }
  orderBook := { orderBook with OrderDateTime := rOrderBook.OrderDateTime }
  orderBook := { orderBook with Quantity := rOrderBook.Quantity }
  orderBook := { orderBook with ExpiryDate := rOrderBook.ExpiryDate }
  orderBook := { orderBook with ExchOrderNo := rOrderBook.ExchOrderNo }
  orderBook := { orderBook with TradedPrice := rOrderBook.TradedPrice }
  orderBook := { orderBook with TxnType := rOrderBook.TxnType }
  orderBook := { orderBook with RemQtyTotQty := rOrderBook.RemQtyTotQty }
  orderBook := { orderBook with Validity := rOrderBook.Validity }
  orderBook := { orderBook with AvgTradedPrice := rOrderBook.AvgTradedPrice }
  orderBook := { orderBook with TradedQty := rOrderBook.TradedQty }
  orderBook := { orderBook with StreamSymbol := rOrderBook.SecurityID ++ "_" ++ rOrderBook.Exchange }
  if rOrderBook.Status = Traded ∨ rOrderBook.Status = Rejected ∨ rOrderBook.Status = Cancelled then
    if rOrderBook.Status = Traded then
      orderBook := { orderBook with Status := Executed }
    orderBook := { orderBook with Section := Executed }
  if rOrderBook.Status = Transit ∨ rOrderBook.Status = Pending ∨ rOrderBook.Status = Modified ∨
      rOrderBook.Status = PartTraded then
    if orderBook.Status = PartTraded then
      orderBook := { orderBook with Status := PartExecuted }
    else
      orderBook := { orderBook with Status := Pending }
    orderBook := { orderBook with Section := Open }
  return orderBook

/-- The `Data` part of the vendor payloads of the two book queries. -/
structure RupeeseedBookData where
  ClientId : String := ""
  UserId : String := ""
  InteropFlag : String := ""
  deriving DecidableEq, Repr

/-- The vendor payload `RupeeseedOrderBookRequest`. -/
structure RupeeseedOrderBookRequest where
  EntityId : String := ""
  Source : String := ""
  Data : RupeeseedBookData := {}
  deriving DecidableEq, Repr

/-- Embedding of `getOrderBookRupeeseedRequestBody` (order.go, lines 438-448). -/
def getOrderBookRupeeseedRequestBody (env : GatewayEnv) : RupeeseedOrderBookRequest := Id.run do
  let mut temp : RupeeseedOrderBookRequest := {}
  let userId := "TEST2"
  temp := { temp with EntityId := userId }
  temp := { temp with Source := env.Source }
  temp := { temp with Data.ClientId := userId }
  temp := { temp with Data.UserId := userId }
  return temp

/-- The vendor envelope `RupeeseedOrderBookResponse`. -/
structure RupeeseedOrderBookResponse where
  Status : String := ""
  ErrorCode : String := ""
  Message : String := ""
  Data : List RupeeseedOrderBook := []

/-- The client envelope `OrderBookResponse`. -/
structure OrderBookResponse where
  Status : Bool := false
  Data : List OrderBookRow := []
  Errors : List ErrorDetail := []
  deriving DecidableEq

/-- Embedding of `(*trade).OrderBook` (order.go, lines 293-432).  `ctx` holds
the query parameters, `InvokeHttp` is the rest caller and `Unmarshal` the
decoding of the vendor body.  The `for ... range obj.Data` loop is the left
fold over the rows: a row that `filterOrder` rejects leaves the list as it is
(`continue`), any other row is appended after the body of the loop
(`toOrderBookRow`). -/
def OrderBook (env : GatewayEnv) (lib : GoStrings)
    (InvokeHttp : VendorCall RupeeseedOrderBookRequest → VendorReply)
    (Unmarshal : String → Option RupeeseedOrderBookResponse)
    (ctx : OrderQuery) :
    GinContext RupeeseedOrderBookRequest OrderBookResponse := Id.run do
  let mut c : GinContext RupeeseedOrderBookRequest OrderBookResponse := {}
  let mut response : OrderBookResponse := {}
  let uri := env.EndPoint ++ env.OrderBookApi
  let requestBody := getOrderBookRupeeseedRequestBody env
  let call : VendorCall RupeeseedOrderBookRequest :=
    ⟨MethodPost, uri, requestBody, env.rupeeseedHeaders, env.ApiTimeout⟩
  let reply := InvokeHttp call
  c := c.invoked call
  if reply.err ≠ none then
    response := { response with Errors := response.Errors ++ [GetErrorDetails "VendorApiFailure" ""] }
    c := c.JSON StatusInternalServerError response
    c := c.Abort
    return c
  else if reply.status ≠ StatusOK then
    response := { response with Errors := response.Errors ++ [GetErrorDetails "VendorConnectionFailure" ""] }
    c := c.JSON reply.status response
    c := c.Abort
    return c
  match Unmarshal reply.body with
  | none =>
    response := { response with Errors := response.Errors ++ [GetErrorDetails "JsonUnmarshalError" ""] }
    c := c.JSON StatusInternalServerError response
    c := c.Abort
    return c
  | some obj =>
    if obj.Status ≠ Success then
      if env.RupeeseedErrors obj.ErrorCode = StatusBadRequest then
        response := { response with Errors := response.Errors ++ [GetErrorDetails "BadRequest" (":" ++ obj.Message)] }
        c := c.JSON StatusBadRequest response
      else if env.RupeeseedErrors obj.ErrorCode = StatusInternalServerError then
        response := { response with Errors := response.Errors ++ [GetErrorDetails "InternalServerError" (":" ++ obj.Message)] }
        c := c.JSON StatusInternalServerError response
      else
        response := { response with Errors := response.Errors ++ [GetErrorDetails "InternalServerError" ""] }
        c := c.JSON StatusInternalServerError response
      c := c.Abort
      return c
    let orderBookList : List OrderBookRow :=
      obj.Data.foldl
        (fun orderBookList rOrderBook =>
          if filterOrder lib ctx rOrderBook = false then orderBookList
          else orderBookList ++ [toOrderBookRow rOrderBook])
        []
    if orderBookList.length = 0 then
      response := { response with Errors := response.Errors ++ [GetErrorDetails "NoDataFound" "order not found in OrderBook."] }
      c := c.JSON StatusNotFound response
      c := c.Abort
      return c
    response := { response with Data := orderBookList }
    response := { response with Status := true }
    c := c.JSON StatusOK response
    return c

/-! ## Floating-point and integer arithmetic -/

/-- A Go `float64`, that is an IEEE 754 binary64 value: `num q` is the finite
value `q` (`num 0` being the positive zero), `negZero` is the negative zero,
and `posInf`, `negInf`, `nan` are the two infinities and not-a-number.  A
`num q` stands for a float exactly when `q` is representable in binary64; the
operations below round their results, so they yield no other `num`. -/
inductive Float64 where
  | num (q : ℚ)
  | negZero
  | posInf
  | negInf
  | nan
  deriving DecidableEq, Repr

/-- The integer nearest to a rational, a tie going to the even integer. -/
def Float64.roundHalfEven (x : ℚ) : Int :=
  let f := ⌊x⌋
  let r := x - f
  if r < 1 / 2 then f
  else if 1 / 2 < r then f + 1
  else if f % 2 = 0 then f
  else f + 1

/-- The binary exponent of the binade of `q`, which for the subnormal numbers
is that of the smallest normal number, -1022. -/
def Float64.exponent (q : ℚ) : Int := max (Int.log 2 |q|) (-1022)

/-- The distance between neighbouring floats in the binade of `q`: a float has
53 significant bits. -/
def Float64.ulp (q : ℚ) : ℚ := (2 : ℚ) ^ (Float64.exponent q - 52)

/-- The multiple of `ulp q` nearest to `q`, a tie going to the even multiple. -/
def Float64.nearest (q : ℚ) : ℚ := Float64.roundHalfEven (q / Float64.ulp q) * Float64.ulp q

/-- The float that a computation with the exact result `q` delivers (rounding
to nearest, ties to even): a result that rounds to `2 ^ 1024` or beyond
overflows to an infinity, and a negative result that rounds to zero gives the
negative zero. -/
def Float64.ofRat (q : ℚ) : Float64 :=
  let r := Float64.nearest q
  if (2 : ℚ) ^ 1024 ≤ r then Float64.posInf
  else if r ≤ -(2 : ℚ) ^ 1024 then Float64.negInf
  else if r = 0 ∧ q < 0 then Float64.negZero
  else Float64.num r

/-- The conversion `float64(n)` of a Go integer. -/
def Float64.ofInt (n : Int) : Float64 := Float64.ofRat n

/-- The sign bit of a float. -/
def Float64.signBit : Float64 → Bool
  | Float64.num q => decide (q < 0)
  | Float64.negZero => true
  | Float64.posInf => false
  | Float64.negInf => true
  | Float64.nan => false

/-- The finite value of a float, `none` for the infinities and not-a-number. -/
def Float64.finite? : Float64 → Option ℚ
  | Float64.num q => some q
  | Float64.negZero => some 0
  | _ => none

/-- The negation `-x` of a float. -/
def Float64.neg : Float64 → Float64
  | Float64.num q => if q = 0 then Float64.negZero else Float64.num (-q)
  | Float64.negZero => Float64.num 0
  | Float64.posInf => Float64.negInf
  | Float64.negInf => Float64.posInf
  | Float64.nan => Float64.nan

/-- The sum `x + y` of two floats: the exact sum of two finite values is
rounded, and an exact sum zero is the positive zero unless both operands are
the negative zero. -/
def Float64.add : Float64 → Float64 → Float64
  | Float64.nan, _ => Float64.nan
  | _, Float64.nan => Float64.nan
  | Float64.posInf, Float64.negInf => Float64.nan
  | Float64.negInf, Float64.posInf => Float64.nan
  | Float64.posInf, _ => Float64.posInf
  | _, Float64.posInf => Float64.posInf
  | Float64.negInf, _ => Float64.negInf
  | _, Float64.negInf => Float64.negInf
  | Float64.negZero, Float64.negZero => Float64.negZero
  | Float64.negZero, Float64.num b => Float64.num b
  | Float64.num a, Float64.negZero => Float64.num a
  | Float64.num a, Float64.num b => Float64.ofRat (a + b)

/-- The difference `x - y` of two floats, the sum of `x` and the negation of
`y`. -/
def Float64.sub (x y : Float64) : Float64 := Float64.add x (Float64.neg y)

/-- The product `x * y` of two floats: its sign is the exclusive or of the
signs of the operands, the exact product of two finite values is rounded, and
an infinity times a zero is not-a-number. -/
def Float64.mul (x y : Float64) : Float64 :=
  if x = Float64.nan ∨ y = Float64.nan then Float64.nan
  else
    let negative := xor (Float64.signBit x) (Float64.signBit y)
    match Float64.finite? x, Float64.finite? y with
    | some a, some b =>
      if a * b = 0 then (if negative then Float64.negZero else Float64.num 0)
      else Float64.ofRat (a * b)
    | some a, none =>
      if a = 0 then Float64.nan else if negative then Float64.negInf else Float64.posInf
    | none, some b =>
      if b = 0 then Float64.nan else if negative then Float64.negInf else Float64.posInf
    | none, none => if negative then Float64.negInf else Float64.posInf

instance : Add Float64 := ⟨Float64.add⟩

instance : Sub Float64 := ⟨Float64.sub⟩

instance : Mul Float64 := ⟨Float64.mul⟩

/-- The least value of Go's 64-bit `int`. -/
def minInt64 : Int := -9223372036854775808

/-- The value that Go's 64-bit `int` holds for the exact integer result `x`:
results outside the range wrap around modulo `2 ^ 64`. -/
def wrapInt64 (x : Int) : Int :=
  (x + 9223372036854775808) % 18446744073709551616 - 9223372036854775808

/-! ## Position book -/

/-- A row of the vendor position book, `RupeeSeedPositionBook`, with the fields
that `order.go` reads.  Their types are declared outside `src/`: the net
quantity is an integer (it is converted with `float64(...)`), taken to be Go's
`int` of 64 bits; the prices and the realised profit are floats; and the other
fields are only copied or compared as text. -/
structure RupeeSeedPositionBook where
  Symbol : String := ""
  NetQty : Int := 0
  SellAvg : Float64 := Float64.num 0
  BuyAvg : Float64 := Float64.num 0
  GrossVal : String := ""
  TotSellQty : String := ""
  LastTradedPrice : Float64 := Float64.num 0
  Segment : String := ""
  GrossQty : String := ""
  LotSize : String := ""
  TotSellVal : String := ""
  Product : String := ""
  NetAvg : String := ""
  ExpiryDate : String := ""
  TotSellValDay : String := ""
  TotBuyVal : String := ""
  NetVal : String := ""
  DisplayName : String := ""
  TotBuyQty : String := ""
  Exchange : String := ""
  SecurityID : String := ""
  RealisedProfit : Float64 := Float64.num 0
  deriving DecidableEq, Repr

/-- A row of the client position book, `OrderPositionBook`. -/
structure OrderPositionBook where
  Symbol : String := ""
  NetQty : Int := 0
  SellAvg : Float64 := Float64.num 0
  BuyAvg : Float64 := Float64.num 0
  GrossVal : String := ""
  TotSellQty : String := ""
  LastTradedPrice : Float64 := Float64.num 0
  Segment : String := ""
  GrossQty : String := ""
  LotSize : String := ""
  TotSellVal : String := ""
  Product : String := ""
  NetAvg : String := ""
  ExpiryDate : String := ""
  TotSellValDay : String := ""
  TotBuyVal : String := ""
  NetVal : String := ""
  DisplayName : String := ""
  TotBuyQty : String := ""
  Exchange : String := ""
  SecurityID : String := ""
  StreamSymbol : String := ""
  RealisedProfit : Float64 := Float64.num 0
  deriving DecidableEq, Repr

/-- The vendor payload `RupeeseedPositionBookRequest`. -/
structure RupeeseedPositionBookRequest where
  EntityId : String := ""
  Source : String := ""
  Data : RupeeseedBookData := {}
  deriving DecidableEq, Repr

/-- Embedding of `getPositionBookRupeeseedRequestBody` (order.go, lines
546-557). -/
def getPositionBookRupeeseedRequestBody (env : GatewayEnv) : RupeeseedPositionBookRequest :=
  Id.run do
  let mut temp : RupeeseedPositionBookRequest := {}
  let userId := "TEST2"
  temp := { temp with EntityId := userId }
  temp := { temp with Source := env.Source }
  temp := { temp with Data.ClientId := userId }
  temp := { temp with Data.UserId := userId }
  temp := { temp with Data.InteropFlag := "IP" }
  return temp

/-- The vendor envelope `RupeeseedPositionBookResponse`. -/
structure RupeeseedPositionBookResponse where
  Status : String := ""
  ErrorCode : String := ""
  Message : String := ""
  Data : List RupeeSeedPositionBook := []

/-- What `fetchPositionBook` and `convertPosition` hand back: the vendor call
they made, the envelope `obj`, and the error (`none` is a nil `*e.Error`). -/
structure Fetched (P O : Type) where
  call : VendorCall P
  obj : O
  err : Option ErrorDetail

/-- Embedding of `(*trade).fetchPositionBook` (order.go, lines 1136-1183).
`InvokeResty` is the rest caller (called with nil headers and the timeout 700).
When decoding fails the zero envelope is returned; no caller reads it then. -/
def fetchPositionBook (env : GatewayEnv)
    (InvokeResty : VendorCall RupeeseedPositionBookRequest → VendorReply)
    (Unmarshal : String → Option RupeeseedPositionBookResponse) :
    Fetched RupeeseedPositionBookRequest RupeeseedPositionBookResponse := Id.run do
  let obj : RupeeseedPositionBookResponse := {}
  let uri := env.EndPoint ++ env.PositionBookApi
  let positionRequestBody := getPositionBookRupeeseedRequestBody env
  let call : VendorCall RupeeseedPositionBookRequest :=
    ⟨MethodPost, uri, positionRequestBody, [], 700⟩
  let reply := InvokeResty call
  if reply.err ≠ none then
    let er := GetErrorDetails "VendorApiFailure" ""
    return ⟨call, obj, some er⟩
  else if reply.status ≠ StatusOK then
    let er := GetErrorDetails "VendorConnectionFailure" ""
    return ⟨call, obj, some er⟩
  match Unmarshal reply.body with
  | none =>
    let er := GetErrorDetails "JsonUnmarshalError" ""
    return ⟨call, obj, some er⟩
  | some obj =>
    if obj.Status ≠ Success then
      if env.RupeeseedErrors obj.ErrorCode = StatusBadRequest then
        let er := GetErrorDetails "BadRequest" (":" ++ obj.Message)
        return ⟨call, obj, some er⟩
      else if env.RupeeseedErrors obj.ErrorCode = StatusInternalServerError then
        let er := GetErrorDetails "InternalServerError" (":" ++ obj.Message)
        return ⟨call, obj, some er⟩
      else
        let er := GetErrorDetails "InternalServerError" ""
        return ⟨call, obj, some er⟩
    return ⟨call, obj, none⟩

/-- The `Data` part of `PositionBookResponse`. -/
structure PositionBookData where
  OrderPosition : List OrderPositionBook := []
  TotalProfitLoss : Float64 := Float64.num 0
  deriving DecidableEq

/-- The client envelope `PositionBookResponse`. -/
structure PositionBookResponse where
  Status : Bool := false
  Data : PositionBookData := {}
  Errors : List ErrorDetail := []
  deriving DecidableEq

/-- The copy of a vendor position row made by the loop of `PositionBook`
(order.go, lines 478-501). -/
def positionRow (rPosition : RupeeSeedPositionBook) : OrderPositionBook := Id.run do
  let mut position : OrderPositionBook := {}
  position := { position with Symbol := rPosition.Symbol }
  position := { position with NetQty := rPosition.NetQty }
  position := { position with SellAvg := rPosition.SellAvg }
  position := { position with BuyAvg := rPosition.BuyAvg }
  position := { position with GrossVal := rPosition.GrossVal }
  position := { position with TotSellQty := rPosition.TotSellQty }
  position := { position with LastTradedPrice := rPosition.LastTradedPrice }
  position := { position with Segment := rPosition.Segment }
  position := { position with GrossQty := rPosition.GrossQty }
  position := { position with LotSize := rPosition.LotSize }
  position := { position with TotSellVal := rPosition.TotSellVal }
  position := { position with Product := rPosition.Product }
  position := { position with NetAvg := rPosition.NetAvg }
  position := { position with ExpiryDate := rPosition.ExpiryDate }
  position := { position with TotSellValDay := rPosition.TotSellValDay }
  position := { position with TotBuyVal := rPosition.TotBuyVal }
  position := { position with NetVal := rPosition.NetVal }
  position := { position with DisplayName := rPosition.DisplayName }
  position := { position with TotBuyQty := rPosition.TotBuyQty }
  position := { position with Exchange := rPosition.Exchange }
  position := { position with SecurityID := rPosition.SecurityID }
  position := { position with StreamSymbol := rPosition.SecurityID ++ "_" ++ rPosition.Exchange }
  position := { position with RealisedProfit := rPosition.RealisedProfit }
  return position

/-- The profit and loss of one vendor position row, `orderPL` in the loop of
`PositionBook` (order.go, lines 503-520).  Every operation rounds on its own:
the multiplication is not fused with the addition that follows it, which is
how the compiler translates them for amd64. -/
def orderPL (rPosition : RupeeSeedPositionBook) : Float64 := Id.run do
  let mut unrealizedPL : Float64 := Float64.num 0
  if rPosition.NetQty > 0 then
    unrealizedPL :=
      Float64.ofInt rPosition.NetQty * (rPosition.LastTradedPrice - rPosition.BuyAvg)
  else if rPosition.NetQty < 0 then
    unrealizedPL :=
      Float64.ofInt rPosition.NetQty * (rPosition.SellAvg - rPosition.LastTradedPrice)
  let orderPL := unrealizedPL + rPosition.RealisedProfit
  return orderPL

/-- Embedding of `(*trade).PositionBook` (order.go, lines 455-540).  The loop
over `obj.Data` is the left fold that adds `orderPL` to `totalPL` and appends
the copied row. -/
def PositionBook (env : GatewayEnv)
    (InvokeResty : VendorCall RupeeseedPositionBookRequest → VendorReply)
    (Unmarshal : String → Option RupeeseedPositionBookResponse) :
    GinContext RupeeseedPositionBookRequest PositionBookResponse := Id.run do
  let mut c : GinContext RupeeseedPositionBookRequest PositionBookResponse := {}
  let mut response : PositionBookResponse := {}
  let fetched := fetchPositionBook env InvokeResty Unmarshal
  c := c.invoked fetched.call
  let obj := fetched.obj
  match fetched.err with
  | some err =>
    response := { response with Errors := response.Errors ++ [err] }
    if err.kind = BadRequest then
      c := c.JSON StatusBadRequest response
    else
      c := c.JSON StatusInternalServerError response
    c := c.Abort
    return c
  | none =>
    let (totalPL, positionBookList) :=
      obj.Data.foldl
        (fun (acc : Float64 × List OrderPositionBook) rPosition =>
          (acc.1 + orderPL rPosition, acc.2 ++ [positionRow rPosition]))
        (Float64.num 0, ([] : List OrderPositionBook))
    if positionBookList.length = 0 then
      response := { response with Errors := response.Errors ++ [GetErrorDetails "NoDataFound" "order not found in PositionBook."] }
      c := c.JSON StatusNotFound response
      c := c.Abort
      return c
    response := { response with Data.OrderPosition := positionBookList }
    response := { response with Data.TotalProfitLoss := totalPL }
    response := { response with Status := true }
    c := c.JSON StatusOK response
    return c

/-! ## Position conversion -/

/-- The fields of `ConvertPositionRequest` that `order.go` reads or writes.
The exchange token is compared with the `SecurityID` of a position row and the
quantity with its net quantity, so they have the types of those fields. -/
structure ConvertPositionRequest where
  UserID : String := ""
  PositionType : String := ""
  Exchange : String := ""
  ExchangeToken : String := ""
  PositionFrom : String := ""
  PositionTo : String := ""
  Quantity : Int := 0
  Segment : String := ""
  deriving DecidableEq, Repr

/-- The `Data` part of `RuppeeseedConvertPositionRequest`. -/
structure RuppeeseedConvertPositionData where
  ClientID : String := ""
  UserID : String := ""
  Exchange : String := ""
  SecurityID : String := ""
  Segment : String := ""
  Quantity : Int := 0
  MktType : String := ""
  UserType : String := ""
  TxnType : String := ""
  ProductFrom : String := ""
  ProductTo : String := ""
  deriving DecidableEq, Repr

/-- The vendor payload `RuppeeseedConvertPositionRequest`. -/
structure RuppeeseedConvertPositionRequest where
  EntityID : String := ""
  Source : String := ""
  Data : RuppeeseedConvertPositionData := {}
  deriving DecidableEq, Repr

/-- Embedding of `getRupeeseedConvertPositionRequestBody` (order.go, lines
267-286). -/
def getRupeeseedConvertPositionRequestBody (env : GatewayEnv) (req : ConvertPositionRequest) :
    RuppeeseedConvertPositionRequest := Id.run do
  let mut temp : RuppeeseedConvertPositionRequest := {}
  let userId := "TEST2"
  temp := { temp with EntityID := userId }
  temp := { temp with Source := env.Source }
  temp := { temp with Data.ClientID := userId }
  temp := { temp with Data.UserID := userId }
  temp := { temp with Data.Exchange := req.Exchange }
  temp := { temp with Data.SecurityID := req.ExchangeToken }
  temp := { temp with Data.Segment := req.Segment }
  temp := { temp with Data.Quantity := req.Quantity }
  temp := { temp with Data.MktType := env.RuppeeSeedMarketType }
  temp := { temp with Data.UserType := env.UserTypeClient }
  temp := { temp with Data.TxnType := req.PositionType }
  temp := { temp with Data.ProductFrom := req.PositionFrom }
  temp := { temp with Data.ProductTo := req.PositionTo }
  return temp

/-- The vendor envelope `RuppeeseedConvertPositionResponse`. -/
structure RuppeeseedConvertPositionResponse where
  Status : String := ""
  ErrorCode : String := ""
  Message : String := ""
  deriving DecidableEq, Repr

/-- The client envelope `ConvertPositionResponse`. -/
structure ConvertPositionResponse where
  Status : Bool := false
  Data : String := ""
  Errors : List ErrorDetail := []
  deriving DecidableEq

/-- Embedding of `(*trade).convertPosition` (order.go, lines 1196-1231);
`InvokeResty` is the rest caller (called with nil headers and the timeout
1000). -/
def convertPosition (env : GatewayEnv)
    (InvokeResty : VendorCall RuppeeseedConvertPositionRequest → VendorReply)
    (Unmarshal : String → Option RuppeeseedConvertPositionResponse)
    (request : RuppeeseedConvertPositionRequest) :
    Fetched RuppeeseedConvertPositionRequest RuppeeseedConvertPositionResponse := Id.run do
  let obj : RuppeeseedConvertPositionResponse := {}
  let uri := env.EndPoint ++ env.ConvertPositionApi
  let call : VendorCall RuppeeseedConvertPositionRequest := ⟨MethodPost, uri, request, [], 1000⟩
  let reply := InvokeResty call
  if reply.err ≠ none ∨ reply.status ≠ StatusOK then
    let er := GetErrorDetails "VendorApiFailure" ""
    return ⟨call, obj, some er⟩
  match Unmarshal reply.body with
  | none =>
    let er := GetErrorDetails "JsonUnmarshalError" ""
    return ⟨call, obj, some er⟩
  | some obj =>
    if obj.Status ≠ Success then
      if obj.ErrorCode = "RS-0022" then
        let er := GetErrorDetails "VendorOMSError" ""
        return ⟨call, obj, some er⟩
      else
        let er := GetErrorDetails "VendorApiFailure" (":" ++ obj.Message)
        return ⟨call, obj, some er⟩
    return ⟨call, obj, none⟩

/-- The `for _, position = range obj.Data` loop of `ConvertPosition` (order.go,
lines 1064-1096), as a recursion over the rows still to be examined: it gives
the request as the loop leaves it and the value of `found`.  The product
`qty * -1` is taken in Go's 64-bit `int`, where it wraps around for the least
value. -/
def scanPositions (request : ConvertPositionRequest) :
    List RupeeSeedPositionBook → ConvertPositionRequest × Bool
  | [] => (request, false)
  | position :: rest =>
    let qty := position.NetQty
    if qty = 0 then scanPositions request rest
    else
      let txType := if qty > 0 then BUY else SELL
      let qty := if qty > 0 then qty else wrapInt64 (qty * -1)
      let secId := position.SecurityID
      let exchg := position.Exchange
      let product := position.Product
      if txType = request.PositionType ∧ exchg = request.Exchange ∧
          secId = request.ExchangeToken ∧ product = request.PositionFrom ∧
          qty ≥ request.Quantity then
        ({ request with Segment := position.Segment }, true)
      else
        scanPositions { request with Segment := "E" } rest

/-- The payload of a vendor call of `ConvertPosition`: the position-book query
or the conversion submission. -/
inductive ConvertPayload where
  | positionBook (body : RupeeseedPositionBookRequest)
  | convert (body : RuppeeseedConvertPositionRequest)
  deriving DecidableEq

/-- A vendor call with its payload wrapped by `f`. -/
def VendorCall.mapBody {P Q : Type} (f : P → Q) (call : VendorCall P) : VendorCall Q :=
  ⟨call.method, call.uri, f call.body, call.headers, call.timeout⟩

/-- Embedding of `(*trade).ConvertPosition` (order.go, lines 1040-1123).
`bound` is the outcome of `c.BindJSON(&request)`, `userId` the value of
`c.GetString("userId")`, `InvokeResty` the rest caller, and `UnmarshalBook`,
`UnmarshalConvert` the decodings of the two vendor bodies. -/
def ConvertPosition (env : GatewayEnv)
    (InvokeResty : VendorCall ConvertPayload → VendorReply)
    (UnmarshalBook : String → Option RupeeseedPositionBookResponse)
    (UnmarshalConvert : String → Option RuppeeseedConvertPositionResponse)
    (userId : String) (bound : Option ConvertPositionRequest) :
    GinContext ConvertPayload ConvertPositionResponse := Id.run do
  let mut c : GinContext ConvertPayload ConvertPositionResponse := {}
  let mut response : ConvertPositionResponse := {}
  match bound with
  | none =>
    response := { response with Errors := response.Errors ++ [GetErrorDetails "BadRequest" ""] }
    c := c.JSON StatusBadRequest response
    c := c.Abort
    return c
  | some request =>
    let mut request := request
    request := { request with UserID := userId }
    let fetched := fetchPositionBook env
      (fun call => InvokeResty (call.mapBody ConvertPayload.positionBook)) UnmarshalBook
    c := c.invoked (fetched.call.mapBody ConvertPayload.positionBook)
    let obj := fetched.obj
    match fetched.err with
    | some err =>
      response := { response with Errors := response.Errors ++ [err] }
      c := c.JSON StatusInternalServerError response
      c := c.Abort
      return c
    | none =>
      let (scanned, found) := scanPositions request obj.Data
      request := scanned
      if found = false then
        response := { response with Errors := response.Errors ++ [GetErrorDetails "NoDataFound" "no matching open positions available to convert"] }
        c := c.JSON StatusBadRequest response
        c := c.Abort
        return c
      let convertPosReq := getRupeeseedConvertPositionRequestBody env request
      let converted := convertPosition env
        (fun call => InvokeResty (call.mapBody ConvertPayload.convert)) UnmarshalConvert
        convertPosReq
      c := c.invoked (converted.call.mapBody ConvertPayload.convert)
      let obj1 := converted.obj
      match converted.err with
      | some err =>
        if err.kind = VendorOMSError then
          response := { response with Status := false }
          response := { response with Data := obj1.Message }
          c := c.JSON StatusOK response
          return c
        response := { response with Errors := response.Errors ++ [err] }
        c := c.JSON StatusInternalServerError response
        c := c.Abort
        return c
      | none =>
        response := { response with Data := obj1.Message }
        response := { response with Status := true }
        c := c.JSON StatusOK response
        return c

/-! ## Further sample values -/

/-- A sample configuration for the handlers that need the further API paths;
its entries stand for values declared outside `src/`. -/
def sampleGatewayEnv : GatewayEnv :=
  { sampleEnv with
    BracketOrderApi := "/BoOrderEntry"
    CoverOrderApi := "/CoOrderEntry"
    OrderBookApi := "/OrderBook"
    PositionBookApi := "/NetPosition"
    ConvertPositionApi := "/ConvertPosition"
    RuppeeSeedMarketType := "NL"
    UserTypeClient := "C" }

/-- Blanks removed at both ends of a list of characters. -/
def trimChars (ds : List Char) : List Char :=
  ((ds.dropWhile Char.isWhitespace).reverse.dropWhile Char.isWhitespace).reverse

/-- A sample of the two `strings` functions, exact on ASCII text: letters `A-Z`
are lowered and ASCII blanks are trimmed. -/
def sampleStrings : GoStrings :=
  { ToLower := fun s => String.mk (s.data.map Char.toLower)
    TrimSpace := fun s => String.mk (trimChars s.data)
    toLower_eq_empty := fun s => by
      constructor
      · intro h
        have h2 := congrArg String.data h
        simp only [List.map_eq_nil_iff] at h2
        exact String.ext h2
      · intro h
        subst h
        rfl }

/-- A sample vendor that fails at the transport level and still returns the
body `"SORRY"` with status 0, as in the test case
`InvalidResponseReceiveFromVendor`. -/
def failingVendor {P : Type} : VendorCall P → VendorReply :=
  fun _ => { body := "SORRY", status := 0, err := some "ApiFormatError" }

/-- A sample vendor that is reachable and answers HTTP 404 with a well-formed
body, as in the vendor-failure test cases of `TestPlaceOrder`. -/
def notFoundVendor {P : Type} : VendorCall P → VendorReply :=
  fun _ => { body := "ok", status := 404, err := none }

/-! ## The vendor calls of the handlers -/

/-- The vendor call that `PlaceOrder` issues for a request (order.go, lines
47-51). -/
def placeOrderCall (env : Env) (request : PlaceOrderRequest) :
    VendorCall RupeeseedNormalOrderRequest :=
  ⟨MethodPost, env.EndPoint ++ env.OrderApi, getRupeeseedOrderRequestBody env request,
    env.rupeeseedHeaders, env.ApiTimeout⟩

/-- The vendor call that a modify handler issues for a request, `api` being
the path of the handler (order.go, lines 162-166, 905-909, 978-981). -/
def modifyCall (env : Env) (api : String) (request : ModifyOrderRequest) :
    VendorCall VendorRequest :=
  ⟨MethodPost, env.EndPoint ++ api, parseVendorRequestBody env request,
    env.rupeeseedHeaders, env.ApiTimeout⟩

/-- The vendor call that `PlaceBracketOrder` issues for a request (order.go,
lines 674-678). -/
def bracketCall (env : GatewayEnv) (request : PlaceBracketOrderRequest) :
    VendorCall RupeseedBracketOrderRequest :=
  ⟨MethodPost, env.EndPoint ++ env.BracketOrderApi,
    getRupeseedBracketRequestBody env.toEnv request, env.rupeeseedHeaders, env.ApiTimeout⟩

/-- The vendor call that `PlaceCoverOrder` issues for a request (order.go,
lines 798-802). -/
def coverCall (env : GatewayEnv) (request : PlaceCoverOrderRequest) :
    VendorCall RupeseedCoverOrderRequest :=
  ⟨MethodPost, env.EndPoint ++ env.CoverOrderApi,
    getRupeseedCoverRequestBody env.toEnv request, env.rupeeseedHeaders, env.ApiTimeout⟩

/-- The vendor call that `OrderBook` issues (order.go, lines 300-304). -/
def orderBookCall (env : GatewayEnv) : VendorCall RupeeseedOrderBookRequest :=
  ⟨MethodPost, env.EndPoint ++ env.OrderBookApi, getOrderBookRupeeseedRequestBody env,
    env.rupeeseedHeaders, env.ApiTimeout⟩

/-- The vendor call that `fetchPositionBook` issues (order.go, lines
1144-1148). -/
def positionBookCall (env : GatewayEnv) : VendorCall RupeeseedPositionBookRequest :=
  ⟨MethodPost, env.EndPoint ++ env.PositionBookApi, getPositionBookRupeeseedRequestBody env,
    [], 700⟩

/-- The vendor call that `convertPosition` issues for a payload (order.go,
lines 1203-1205). -/
def convertCall (env : GatewayEnv) (request : RuppeeseedConvertPositionRequest) :
    VendorCall RuppeeseedConvertPositionRequest :=
  ⟨MethodPost, env.EndPoint ++ env.ConvertPositionApi, request, [], 1000⟩

/-! ## The spec's error classifier (§4.3) -/

/-- The spec's classification of a vendor error code: BadRequest with HTTP 400
when the lookup table maps the code to 400, and InternalServerError with HTTP
500 otherwise (the code maps to 500, or to nothing recognised).  The detail is
the vendor message after a colon when the table knows the code, and empty
otherwise. -/
def classifyVendorCode (RupeeseedErrors : String → Int) (code message : String) :
    Int × ErrorDetail :=
  if RupeeseedErrors code = 400 then
    (400, { kind := "BadRequest", detail := ":" ++ message })
  else if RupeeseedErrors code = 500 then
    (500, { kind := "InternalServerError", detail := ":" ++ message })
  else
    (500, { kind := "InternalServerError", detail := "" })

/-! ## Sample values for the position handlers -/

/-- The sample position book of spec §8: a closed position followed by an open
long position of 100 on NSE, token 1594, product C. -/
def samplePositions : List RupeeSeedPositionBook :=
  [ { NetQty := 0 },
    { NetQty := 100, Exchange := "NSE", SecurityID := "1594", Product := "C", Segment := "E",
      BuyAvg := Float64.num 10, LastTradedPrice := Float64.num 12 } ]

/-- A sample decoder that reads every body as a success envelope holding
`samplePositions`. -/
def sampleBookUnmarshal : String → Option RupeeseedPositionBookResponse :=
  fun _ => some { Status := "success", Data := samplePositions }

/-- The sample conversion request of spec §8: BUY, NSE, token 1594, from
product C, quantity 50. -/
def sampleConversion : ConvertPositionRequest :=
  { PositionType := "B", Exchange := "NSE", ExchangeToken := "1594", PositionFrom := "C",
    PositionTo := "M", Quantity := 50 }

/-- A sample vendor that answers the position-book query with HTTP 200 and is
reachable for the conversion submission, answering it with HTTP 404. -/
def convertNotFoundVendor : VendorCall ConvertPayload → VendorReply :=
  fun call =>
    match call.body with
    | ConvertPayload.positionBook _ => { body := "book", status := 200, err := none }
    | ConvertPayload.convert _ => { body := "ok", status := 404, err := none }

/-- A sample decoder that reads every body as a rejection carrying a vendor
code that the sample lookup table does not know. -/
def unknownCodeUnmarshal : String → Option (RupeeseedNormalOrderResponse Unit) :=
  fun _ => some { Status := "failure", ErrCode := "RS-9999", Message := "rejected" }

/-- A sample decoder that reads every body as the success envelope of the test
case `Orderplaced`, which carries the error code `RS-0022`. -/
def orderPlacedUnmarshal : String → Option (RupeeseedNormalOrderResponse String) :=
  fun _ => some { Status := "success", ErrCode := "RS-0022",
                  Message := "Order submitted successfully. Your Order Ref No. 112211242008",
                  Data := some "112211242008" }

/-! ## The spec's reading of the section filter (§4.4) -/

/-- The spec's "section matches the status group of the row": for the section
Open the vendor status of the row is one of Transit, Pending, Modified,
Part-traded; for the section Executed it is one of Traded, Rejected,
Cancelled; no other section value matches.  All comparisons ignore letter
case. -/
def sectionMatches (lib : GoStrings) (sectionTxt rowStatus : String) : Prop :=
  if lib.ToLower (lib.TrimSpace sectionTxt) = lib.ToLower Open then
    lib.ToLower rowStatus ∈ [Transit, Pending, Modified, PartTraded].map lib.ToLower
  else if lib.ToLower (lib.TrimSpace sectionTxt) = lib.ToLower Executed then
    lib.ToLower rowStatus ∈ [Traded, Rejected, Cancelled].map lib.ToLower
  else False

/-! ## The spec's reading of the profit and loss (§4.5) -/

/-- The spec's unrealised profit and loss of a position row: `0` when the net
quantity is zero, `netQty * (lastTradedPrice - buyAvg)` when it is positive,
`netQty * (sellAvg - lastTradedPrice)` when it is negative, in the arithmetic
of `float64`. -/
def unrealizedPL (rPosition : RupeeSeedPositionBook) : Float64 :=
  if rPosition.NetQty = 0 then Float64.num 0
  else if rPosition.NetQty > 0 then
    Float64.ofInt rPosition.NetQty * (rPosition.LastTradedPrice - rPosition.BuyAvg)
  else Float64.ofInt rPosition.NetQty * (rPosition.SellAvg - rPosition.LastTradedPrice)

/-- The sum of a list of floats, added one after the other from the left to a
total that starts at zero. -/
def floatSum (xs : List Float64) : Float64 := xs.foldl (fun total x => total + x) (Float64.num 0)

/-- The rational value of a float, `0` for the infinities and not-a-number. -/
def Float64.toRat (x : Float64) : ℚ := (Float64.finite? x).getD 0

/-- Holds when a float is finite. -/
def Float64.isFinite (x : Float64) : Prop := Float64.finite? x ≠ none

instance (x : Float64) : Decidable x.isFinite :=
  inferInstanceAs (Decidable (Float64.finite? x ≠ none))

/-- Holds when the rational `q` is a float: rounding leaves it as it is. -/
def Float64.representable (q : ℚ) : Prop := Float64.ofRat q = Float64.num q

instance (q : ℚ) : Decidable (Float64.representable q) :=
  inferInstanceAs (Decidable (Float64.ofRat q = Float64.num q))

/-- The spec's unrealised profit and loss of a position row in exact
arithmetic. -/
def exactUnrealizedPL (rPosition : RupeeSeedPositionBook) : ℚ :=
  if rPosition.NetQty = 0 then 0
  else if rPosition.NetQty > 0 then
    (rPosition.NetQty : ℚ) * (rPosition.LastTradedPrice.toRat - rPosition.BuyAvg.toRat)
  else (rPosition.NetQty : ℚ) * (rPosition.SellAvg.toRat - rPosition.LastTradedPrice.toRat)

/-- The spec's total of a position row in exact arithmetic: the unrealised
profit and loss plus the realised profit. -/
def exactOrderPL (rPosition : RupeeSeedPositionBook) : ℚ :=
  exactUnrealizedPL rPosition + rPosition.RealisedProfit.toRat

/-- Holds when no operation of the profit and loss of the row rounds: the
fields that enter it are finite and the exact value of every intermediate
result (the converted net quantity, the price difference, the product and the
total of the row) is a float. -/
def roundsNowhere (rPosition : RupeeSeedPositionBook) : Prop :=
  rPosition.RealisedProfit.isFinite ∧
  Float64.representable (exactOrderPL rPosition) ∧
  (rPosition.NetQty ≠ 0 →
    Float64.representable (rPosition.NetQty : ℚ) ∧
    Float64.representable (exactUnrealizedPL rPosition)) ∧
  (rPosition.NetQty > 0 →
    rPosition.LastTradedPrice.isFinite ∧ rPosition.BuyAvg.isFinite ∧
    Float64.representable (rPosition.LastTradedPrice.toRat - rPosition.BuyAvg.toRat)) ∧
  (rPosition.NetQty < 0 →
    rPosition.SellAvg.isFinite ∧ rPosition.LastTradedPrice.isFinite ∧
    Float64.representable (rPosition.SellAvg.toRat - rPosition.LastTradedPrice.toRat))

instance (rPosition : RupeeSeedPositionBook) : Decidable (roundsNowhere rPosition) := by
  unfold roundsNowhere
  infer_instance

/-- The long position of spec §8: net quantity 100, average buy price 10, last
traded price 12, no realised profit. -/
def longPosition : RupeeSeedPositionBook :=
  { NetQty := 100, BuyAvg := Float64.num 10, LastTradedPrice := Float64.num 12,
    RealisedProfit := Float64.num 0 }

/-- The short position of spec §8: net quantity -50, average sell price 20,
last traded price 18, no realised profit. -/
def shortPosition : RupeeSeedPositionBook :=
  { NetQty := -50, SellAvg := Float64.num 20, LastTradedPrice := Float64.num 18,
    RealisedProfit := Float64.num 0 }

/-- A sample decoder that reads every body as a success envelope holding the
one long position of spec §8. -/
def longPositionUnmarshal : String → Option RupeeseedPositionBookResponse :=
  fun _ => some { Status := "success", Data := [longPosition] }

/-- A sample decoder that reads every body as a success envelope holding the
one short position of spec §8. -/
def shortPositionUnmarshal : String → Option RupeeseedPositionBookResponse :=
  fun _ => some { Status := "success", Data := [shortPosition] }

/-! ## The spec's reading of the conversion matcher (§4.6) -/

/-- The spec's eligibility of a position row for a conversion request: the net
quantity is not zero; the side derived from its sign (positive BUY, negative
SELL) is the requested side; exchange, instrument token and product equal the
exchange, token and source product of the request; the absolute net quantity is
at least the requested quantity. -/
def positionMatches (request : ConvertPositionRequest) (position : RupeeSeedPositionBook) :
    Bool :=
  decide (position.NetQty ≠ 0 ∧
    (if position.NetQty > 0 then BUY else SELL) = request.PositionType ∧
    position.Exchange = request.Exchange ∧
    position.SecurityID = request.ExchangeToken ∧
    position.Product = request.PositionFrom ∧
    |position.NetQty| ≥ request.Quantity)

/-- The test that the loop of `ConvertPosition` applies to one row (order.go,
lines 1066-1089): a row with net quantity zero is skipped, the side is derived
from the sign, and the quantity compared is the net quantity of a long row and
the product `qty * -1`, taken in Go's 64-bit `int`, of a short row. -/
def rowConverts (request : ConvertPositionRequest) (position : RupeeSeedPositionBook) :
    Bool :=
  decide (position.NetQty ≠ 0 ∧
    (if position.NetQty > 0 then BUY else SELL) = request.PositionType ∧
    position.Exchange = request.Exchange ∧
    position.SecurityID = request.ExchangeToken ∧
    position.Product = request.PositionFrom ∧
    (if position.NetQty > 0 then position.NetQty else wrapInt64 (position.NetQty * -1)) ≥
      request.Quantity)

/-- A short position of the least net quantity that Go's 64-bit `int` holds,
on NSE, token 1594, product C, held in the derivative segment `D`. -/
def leastPosition : RupeeSeedPositionBook :=
  { NetQty := minInt64, Exchange := "NSE", SecurityID := "1594", Product := "C",
    Segment := "D" }

/-- The position book of the example of spec §8, the open row being held in
the derivative segment `D`. -/
def examplePositions : List RupeeSeedPositionBook :=
  [ { NetQty := 0, Segment := "E" },
    { NetQty := 100, Exchange := "NSE", SecurityID := "1594", Product := "C", Segment := "D" } ]

/-- The seven vendor statuses that the status table of `OrderBook` knows. -/
def knownStatuses : List String :=
  [Transit, Pending, Modified, PartTraded, Traded, Rejected, Cancelled]

/-- Modelled from the spec: the product code of a bracket order, `B`
(declaration not under `src/`; the handler comment reads "product B(BO –
Bracket Order)"). -/
def BoProductValue : String := "B"

/-- A sample decoder that reads every body as a conversion declined by the
vendor with the reserved code `RS-0022`. -/
def omsDeclinedUnmarshal : String → Option RuppeeseedConvertPositionResponse :=
  fun _ => some { Status := "failure", ErrorCode := "RS-0022", Message := "conversion declined" }

end Trade

namespace Trade

/-! ## Validation engine: theorems -/

/-- C1: an order whose type is LMT and whose price is not positive is rejected
with the limit-price detail, which mentions the price, whatever the other
fields are; this holds for the normal, the cover and the bracket validator. -/
theorem lmt_nonpositive_price_rejected (n : PlaceOrderRequest)
    (c : PlaceCoverOrderRequest) (b : PlaceBracketOrderRequest) :
    (n.OrderType = LMT → n.Price ≤ 0 →
      normalOrderValidation n = some ":Price cannot be zero with limit order") ∧
    (c.OrderType = LMT → c.Price ≤ 0 →
      coverOrderValidation c = some ":Price cannot be zero with limit order") ∧
    (b.OrderType = LMT → b.Price ≤ 0 →
      bracketOrderValidation b = some ":Price cannot be zero with limit order") ∧
    mentions ":Price cannot be zero with limit order" "Price" := by
  refine ⟨?_, ?_, ?_, by decide⟩
  · intro h hp
    simp [normalOrderValidation, h, hp]
  · intro h hp
    simp [coverOrderValidation, h, hp]
  · intro h hp
    simp [bracketOrderValidation, h, hp]

/-- Witness of C1: a normal LMT order at price -1, a cover LMT order at price 0
and a bracket LMT order at price -2 are each rejected with the price detail. -/
theorem lmt_nonpositive_price_rejected_witness :
    normalOrderValidation { OrderType := "LMT", Price := -1, TriggerPrice := 5 }
        = some ":Price cannot be zero with limit order" ∧
    coverOrderValidation { OrderType := "LMT", Price := 0, TriggerPrice := 5 }
        = some ":Price cannot be zero with limit order" ∧
    bracketOrderValidation { OrderType := "LMT", Price := -2, ProfitValue := 1, StoplossValue := 1 }
        = some ":Price cannot be zero with limit order" :=
  have h := lmt_nonpositive_price_rejected
    { OrderType := "LMT", Price := -1, TriggerPrice := 5 }
    { OrderType := "LMT", Price := 0, TriggerPrice := 5 }
    { OrderType := "LMT", Price := -2, ProfitValue := 1, StoplossValue := 1 }
  ⟨h.1 rfl (by decide), h.2.1 rfl (by decide), h.2.2.1 rfl (by decide)⟩

/-- C2: a normal SL order is rejected whenever its price is not positive, or
its trigger price is not positive, or its validity is IOC, or it is a BUY with
trigger price above the price, or it is a SELL with trigger price below the
price. -/
theorem sl_rejected (r : PlaceOrderRequest) (hSL : r.OrderType = SL)
    (h : r.Price ≤ 0 ∨ r.TriggerPrice ≤ 0 ∨ r.Validity = IOC ∨
      (r.TxnType = BUY ∧ r.TriggerPrice > r.Price) ∨
      (r.TxnType = SELL ∧ r.TriggerPrice < r.Price)) :
    normalOrderValidation r ≠ none := by
  have hne : ¬ (SL = LMT) := by decide
  unfold normalOrderValidation
  simp only [hSL, hne, false_and, if_false, if_true]
  split_ifs <;> simp_all

/-- Witness of C2: the SELL order of the test case
`TriggerOrderInvalidLMTPriceSell` (price 100, trigger price 10). -/
theorem sl_rejected_witness :
    normalOrderValidation
      { TxnType := "S", OrderType := "SL", Validity := "DAY", Price := 100,
        TriggerPrice := 10 } ≠ none :=
  sl_rejected _ rfl (Or.inr (Or.inr (Or.inr (Or.inr ⟨rfl, by decide⟩))))

/-- C3: `normalOrderValidation` returns no error exactly when the LMT rule, the
SL rules, the SLM rules and the after-market rule (flag set implies timing
code > 0) all hold; in particular an MKT order with the flag unset is accepted
whatever its price, trigger price and validity. -/
theorem normal_accepts_iff (r : PlaceOrderRequest) :
    (normalOrderValidation r = none ↔
      ((r.OrderType = LMT → 0 < r.Price) ∧
       (r.OrderType = SL → 0 < r.Price ∧ 0 < r.TriggerPrice ∧ r.Validity ≠ IOC ∧
          (r.TxnType = BUY → r.TriggerPrice ≤ r.Price) ∧
          (r.TxnType = SELL → r.TriggerPrice ≥ r.Price)) ∧
       (r.OrderType = SLM → 0 < r.TriggerPrice ∧ r.Validity ≠ IOC) ∧
       (r.OffMktFlag = true → 0 < r.OffMktOrderTimeFlag))) ∧
    (r.OrderType = MKT → r.OffMktFlag = false → normalOrderValidation r = none) := by
  have h1 : ¬ (SL = LMT) := by decide
  have h2 : ¬ (SLM = LMT) := by decide
  have h3 : ¬ (SLM = SL) := by decide
  have h4 : ¬ (MKT = LMT) := by decide
  have h5 : ¬ (MKT = SL) := by decide
  have h6 : ¬ (MKT = SLM) := by decide
  constructor
  · unfold normalOrderValidation
    by_cases hL : r.OrderType = LMT
    · have hL1 : ¬ (LMT = SL) := by decide
      have hL2 : ¬ (LMT = SLM) := by decide
      simp only [hL, hL1, hL2, true_and, if_false, false_imp_iff, true_imp_iff]
      split_ifs <;> simp_all [not_le]
    · by_cases hS : r.OrderType = SL
      · have h7 : ¬ (SL = SLM) := by decide
        simp only [hS, h1, h7, false_and, if_false, if_true, false_imp_iff, true_imp_iff]
        split_ifs <;> simp_all [not_le, not_lt]
      · by_cases hM : r.OrderType = SLM
        · simp only [hM, h2, h3, false_and, if_false, if_true, false_imp_iff, true_imp_iff]
          split_ifs <;> simp_all [not_le]
        · simp only [hL, hS, hM, false_and, if_false, false_imp_iff]
          split_ifs <;> simp_all [not_le]
  · intro hM hF
    unfold normalOrderValidation
    simp [hM, hF, h4, h5, h6]

/-- Witness of C3: the MKT order of the test case `Orderplaced`, here with a
zero price and IOC validity, is accepted. -/
theorem normal_accepts_iff_witness :
    normalOrderValidation
      { TxnType := "B", OrderType := "MKT", Validity := "IOC", Price := 0,
        TriggerPrice := -3 } = none :=
  (normal_accepts_iff
    { TxnType := "B", OrderType := "MKT", Validity := "IOC", Price := 0,
      TriggerPrice := -3 }).2 rfl rfl

/-- C4 (the code at the failing input): with the after-market flag set and the
timing code 4, which is not one of 1, 2, 3, each of the three validators
returns no error. -/
theorem amo_timing_four_accepted :
    normalOrderValidation
      { OrderType := "MKT", OffMktFlag := true, OffMktOrderTimeFlag := 4 } = none ∧
    coverOrderValidation
      { OrderType := "MKT", TriggerPrice := 1, OffMktFlag := true,
        OffMktOrderTimeFlag := 4 } = none ∧
    bracketOrderValidation
      { OrderType := "MKT", ProfitValue := 1, StoplossValue := 1, OffMktFlag := true,
        OffMktOrderTimeFlag := 4 } = none := by
  refine ⟨by decide, by decide, by decide⟩

/-- C5: `coverOrderValidation` rejects every request whose trigger price is not
positive, whatever the order type, and every LMT request whose price is not
positive; a request with positive trigger price, positive price when LMT, and
the after-market flag unset is accepted. -/
theorem cover_validation (r : PlaceCoverOrderRequest) :
    (r.TriggerPrice ≤ 0 → coverOrderValidation r ≠ none) ∧
    (r.OrderType = LMT → r.Price ≤ 0 → coverOrderValidation r ≠ none) ∧
    (0 < r.TriggerPrice → (r.OrderType = LMT → 0 < r.Price) → r.OffMktFlag = false →
      coverOrderValidation r = none) := by
  refine ⟨?_, ?_, ?_⟩
  · intro ht
    unfold coverOrderValidation
    split_ifs <;> simp_all
  · intro hL hp
    simp [coverOrderValidation, hL, hp]
  · intro ht hL hF
    unfold coverOrderValidation
    have ht2 : ¬ r.TriggerPrice ≤ 0 := not_le.mpr ht
    by_cases hT : r.OrderType = LMT
    · have hp : ¬ r.Price ≤ 0 := not_le.mpr (hL hT)
      simp [hT, hp, ht2, hF]
    · simp [hT, ht2, hF]

/-- Witness of C5: an MKT cover order with trigger price 0 is rejected, an LMT
cover order with price 0 is rejected, and an LMT cover order with price 10 and
trigger price 9 is accepted. -/
theorem cover_validation_witness :
    coverOrderValidation { OrderType := "MKT", TriggerPrice := 0 } ≠ none ∧
    coverOrderValidation { OrderType := "LMT", Price := 0, TriggerPrice := 9 } ≠ none ∧
    coverOrderValidation { OrderType := "LMT", Price := 10, TriggerPrice := 9 } = none :=
  ⟨(cover_validation { OrderType := "MKT", TriggerPrice := 0 }).1 (by decide),
   (cover_validation { OrderType := "LMT", Price := 0, TriggerPrice := 9 }).2.1 rfl (by decide),
   (cover_validation { OrderType := "LMT", Price := 10, TriggerPrice := 9 }).2.2
      (by decide) (fun _ => by decide) rfl⟩

/-- C6 (counterexample): an MKT bracket order with profit value 1, stop-loss
value 1, the after-market flag set and timing code 0 passes the LMT price rule
and is rejected although neither value is non-positive. -/
theorem bracket_fails_iff_counterexample :
    ¬ (∀ r : PlaceBracketOrderRequest, ¬ (r.OrderType = LMT ∧ r.Price ≤ 0) →
        (bracketOrderValidation r ≠ none ↔ (r.ProfitValue ≤ 0 ∨ r.StoplossValue ≤ 0))) := by
  intro h
  have h1 := h { OrderType := "MKT", ProfitValue := 1, StoplossValue := 1, OffMktFlag := true,
                 OffMktOrderTimeFlag := 0 } (by decide)
  revert h1
  decide

/-- C6 (amended): for a bracket request that passes the LMT price rule,
validation fails iff the profit value is not positive, or the stop-loss value is
not positive, or the after-market flag is set with a timing code that is not
positive; the detail of a failure names ProfitValue exactly when the profit
value is not positive and names StoplossValue exactly when the stop-loss value
is not positive. -/
theorem bracket_fails_iff (r : PlaceBracketOrderRequest)
    (hLMT : ¬ (r.OrderType = LMT ∧ r.Price ≤ 0)) :
    (bracketOrderValidation r ≠ none ↔
      (r.ProfitValue ≤ 0 ∨ r.StoplossValue ≤ 0 ∨
        (r.OffMktFlag = true ∧ r.OffMktOrderTimeFlag ≤ 0))) ∧
    (∀ d, bracketOrderValidation r = some d →
      ((mentions d "ProfitValue" ↔ r.ProfitValue ≤ 0) ∧
       (mentions d "StoplossValue" ↔ r.StoplossValue ≤ 0))) := by
  have m1 : mentions ":ProfitValue, StoplossValue cannot be zero" "ProfitValue" := by decide
  have m2 : mentions ":ProfitValue, StoplossValue cannot be zero" "StoplossValue" := by decide
  have m3 : mentions ":ProfitValue cannot be zero" "ProfitValue" := by decide
  have m4 : ¬ mentions ":ProfitValue cannot be zero" "StoplossValue" := by decide
  have m5 : ¬ mentions ":StoplossValue cannot be zero" "ProfitValue" := by decide
  have m6 : mentions ":StoplossValue cannot be zero" "StoplossValue" := by decide
  have m7 : ¬ mentions ":OffMktOrderTimeFlag possible allowed values are 1|2|3 in AMO"
      "ProfitValue" := by decide
  have m8 : ¬ mentions ":OffMktOrderTimeFlag possible allowed values are 1|2|3 in AMO"
      "StoplossValue" := by decide
  unfold bracketOrderValidation
  rw [if_neg hLMT]
  constructor
  · split_ifs <;> simp_all
  · intro d hd
    split_ifs at hd <;> simp_all

/-- Witness of C6 (amended): an LMT bracket order at price 5 with profit value
0 and stop-loss value 2 fails, and its detail names ProfitValue and not
StoplossValue. -/
theorem bracket_fails_iff_witness :
    bracketOrderValidation
        { OrderType := "LMT", Price := 5, ProfitValue := 0, StoplossValue := 2 } ≠ none ∧
    (mentions ":ProfitValue cannot be zero" "ProfitValue" ↔ (0 : ℚ) ≤ 0) ∧
    (mentions ":ProfitValue cannot be zero" "StoplossValue" ↔ (2 : ℚ) ≤ 0) :=
  have h := bracket_fails_iff
    { OrderType := "LMT", Price := 5, ProfitValue := 0, StoplossValue := 2 } (by decide)
  ⟨h.1.mpr (Or.inl (by decide)), h.2 ":ProfitValue cannot be zero" (by decide)⟩

/-- With no rule there is no error. -/
theorem firstViolated_nil {α : Type} (r : α) : firstViolated ([] : List (Rule α)) r = none := rfl

/-- The head rule is reported when violated, otherwise the rest of the list
decides. -/
theorem firstViolated_cons {α : Type} (rule : Rule α) (rules : List (Rule α)) (r : α) :
    firstViolated (rule :: rules) r =
      if rule.violated r = true then some rule.detail else firstViolated rules r := by
  unfold firstViolated
  cases h : rule.violated r <;> simp [List.find?, h]

/-- When some rule of an initial segment is violated, the reported detail is
one of that segment, so it is never a detail that the segment does not use. -/
theorem firstViolated_init {α : Type} (init rest : List (Rule α)) (r : α) (d : String)
    (hd : d ∉ init.map Rule.detail) (h : ∃ rule ∈ init, rule.violated r = true) :
    firstViolated (init ++ rest) r ≠ some d := by
  induction init with
  | nil =>
    obtain ⟨_, hm, _⟩ := h
    cases hm
  | cons a as ih =>
    rw [List.cons_append, firstViolated_cons]
    by_cases ha : a.violated r = true
    · simp only [ha, if_true]
      intro heq
      apply hd
      simp only [Option.some.injEq] at heq
      simp [heq]
    · simp only [ha]
      apply ih
      · intro hmem
        apply hd
        simp only [List.map_cons, List.mem_cons]
        exact Or.inr hmem
      · obtain ⟨rule, hm, hv⟩ := h
        rcases List.mem_cons.mp hm with rfl | hm'
        · exact absurd hv ha
        · exact ⟨rule, hm', hv⟩

/-- C7: each validator returns the detail of the first violated rule of its
fixed rule order (for a normal order: LMT price; SL price, trigger price,
validity, buy side, sell side; SLM trigger price, validity; the after-market
rule last in every family) and nothing else; so an SL order with non-positive
price and trigger price gets the price detail, and a request violating any rule
that precedes the after-market rule never gets the after-market detail. -/
theorem first_violated_rule_wins (n : PlaceOrderRequest) (c : PlaceCoverOrderRequest)
    (b : PlaceBracketOrderRequest) :
    normalOrderValidation n = firstViolated normalRules n ∧
    coverOrderValidation c = firstViolated coverRules c ∧
    bracketOrderValidation b = firstViolated bracketRules b ∧
    (n.OrderType = SL → n.Price ≤ 0 → n.TriggerPrice ≤ 0 →
      normalOrderValidation n = some ":Price cannot be zero with trigger limit order") ∧
    ((∃ rule ∈ normalRules.dropLast, rule.violated n = true) →
      normalOrderValidation n ≠ some amoDetail) ∧
    ((∃ rule ∈ coverRules.dropLast, rule.violated c = true) →
      coverOrderValidation c ≠ some amoDetail) ∧
    ((∃ rule ∈ bracketRules.dropLast, rule.violated b = true) →
      bracketOrderValidation b ≠ some amoDetail) := by
  have h1 : ¬ (SL = LMT) := by decide
  have h2 : ¬ (SLM = LMT) := by decide
  have h3 : ¬ (SLM = SL) := by decide
  have h7 : ¬ (SL = SLM) := by decide
  have hL1 : ¬ (LMT = SL) := by decide
  have hL2 : ¬ (LMT = SLM) := by decide
  have hn : normalOrderValidation n = firstViolated normalRules n := by
    unfold normalOrderValidation
    simp only [normalRules, firstViolated_cons, firstViolated_nil, amoDetail,
      decide_eq_true_eq]
    by_cases hL : n.OrderType = LMT
    · simp only [hL, hL1, hL2, true_and, false_and, if_false]
      split_ifs <;> simp_all
    · by_cases hS : n.OrderType = SL
      · simp only [hS, h1, h7, true_and, false_and, if_false, if_true]
        split_ifs <;> simp_all
      · by_cases hM : n.OrderType = SLM
        · simp only [hM, h2, h3, true_and, false_and, if_false, if_true]
          split_ifs <;> simp_all
        · simp only [hL, hS, hM, false_and, if_false]
  have hc : coverOrderValidation c = firstViolated coverRules c := by
    unfold coverOrderValidation
    simp only [coverRules, firstViolated_cons, firstViolated_nil, amoDetail,
      decide_eq_true_eq]
  have hb : bracketOrderValidation b = firstViolated bracketRules b := by
    unfold bracketOrderValidation
    simp only [bracketRules, firstViolated_cons, firstViolated_nil, amoDetail,
      decide_eq_true_eq]
  refine ⟨hn, hc, hb, ?_, ?_, ?_, ?_⟩
  · intro hS hp ht
    simp [normalOrderValidation, hS, h1, hp]
  · intro h
    rw [hn]
    exact firstViolated_init normalRules.dropLast (normalRules.drop 8) n amoDetail
      (by decide) h
  · intro h
    rw [hc]
    exact firstViolated_init coverRules.dropLast (coverRules.drop 2) c amoDetail
      (by decide) h
  · intro h
    rw [hb]
    exact firstViolated_init bracketRules.dropLast (bracketRules.drop 4) b amoDetail
      (by decide) h

/-- Witness of C7: the SL order of the test case `TriggerOrderInvalidLMTPrice`
(price 0, trigger price 0) gets the price detail. -/
theorem first_violated_rule_wins_witness :
    normalOrderValidation
      { TxnType := "B", OrderType := "SL", Validity := "DAY", Price := 0, TriggerPrice := 0 }
      = some ":Price cannot be zero with trigger limit order" :=
  (first_violated_rule_wins
    { TxnType := "B", OrderType := "SL", Validity := "DAY", Price := 0, TriggerPrice := 0 }
    {} {}).2.2.2.1 rfl (by decide) (by decide)

/-! ## Handlers: theorems -/

/-- C8: when `normalOrderValidation` returns an error on the parsed request,
`PlaceOrder` issues no vendor call, aborts, and answers HTTP 400 with status
false and an error list holding exactly one BadRequest error whose detail is
the text of the validation error. -/
theorem place_order_validation_error {D : Type} (env : Env)
    (InvokeHttp : VendorCall RupeeseedNormalOrderRequest → VendorReply)
    (Unmarshal : String → Option (RupeeseedNormalOrderResponse D))
    (request : PlaceOrderRequest) (err : String)
    (h : normalOrderValidation request = some err) :
    (PlaceOrder env InvokeHttp Unmarshal (some request)).calls = [] ∧
    (PlaceOrder env InvokeHttp Unmarshal (some request)).aborted = true ∧
    (PlaceOrder env InvokeHttp Unmarshal (some request)).written =
      some (400, { Status := false, Data := none,
                   Errors := [{ kind := "BadRequest", detail := err }] }) := by
  simp [PlaceOrder, h, Id.run, GinContext.JSON, GinContext.Abort, GetErrorDetails,
    StatusBadRequest]

/-- Witness of C8: the SL order of the test case
`TriggerOrderInvalidLMTPriceBuy` (BUY, price 10, trigger price 100) is answered
with HTTP 400 and one BadRequest error, without any vendor call. -/
theorem place_order_validation_error_witness :
    (PlaceOrder sampleEnv sampleVendor sampleUnmarshal
      (some { TxnType := "B", OrderType := "SL", Validity := "DAY", Price := 10,
              TriggerPrice := 100 })).calls = [] ∧
    (PlaceOrder sampleEnv sampleVendor sampleUnmarshal
      (some { TxnType := "B", OrderType := "SL", Validity := "DAY", Price := 10,
              TriggerPrice := 100 })).aborted = true ∧
    (PlaceOrder sampleEnv sampleVendor sampleUnmarshal
      (some { TxnType := "B", OrderType := "SL", Validity := "DAY", Price := 10,
              TriggerPrice := 100 })).written =
      some (400, { Status := false, Data := none,
                   Errors := [{ kind := "BadRequest",
                                detail := ":Trigger Price cannot be greater than limit buy price" }] }) :=
  place_order_validation_error sampleEnv sampleVendor sampleUnmarshal
    { TxnType := "B", OrderType := "SL", Validity := "DAY", Price := 10, TriggerPrice := 100 }
    ":Trigger Price cannot be greater than limit buy price" (by decide)

/-- C9: a parsed modify request is never validated.  `ModifyOrder`,
`BracketOrderModify` and `CoverOrderModify` each issue exactly one vendor call,
a POST of the payload `parseVendorRequestBody` builds from the request, and
what they answer is decided by the vendor reply alone: two requests (valid or
not by the place-order rules) that get the same reply get the same answer. -/
theorem modify_not_validated {D : Type} (env : Env)
    (InvokeHttp InvokeHttp' : VendorCall VendorRequest → VendorReply)
    (Unmarshal : String → Option (RupeeseedNormalOrderResponse D))
    (request request' : ModifyOrderRequest) :
    ((ModifyOrder env InvokeHttp Unmarshal (some request)).calls =
        [⟨MethodPost, env.EndPoint ++ env.ModifyOrderApi, parseVendorRequestBody env request,
          env.rupeeseedHeaders, env.ApiTimeout⟩] ∧
     (BracketOrderModify env InvokeHttp Unmarshal (some request)).calls =
        [⟨MethodPost, env.EndPoint ++ env.BoModifyOrderAPI, parseVendorRequestBody env request,
          env.rupeeseedHeaders, env.ApiTimeout⟩] ∧
     (CoverOrderModify env InvokeHttp Unmarshal (some request)).calls =
        [⟨MethodPost, env.EndPoint ++ env.CoModifyOrderApi, parseVendorRequestBody env request,
          env.rupeeseedHeaders, env.ApiTimeout⟩]) ∧
    (InvokeHttp ⟨MethodPost, env.EndPoint ++ env.ModifyOrderApi,
        parseVendorRequestBody env request, env.rupeeseedHeaders, env.ApiTimeout⟩ =
      InvokeHttp' ⟨MethodPost, env.EndPoint ++ env.ModifyOrderApi,
        parseVendorRequestBody env request', env.rupeeseedHeaders, env.ApiTimeout⟩ →
      (ModifyOrder env InvokeHttp Unmarshal (some request)).written =
        (ModifyOrder env InvokeHttp' Unmarshal (some request')).written ∧
      (ModifyOrder env InvokeHttp Unmarshal (some request)).aborted =
        (ModifyOrder env InvokeHttp' Unmarshal (some request')).aborted) ∧
    (InvokeHttp ⟨MethodPost, env.EndPoint ++ env.BoModifyOrderAPI,
        parseVendorRequestBody env request, env.rupeeseedHeaders, env.ApiTimeout⟩ =
      InvokeHttp' ⟨MethodPost, env.EndPoint ++ env.BoModifyOrderAPI,
        parseVendorRequestBody env request', env.rupeeseedHeaders, env.ApiTimeout⟩ →
      (BracketOrderModify env InvokeHttp Unmarshal (some request)).written =
        (BracketOrderModify env InvokeHttp' Unmarshal (some request')).written ∧
      (BracketOrderModify env InvokeHttp Unmarshal (some request)).aborted =
        (BracketOrderModify env InvokeHttp' Unmarshal (some request')).aborted) ∧
    (InvokeHttp ⟨MethodPost, env.EndPoint ++ env.CoModifyOrderApi,
        parseVendorRequestBody env request, env.rupeeseedHeaders, env.ApiTimeout⟩ =
      InvokeHttp' ⟨MethodPost, env.EndPoint ++ env.CoModifyOrderApi,
        parseVendorRequestBody env request', env.rupeeseedHeaders, env.ApiTimeout⟩ →
      (CoverOrderModify env InvokeHttp Unmarshal (some request)).written =
        (CoverOrderModify env InvokeHttp' Unmarshal (some request')).written ∧
      (CoverOrderModify env InvokeHttp Unmarshal (some request)).aborted =
        (CoverOrderModify env InvokeHttp' Unmarshal (some request')).aborted) := by
  refine ⟨⟨?_, ?_, ?_⟩, ?_, ?_, ?_⟩
  · simp only [ModifyOrder, Id.run, GinContext.invoked, GinContext.JSON, GinContext.Abort]
    repeat' split
    all_goals rfl
  · simp only [BracketOrderModify, Id.run, GinContext.invoked, GinContext.JSON,
      GinContext.Abort]
    repeat' split
    all_goals rfl
  · simp only [CoverOrderModify, Id.run, GinContext.invoked, GinContext.JSON,
      GinContext.Abort]
    repeat' split
    all_goals rfl
  · intro h
    simp only [ModifyOrder, Id.run, GinContext.invoked, GinContext.JSON, GinContext.Abort, h]
    repeat' split
    all_goals exact ⟨rfl, rfl⟩
  · intro h
    simp only [BracketOrderModify, Id.run, GinContext.invoked, GinContext.JSON,
      GinContext.Abort, h]
    repeat' split
    all_goals exact ⟨rfl, rfl⟩
  · intro h
    simp only [CoverOrderModify, Id.run, GinContext.invoked, GinContext.JSON,
      GinContext.Abort, h]
    repeat' split
    all_goals exact ⟨rfl, rfl⟩

/-- Witness of C9: a modify request that breaks the place-order rules (LMT at
price 0) and one that keeps them (LMT at price 10) each lead to one vendor
call and, the vendor answering alike, to the same answer. -/
theorem modify_not_validated_witness :
    (ModifyOrder sampleEnv sampleVendor sampleUnmarshal
        (some { OrderType := "LMT", Price := 0 })).written =
      (ModifyOrder sampleEnv sampleVendor sampleUnmarshal
        (some { OrderType := "LMT", Price := 10 })).written ∧
    (ModifyOrder sampleEnv sampleVendor sampleUnmarshal
        (some { OrderType := "LMT", Price := 0 })).aborted =
      (ModifyOrder sampleEnv sampleVendor sampleUnmarshal
        (some { OrderType := "LMT", Price := 10 })).aborted :=
  (modify_not_validated sampleEnv sampleVendor sampleVendor sampleUnmarshal
    { OrderType := "LMT", Price := 0 } { OrderType := "LMT", Price := 10 }).2.1 rfl

/-! ## Vendor translator: theorems -/

/-- Digits pushed on a non-empty accumulator leave it non-empty. -/
theorem toDigitsCore_ne_nil (b f n : Nat) (ds : List Char) (h : ds ≠ []) :
    Nat.toDigitsCore b f n ds ≠ [] := by
  induction f generalizing n ds with
  | zero => simpa [Nat.toDigitsCore] using h
  | succ f ih =>
    simp only [Nat.toDigitsCore]
    split_ifs
    · simp
    · exact ih _ _ (by simp)

/-- The decimal numeral of a natural number has at least one digit. -/
theorem nat_repr_ne_empty (n : Nat) : Nat.repr n ≠ "" := by
  intro h
  have h2 : Nat.toDigits 10 n = [] := by
    have := congrArg String.data h
    simpa [Nat.repr, List.asString] using this
  revert h2
  simp only [Nat.toDigits, Nat.toDigitsCore]
  split_ifs
  · simp
  · exact toDigitsCore_ne_nil _ _ _ _ (by simp)

/-- The verb `%d` never prints the empty string. -/
theorem sprintfD_ne_empty (i : Int) : sprintfD i ≠ "" := by
  cases i with
  | ofNat m => exact nat_repr_ne_empty m
  | negSucc m =>
    intro h
    have hl := congrArg String.length h
    have h1 : "-".length = 1 := rfl
    simp only [sprintfD, String.length_append, h1] at hl
    have h0 : "".length = 0 := rfl
    omega

/-- The digits are pushed in front of the accumulator. -/
theorem toDigitsCore_append (b f n : Nat) (ds : List Char) :
    Nat.toDigitsCore b f n ds = Nat.toDigitsCore b f n [] ++ ds := by
  induction f generalizing n ds with
  | zero => simp [Nat.toDigitsCore]
  | succ f ih =>
    simp only [Nat.toDigitsCore]
    split_ifs
    · simp
    · rw [ih (n / b) (Nat.digitChar (n % b) :: ds), ih (n / b) [Nat.digitChar (n % b)]]
      simp

/-- Reading one more digit multiplies by ten and adds it. -/
theorem parseDigits_snoc (xs : List Char) (c : Char) :
    parseDigits (xs ++ [c]) = 10 * parseDigits xs + (c.toNat - 48) := by
  simp [parseDigits, List.foldl_append]

/-- The character of a decimal digit reads back as that digit. -/
theorem digitChar_value (d : Nat) (h : d < 10) : (Nat.digitChar d).toNat - 48 = d := by
  interval_cases d <;> rfl

/-- No decimal digit is printed as the minus sign. -/
theorem digitChar_ne_minus (d : Nat) (h : d < 10) : Nat.digitChar d ≠ '-' := by
  interval_cases d <;> decide

/-- With enough fuel the printed digits read back as the number. -/
theorem parseDigits_toDigitsCore (f n : Nat) (h : n < f) :
    parseDigits (Nat.toDigitsCore 10 f n []) = n := by
  induction f generalizing n with
  | zero => omega
  | succ f ih =>
    simp only [Nat.toDigitsCore]
    split_ifs with h0
    · have hn : n % 10 = n := by omega
      have hv := digitChar_value (n % 10) (Nat.mod_lt _ (by decide))
      rw [hn] at hv ⊢
      simpa [parseDigits] using hv
    · rw [toDigitsCore_append, parseDigits_snoc, ih (n / 10) (by omega),
        digitChar_value (n % 10) (Nat.mod_lt _ (by decide))]
      omega

/-- The decimal numeral of a natural number reads back as that number. -/
theorem parseDigits_repr (n : Nat) : parseDigits (Nat.repr n).data = n := by
  simp only [Nat.repr, List.asString, Nat.toDigits]
  exact parseDigits_toDigitsCore (n + 1) n (by omega)

/-- With enough fuel the printed numeral starts with a decimal digit. -/
theorem toDigitsCore_head (f n : Nat) (h : n < f) :
    ∃ d rest, d < 10 ∧ Nat.toDigitsCore 10 f n [] = Nat.digitChar d :: rest := by
  induction f generalizing n with
  | zero => omega
  | succ f ih =>
    simp only [Nat.toDigitsCore]
    split_ifs with h0
    · exact ⟨n % 10, [], Nat.mod_lt _ (by decide), rfl⟩
    · rw [toDigitsCore_append]
      obtain ⟨d, rest, hd, e⟩ := ih (n / 10) (by omega)
      exact ⟨d, rest ++ [Nat.digitChar (n % 10)], hd, by rw [e]; rfl⟩

/-- Round trip of the verb `%d`: the printed numeral reads back as the
integer. -/
theorem parseD_sprintfD (i : Int) : parseD (sprintfD i) = i := by
  cases i with
  | ofNat m =>
    obtain ⟨d, rest, hd, e⟩ := toDigitsCore_head (m + 1) m (by omega)
    have hdata : (Nat.repr m).data = Nat.digitChar d :: rest := by
      simp only [Nat.repr, List.asString, Nat.toDigits]; exact e
    have hp := parseDigits_repr m
    have hne := digitChar_ne_minus d hd
    unfold parseD sprintfD
    simp only
    rw [hdata] at hp ⊢
    split
    · rename_i ds heq
      simp only [List.cons.injEq] at heq
      exact absurd heq.1 hne
    · simp [hp]
  | negSucc m =>
    have hdata : ("-" ++ Nat.repr (m + 1)).data = '-' :: (Nat.repr (m + 1)).data := rfl
    unfold parseD sprintfD
    simp only [hdata, parseDigits_repr]
    rfl

/-- Different integers are printed differently by `%d`. -/
theorem sprintfD_injective : Function.Injective sprintfD := by
  intro a b h
  have := congrArg parseD h
  simpa [parseD_sprintfD] using this
/-- C10: in the payload of `getRupeeseedOrderRequestBody` the disclosed-quantity
field is non-empty iff the request's disclosed quantity is positive, and it is
then the base-10 string of the request's total quantity, the same string as the
`Qty` field, and not the string of the requested disclosed quantity whenever
the two quantities differ. -/
theorem disclosed_qty_mirrors_quantity (env : Env) (req : PlaceOrderRequest) :
    ((getRupeeseedOrderRequestBody env req).Data.DisclosedQty ≠ "" ↔ req.DisclosedQty > 0) ∧
    (req.DisclosedQty > 0 →
      (getRupeeseedOrderRequestBody env req).Data.DisclosedQty = sprintfD req.Quantity ∧
      (getRupeeseedOrderRequestBody env req).Data.DisclosedQty =
        (getRupeeseedOrderRequestBody env req).Data.Qty ∧
      (req.Quantity ≠ req.DisclosedQty →
        (getRupeeseedOrderRequestBody env req).Data.DisclosedQty ≠
          sprintfD req.DisclosedQty)) := by
  have hne := sprintfD_ne_empty req.Quantity
  by_cases hd : req.DisclosedQty > 0
  · have e : (getRupeeseedOrderRequestBody env req).Data.DisclosedQty = sprintfD req.Quantity := by
      simp only [getRupeeseedOrderRequestBody, Id.run, hd, if_true]
      repeat' split
      all_goals rfl
    have q : (getRupeeseedOrderRequestBody env req).Data.Qty = sprintfD req.Quantity := by
      simp only [getRupeeseedOrderRequestBody, Id.run]
      repeat' split
      all_goals rfl
    refine ⟨⟨fun _ => hd, fun _ => by rw [e]; exact hne⟩, fun _ => ⟨e, by rw [e, q], ?_⟩⟩
    intro hq hs
    rw [e] at hs
    exact hq (sprintfD_injective hs)
  · have e : (getRupeeseedOrderRequestBody env req).Data.DisclosedQty = "" := by
      simp only [getRupeeseedOrderRequestBody, Id.run, hd, if_false]
      repeat' split
      all_goals rfl
    exact ⟨⟨fun h => absurd e h, fun h => absurd h hd⟩, fun h => absurd h hd⟩

/-- Witness of C10: for total quantity 10 and disclosed quantity 3 the
disclosed-quantity field of the payload is `"10"`, the `Qty` string, and not
`"3"`. -/
theorem disclosed_qty_mirrors_quantity_witness :
    (getRupeeseedOrderRequestBody sampleEnv
        { Quantity := 10, DisclosedQty := 3 }).Data.DisclosedQty = sprintfD 10 ∧
    (getRupeeseedOrderRequestBody sampleEnv
        { Quantity := 10, DisclosedQty := 3 }).Data.DisclosedQty =
      (getRupeeseedOrderRequestBody sampleEnv { Quantity := 10, DisclosedQty := 3 }).Data.Qty ∧
    (getRupeeseedOrderRequestBody sampleEnv
        { Quantity := 10, DisclosedQty := 3 }).Data.DisclosedQty ≠ sprintfD 3 :=
  have h := (disclosed_qty_mirrors_quantity sampleEnv
    { Quantity := 10, DisclosedQty := 3 }).2 (by decide)
  ⟨h.1, h.2.1, h.2.2 (by decide)⟩

/-- The character of a decimal digit is a digit character. -/
theorem digitChar_isDigit (d : Nat) (h : d < 10) : (Nat.digitChar d).isDigit = true := by
  interval_cases d <;> decide

/-- The character of a non-zero decimal digit is not `0`. -/
theorem digitChar_ne_zero (d : Nat) (h : d < 10) (h0 : d ≠ 0) : Nat.digitChar d ≠ '0' := by
  interval_cases d <;> first | exact absurd rfl h0 | decide

/-- With enough fuel every printed character is a digit, given that the
accumulator holds digits only. -/
theorem toDigitsCore_all_isDigit (f n : Nat) (ds : List Char)
    (h : ds.all Char.isDigit = true) :
    (Nat.toDigitsCore 10 f n ds).all Char.isDigit = true := by
  induction f generalizing n ds with
  | zero => simpa [Nat.toDigitsCore] using h
  | succ f ih =>
    simp only [Nat.toDigitsCore]
    have hd := digitChar_isDigit (n % 10) (Nat.mod_lt _ (by decide))
    split_ifs
    · simp only [List.all_cons, hd, h, Bool.and_self]
    · exact ih _ _ (by simp only [List.all_cons, hd, h, Bool.and_self])

/-- With enough fuel the numeral of a non-zero number starts with a non-zero
digit. -/
theorem toDigitsCore_head_ne_zero (f n : Nat) (h : n < f) (hn : n ≠ 0) :
    (Nat.toDigitsCore 10 f n []).head? ≠ some '0' := by
  induction f generalizing n with
  | zero => omega
  | succ f ih =>
    simp only [Nat.toDigitsCore]
    split_ifs with h0
    · have hlt : n < 10 := by omega
      have hm : n % 10 = n := by omega
      rw [hm]
      simp only [List.head?_cons, ne_eq, Option.some.injEq]
      exact digitChar_ne_zero n hlt hn
    · rw [toDigitsCore_append]
      have := ih (n / 10) (by omega) h0
      obtain ⟨d, rest, _, e⟩ := toDigitsCore_head f (n / 10) (by omega)
      rw [e] at this ⊢
      simpa using this

/-- The verb `%d` prints an unpadded base-10 numeral. -/
theorem sprintfD_unpadded (i : Int) : isUnpaddedNumeral (sprintfD i) = true := by
  have key : ∀ m : Nat, unpaddedDigits (Nat.repr m).data = true ∧
      ∀ rest, (Nat.repr m).data ≠ '-' :: rest := by
    intro m
    have hdata : (Nat.repr m).data = Nat.toDigitsCore 10 (m + 1) m [] := by
      simp only [Nat.repr, List.asString, Nat.toDigits]
    obtain ⟨d, rest, hd, e⟩ := toDigitsCore_head (m + 1) m (by omega)
    have hall := toDigitsCore_all_isDigit (m + 1) m [] (by simp)
    rw [hdata]
    refine ⟨?_, ?_⟩
    · by_cases hm : m = 0
      · subst hm; decide
      · have hz := toDigitsCore_head_ne_zero (m + 1) m (by omega) hm
        simp only [unpaddedDigits, hall, Bool.and_true, Bool.and_eq_true, Bool.not_eq_true',
          Bool.or_eq_true, bne_iff_ne, ne_eq]
        refine ⟨?_, Or.inl hz⟩
        rw [e]; rfl
    · intro rest' h'
      rw [e] at h'
      simp only [List.cons.injEq] at h'
      exact digitChar_ne_minus d hd h'.1
  cases i with
  | ofNat m =>
    obtain ⟨hu, hne⟩ := key m
    unfold isUnpaddedNumeral sprintfD
    split
    · rename_i ds heq
      exact absurd heq (hne ds)
    · exact hu
  | negSucc m =>
    obtain ⟨hu, _⟩ := key (m + 1)
    have hdata : ("-" ++ Nat.repr (m + 1)).data = '-' :: (Nat.repr (m + 1)).data := rfl
    unfold isUnpaddedNumeral sprintfD
    simp only [hdata]
    exact hu

/-- C11: in the payload of `getRupeeseedOrderRequestBody` the trigger-price
field is written (with the `%f` rendering of the trigger price) iff the trigger
price is positive and is empty otherwise; the encashment-timing field is the
timing code iff the after-market flag is set and the timing code is positive,
and stays zero otherwise; the after-market flag field is the literal `"true"`
when the flag is set and `"false"` otherwise. -/
theorem payload_optional_fields (env : Env) (req : PlaceOrderRequest) :
    (getRupeeseedOrderRequestBody env req).Data.TriggerPrice =
      (if req.TriggerPrice > 0 then env.sprintfF req.TriggerPrice else "") ∧
    ((∀ x, env.sprintfF x ≠ "") →
      ((getRupeeseedOrderRequestBody env req).Data.TriggerPrice ≠ "" ↔ req.TriggerPrice > 0)) ∧
    (getRupeeseedOrderRequestBody env req).Data.EncashFlag =
      (if req.OffMktFlag = true ∧ req.OffMktOrderTimeFlag > 0 then req.OffMktOrderTimeFlag
       else 0) ∧
    ((getRupeeseedOrderRequestBody env req).Data.EncashFlag ≠ 0 ↔
      (req.OffMktFlag = true ∧ req.OffMktOrderTimeFlag > 0)) ∧
    (getRupeeseedOrderRequestBody env req).Data.OffMktFlag =
      (if req.OffMktFlag = true then "true" else "false") := by
  have ht : (getRupeeseedOrderRequestBody env req).Data.TriggerPrice =
      (if req.TriggerPrice > 0 then env.sprintfF req.TriggerPrice else "") := by
    simp only [getRupeeseedOrderRequestBody, Id.run]
    repeat' split
    all_goals rfl
  have he : (getRupeeseedOrderRequestBody env req).Data.EncashFlag =
      (if req.OffMktFlag = true ∧ req.OffMktOrderTimeFlag > 0 then req.OffMktOrderTimeFlag
       else 0) := by
    simp only [getRupeeseedOrderRequestBody, Id.run]
    repeat' split
    all_goals first | rfl | (exfalso; simp_all)
  have hf : (getRupeeseedOrderRequestBody env req).Data.OffMktFlag =
      (if req.OffMktFlag = true then "true" else "false") := by
    simp only [getRupeeseedOrderRequestBody, Id.run]
    repeat' split
    all_goals rfl
  refine ⟨ht, ?_, he, ?_, hf⟩
  · intro hF
    rw [ht]
    by_cases h : req.TriggerPrice > 0
    · simp [h, hF]
    · simp [h]
  · rw [he]
    by_cases h : req.OffMktFlag = true ∧ req.OffMktOrderTimeFlag > 0
    · simp only [h, and_self, if_true, iff_true]
      omega
    · simp [h]

/-- The sample `%f` rendering never prints the empty string. -/
theorem sampleEnv_sprintfF_ne_empty (x : ℚ) : sampleEnv.sprintfF x ≠ "" := by
  intro h
  have hl := congrArg String.length h
  have h1 : "/".length = 1 := rfl
  have h0 : "".length = 0 := rfl
  simp only [sampleEnv, String.length_append, h1, h0] at hl
  omega

/-- Witness of C11: an after-market SL order with trigger price 9 and timing
code 2 gets a non-empty trigger-price field, and a request with trigger price
0 gets an empty one. -/
theorem payload_optional_fields_witness :
    ((getRupeeseedOrderRequestBody sampleEnv
        { OrderType := "SL", Price := 10, TriggerPrice := 9, OffMktFlag := true,
          OffMktOrderTimeFlag := 2 }).Data.TriggerPrice ≠ "" ↔ ((9 : ℚ) > 0)) ∧
    (getRupeeseedOrderRequestBody sampleEnv
        { OrderType := "MKT", TriggerPrice := 0 }).Data.TriggerPrice = "" :=
  ⟨(payload_optional_fields sampleEnv
      { OrderType := "SL", Price := 10, TriggerPrice := 9, OffMktFlag := true,
        OffMktOrderTimeFlag := 2 }).2.1 sampleEnv_sprintfF_ne_empty,
   (payload_optional_fields sampleEnv { OrderType := "MKT", TriggerPrice := 0 }).1⟩

/-- C12: round trip of the integer fields.  In the payloads of the normal,
bracket, cover and modify translators the quantity and exchange-token strings
are unpadded base-10 numerals, and reading them back gives exactly the
request's quantity and instrument token. -/
theorem quantity_token_round_trip (env : Env) (n : PlaceOrderRequest)
    (b : PlaceBracketOrderRequest) (c : PlaceCoverOrderRequest) (m : ModifyOrderRequest) :
    (isUnpaddedNumeral (getRupeeseedOrderRequestBody env n).Data.Qty = true ∧
     isUnpaddedNumeral (getRupeeseedOrderRequestBody env n).Data.ExchangeToken = true ∧
     parseD (getRupeeseedOrderRequestBody env n).Data.Qty = n.Quantity ∧
     parseD (getRupeeseedOrderRequestBody env n).Data.ExchangeToken = n.ExchangeToken) ∧
    (isUnpaddedNumeral (getRupeseedBracketRequestBody env b).Data.Quantity = true ∧
     isUnpaddedNumeral (getRupeseedBracketRequestBody env b).Data.ExchangeToken = true ∧
     parseD (getRupeseedBracketRequestBody env b).Data.Quantity = b.Quantity ∧
     parseD (getRupeseedBracketRequestBody env b).Data.ExchangeToken = b.ExchangeToken) ∧
    (isUnpaddedNumeral (getRupeseedCoverRequestBody env c).Data.Quantity = true ∧
     isUnpaddedNumeral (getRupeseedCoverRequestBody env c).Data.ExchangeToken = true ∧
     parseD (getRupeseedCoverRequestBody env c).Data.Quantity = c.Quantity ∧
     parseD (getRupeseedCoverRequestBody env c).Data.ExchangeToken = c.ExchangeToken) ∧
    (isUnpaddedNumeral (parseVendorRequestBody env m).Data.Qty = true ∧
     isUnpaddedNumeral (parseVendorRequestBody env m).Data.ExchangeToken = true ∧
     parseD (parseVendorRequestBody env m).Data.Qty = m.Qty ∧
     parseD (parseVendorRequestBody env m).Data.ExchangeToken = m.ExchangeToken) := by
  have n1 : (getRupeeseedOrderRequestBody env n).Data.Qty = sprintfD n.Quantity := by
    simp only [getRupeeseedOrderRequestBody, Id.run]
    repeat' split
    all_goals rfl
  have n2 : (getRupeeseedOrderRequestBody env n).Data.ExchangeToken =
      sprintfD n.ExchangeToken := by
    simp only [getRupeeseedOrderRequestBody, Id.run]
    repeat' split
    all_goals rfl
  have b1 : (getRupeseedBracketRequestBody env b).Data.Quantity = sprintfD b.Quantity := by
    simp only [getRupeseedBracketRequestBody, Id.run]
    repeat' split
    all_goals rfl
  have b2 : (getRupeseedBracketRequestBody env b).Data.ExchangeToken =
      sprintfD b.ExchangeToken := by
    simp only [getRupeseedBracketRequestBody, Id.run]
    repeat' split
    all_goals rfl
  have c1 : (getRupeseedCoverRequestBody env c).Data.Quantity = sprintfD c.Quantity := by
    simp only [getRupeseedCoverRequestBody, Id.run]
    repeat' split
    all_goals rfl
  have c2 : (getRupeseedCoverRequestBody env c).Data.ExchangeToken =
      sprintfD c.ExchangeToken := by
    simp only [getRupeseedCoverRequestBody, Id.run]
    repeat' split
    all_goals rfl
  have m1 : (parseVendorRequestBody env m).Data.Qty = sprintfD m.Qty := by
    simp only [parseVendorRequestBody, Id.run]
    repeat' split
    all_goals rfl
  have m2 : (parseVendorRequestBody env m).Data.ExchangeToken = sprintfD m.ExchangeToken := by
    simp only [parseVendorRequestBody, Id.run]
    repeat' split
    all_goals rfl
  rw [n1, n2, b1, b2, c1, c2, m1, m2]
  simp only [sprintfD_unpadded, parseD_sprintfD, and_self]

/-- C13: a transport error has the highest precedence.  Whenever the vendor
call of a handler returns a non-nil transport error, whatever body and status
come with it, the handler aborts and answers HTTP 500 with status false and
exactly one VendorApiFailure error; this holds for `PlaceOrder`, the three
modify handlers, the bracket and cover placements, `OrderBook`, `PositionBook`
and both vendor calls of `ConvertPosition`. -/
theorem transport_error_first {D : Type} (env : GatewayEnv) (lib : GoStrings)
    (InvokeNormal : VendorCall RupeeseedNormalOrderRequest → VendorReply)
    (InvokeModify : VendorCall VendorRequest → VendorReply)
    (InvokeBracket : VendorCall RupeseedBracketOrderRequest → VendorReply)
    (InvokeCover : VendorCall RupeseedCoverOrderRequest → VendorReply)
    (InvokeBook : VendorCall RupeeseedOrderBookRequest → VendorReply)
    (InvokePosition : VendorCall RupeeseedPositionBookRequest → VendorReply)
    (InvokeResty : VendorCall ConvertPayload → VendorReply)
    (Unmarshal : String → Option (RupeeseedNormalOrderResponse D))
    (UnmarshalBracket : String → Option (RupeeseedBracketOrderResponse D))
    (UnmarshalOrders : String → Option RupeeseedOrderBookResponse)
    (UnmarshalBook : String → Option RupeeseedPositionBookResponse)
    (UnmarshalConvert : String → Option RuppeeseedConvertPositionResponse)
    (place : PlaceOrderRequest) (modify : ModifyOrderRequest)
    (bracket : PlaceBracketOrderRequest) (cover : PlaceCoverOrderRequest)
    (ctx : OrderQuery) (userId : String) (convert : ConvertPositionRequest) :
    (normalOrderValidation place = none →
      (InvokeNormal (placeOrderCall env.toEnv place)).err ≠ none →
      (PlaceOrder env.toEnv InvokeNormal Unmarshal (some place)).aborted = true ∧
      (PlaceOrder env.toEnv InvokeNormal Unmarshal (some place)).written =
        some (500, { Status := false, Data := none,
                     Errors := [{ kind := "VendorApiFailure", detail := "" }] })) ∧
    ((InvokeModify (modifyCall env.toEnv env.ModifyOrderApi modify)).err ≠ none →
      (ModifyOrder env.toEnv InvokeModify Unmarshal (some modify)).aborted = true ∧
      (ModifyOrder env.toEnv InvokeModify Unmarshal (some modify)).written =
        some (500, { Status := false, Data := none, Message := "",
                     Errors := [{ kind := "VendorApiFailure", detail := "" }] })) ∧
    ((InvokeModify (modifyCall env.toEnv env.BoModifyOrderAPI modify)).err ≠ none →
      (BracketOrderModify env.toEnv InvokeModify Unmarshal (some modify)).aborted = true ∧
      (BracketOrderModify env.toEnv InvokeModify Unmarshal (some modify)).written =
        some (500, { Status := false, Data := none, Message := "",
                     Errors := [{ kind := "VendorApiFailure", detail := "" }] })) ∧
    ((InvokeModify (modifyCall env.toEnv env.CoModifyOrderApi modify)).err ≠ none →
      (CoverOrderModify env.toEnv InvokeModify Unmarshal (some modify)).aborted = true ∧
      (CoverOrderModify env.toEnv InvokeModify Unmarshal (some modify)).written =
        some (500, { Status := false, Data := none, Message := "",
                     Errors := [{ kind := "VendorApiFailure", detail := "" }] })) ∧
    (bracketOrderValidation bracket = none →
      (InvokeBracket (bracketCall env bracket)).err ≠ none →
      (PlaceBracketOrder env InvokeBracket UnmarshalBracket (some bracket)).aborted = true ∧
      (PlaceBracketOrder env InvokeBracket UnmarshalBracket (some bracket)).written =
        some (500, { Status := false, Data := none,
                     Errors := [{ kind := "VendorApiFailure", detail := "" }] })) ∧
    (coverOrderValidation cover = none →
      (InvokeCover (coverCall env cover)).err ≠ none →
      (PlaceCoverOrder env InvokeCover Unmarshal (some cover)).aborted = true ∧
      (PlaceCoverOrder env InvokeCover Unmarshal (some cover)).written =
        some (500, { Status := false, Data := none,
                     Errors := [{ kind := "VendorApiFailure", detail := "" }] })) ∧
    ((InvokeBook (orderBookCall env)).err ≠ none →
      (OrderBook env lib InvokeBook UnmarshalOrders ctx).aborted = true ∧
      (OrderBook env lib InvokeBook UnmarshalOrders ctx).written =
        some (500, { Status := false, Data := [],
                     Errors := [{ kind := "VendorApiFailure", detail := "" }] })) ∧
    ((InvokePosition (positionBookCall env)).err ≠ none →
      (PositionBook env InvokePosition UnmarshalBook).aborted = true ∧
      (PositionBook env InvokePosition UnmarshalBook).written =
        some (500, { Status := false, Data := {},
                     Errors := [{ kind := "VendorApiFailure", detail := "" }] })) ∧
    ((InvokeResty ((positionBookCall env).mapBody ConvertPayload.positionBook)).err ≠ none →
      (ConvertPosition env InvokeResty UnmarshalBook UnmarshalConvert userId
        (some convert)).aborted = true ∧
      (ConvertPosition env InvokeResty UnmarshalBook UnmarshalConvert userId
        (some convert)).written =
        some (500, { Status := false, Data := "",
                     Errors := [{ kind := "VendorApiFailure", detail := "" }] })) ∧
    ((fetchPositionBook env (fun call => InvokeResty (call.mapBody ConvertPayload.positionBook))
        UnmarshalBook).err = none →
      (scanPositions { convert with UserID := userId }
        (fetchPositionBook env
          (fun call => InvokeResty (call.mapBody ConvertPayload.positionBook))
          UnmarshalBook).obj.Data).2 = true →
      (InvokeResty ((convertCall env (getRupeeseedConvertPositionRequestBody env
        (scanPositions { convert with UserID := userId }
          (fetchPositionBook env
            (fun call => InvokeResty (call.mapBody ConvertPayload.positionBook))
            UnmarshalBook).obj.Data).1)).mapBody ConvertPayload.convert)).err ≠ none →
      (ConvertPosition env InvokeResty UnmarshalBook UnmarshalConvert userId
        (some convert)).aborted = true ∧
      (ConvertPosition env InvokeResty UnmarshalBook UnmarshalConvert userId
        (some convert)).written =
        some (500, { Status := false, Data := "",
                     Errors := [{ kind := "VendorApiFailure", detail := "" }] })) := by
  refine ⟨?_, ?_, ?_, ?_, ?_, ?_, ?_, ?_, ?_, ?_⟩
  · intro hv he
    simp only [placeOrderCall] at he
    simp [PlaceOrder, hv, he, Id.run, GinContext.JSON, GinContext.Abort, GinContext.invoked,
      GetErrorDetails, StatusInternalServerError]
  · intro he
    simp only [modifyCall] at he
    simp [ModifyOrder, he, Id.run, GinContext.JSON, GinContext.Abort, GinContext.invoked,
      GetErrorDetails, StatusInternalServerError]
  · intro he
    simp only [modifyCall] at he
    simp [BracketOrderModify, he, Id.run, GinContext.JSON, GinContext.Abort,
      GinContext.invoked, GetErrorDetails, StatusInternalServerError]
  · intro he
    simp only [modifyCall] at he
    simp [CoverOrderModify, he, Id.run, GinContext.JSON, GinContext.Abort, GinContext.invoked,
      GetErrorDetails, StatusInternalServerError]
  · intro hv he
    simp only [bracketCall] at he
    simp [PlaceBracketOrder, hv, he, Id.run, GinContext.JSON, GinContext.Abort,
      GinContext.invoked, GetErrorDetails, StatusInternalServerError]
  · intro hv he
    simp only [coverCall] at he
    simp [PlaceCoverOrder, hv, he, Id.run, GinContext.JSON, GinContext.Abort,
      GinContext.invoked, GetErrorDetails, StatusInternalServerError]
  · intro he
    simp only [orderBookCall] at he
    simp [OrderBook, he, Id.run, GinContext.JSON, GinContext.Abort, GinContext.invoked,
      GetErrorDetails, StatusInternalServerError]
  · intro he
    have hf : (fetchPositionBook env InvokePosition UnmarshalBook).err =
        some { kind := "VendorApiFailure", detail := "" } := by
      simp only [positionBookCall] at he
      simp [fetchPositionBook, he, Id.run, GetErrorDetails]
    simp [PositionBook, hf, Id.run, GinContext.JSON, GinContext.Abort, GinContext.invoked,
      BadRequest, StatusInternalServerError]
  · intro he
    have hf : (fetchPositionBook env
        (fun call => InvokeResty (call.mapBody ConvertPayload.positionBook))
        UnmarshalBook).err = some { kind := "VendorApiFailure", detail := "" } := by
      simp only [positionBookCall, VendorCall.mapBody] at he
      simp [fetchPositionBook, he, Id.run, GetErrorDetails, VendorCall.mapBody]
    simp [ConvertPosition, hf, Id.run, GinContext.JSON, GinContext.Abort, GinContext.invoked,
      StatusInternalServerError]
  · intro hf hs he
    have hc : (convertPosition env
        (fun call => InvokeResty (call.mapBody ConvertPayload.convert)) UnmarshalConvert
        (getRupeeseedConvertPositionRequestBody env
          (scanPositions { convert with UserID := userId }
            (fetchPositionBook env
              (fun call => InvokeResty (call.mapBody ConvertPayload.positionBook))
              UnmarshalBook).obj.Data).1)).err =
        some { kind := "VendorApiFailure", detail := "" } := by
      simp only [convertCall, VendorCall.mapBody] at he
      simp [convertPosition, he, Id.run, GetErrorDetails, VendorCall.mapBody]
    simp [ConvertPosition, hf, hs, hc, Id.run, GinContext.JSON, GinContext.Abort,
      GinContext.invoked, StatusInternalServerError, VendorOMSError]
/-- Witness of C13: the MKT order of the test case
`InvalidResponseReceiveFromVendor`, whose vendor call fails at the transport
level with the body `SORRY` and status 0, is aborted and answered with HTTP 500
and one VendorApiFailure error. -/
theorem transport_error_first_witness :
    (PlaceOrder sampleGatewayEnv.toEnv failingVendor sampleUnmarshal
      (some { TxnType := "B", Exchange := "NSE", Segment := "E", Product := "C",
              ExchangeToken := 1594, Quantity := 1, Validity := "DAY",
              OrderType := "MKT" })).aborted = true ∧
    (PlaceOrder sampleGatewayEnv.toEnv failingVendor sampleUnmarshal
      (some { TxnType := "B", Exchange := "NSE", Segment := "E", Product := "C",
              ExchangeToken := 1594, Quantity := 1, Validity := "DAY",
              OrderType := "MKT" })).written =
      some (500, { Status := false, Data := none,
                   Errors := [{ kind := "VendorApiFailure", detail := "" }] }) :=
  (transport_error_first sampleGatewayEnv sampleStrings failingVendor failingVendor
    failingVendor failingVendor failingVendor failingVendor failingVendor sampleUnmarshal
    (fun _ => none) (fun _ => none) (fun _ => none) (fun _ => none)
    { TxnType := "B", Exchange := "NSE", Segment := "E", Product := "C",
      ExchangeToken := 1594, Quantity := 1, Validity := "DAY", OrderType := "MKT" }
    {} {} {} {} "" {}).1 (by decide) (by decide)

/-- C14: when the vendor call returns no transport error and an HTTP status
other than 200, the handler aborts and answers with the status of the vendor
and exactly one VendorConnectionFailure error, whatever the body holds; this
holds for `PlaceOrder`, `ModifyOrder`, `PlaceBracketOrder`, `PlaceCoverOrder`,
`BracketOrderModify`, `CoverOrderModify` and `OrderBook`. -/
theorem non_200_passes_status {D : Type} (env : GatewayEnv) (lib : GoStrings)
    (InvokeNormal : VendorCall RupeeseedNormalOrderRequest → VendorReply)
    (InvokeModify : VendorCall VendorRequest → VendorReply)
    (InvokeBracket : VendorCall RupeseedBracketOrderRequest → VendorReply)
    (InvokeCover : VendorCall RupeseedCoverOrderRequest → VendorReply)
    (InvokeBook : VendorCall RupeeseedOrderBookRequest → VendorReply)
    (Unmarshal : String → Option (RupeeseedNormalOrderResponse D))
    (UnmarshalBracket : String → Option (RupeeseedBracketOrderResponse D))
    (UnmarshalOrders : String → Option RupeeseedOrderBookResponse)
    (place : PlaceOrderRequest) (modify : ModifyOrderRequest)
    (bracket : PlaceBracketOrderRequest) (cover : PlaceCoverOrderRequest)
    (ctx : OrderQuery) :
    (normalOrderValidation place = none →
      (InvokeNormal (placeOrderCall env.toEnv place)).err = none →
      (InvokeNormal (placeOrderCall env.toEnv place)).status ≠ 200 →
      (PlaceOrder env.toEnv InvokeNormal Unmarshal (some place)).aborted = true ∧
      (PlaceOrder env.toEnv InvokeNormal Unmarshal (some place)).written =
        some ((InvokeNormal (placeOrderCall env.toEnv place)).status,
          { Status := false, Data := none,
            Errors := [{ kind := "VendorConnectionFailure", detail := "" }] })) ∧
    ((InvokeModify (modifyCall env.toEnv env.ModifyOrderApi modify)).err = none →
      (InvokeModify (modifyCall env.toEnv env.ModifyOrderApi modify)).status ≠ 200 →
      (ModifyOrder env.toEnv InvokeModify Unmarshal (some modify)).aborted = true ∧
      (ModifyOrder env.toEnv InvokeModify Unmarshal (some modify)).written =
        some ((InvokeModify (modifyCall env.toEnv env.ModifyOrderApi modify)).status,
          { Status := false, Data := none, Message := "",
            Errors := [{ kind := "VendorConnectionFailure", detail := "" }] })) ∧
    (bracketOrderValidation bracket = none →
      (InvokeBracket (bracketCall env bracket)).err = none →
      (InvokeBracket (bracketCall env bracket)).status ≠ 200 →
      (PlaceBracketOrder env InvokeBracket UnmarshalBracket (some bracket)).aborted = true ∧
      (PlaceBracketOrder env InvokeBracket UnmarshalBracket (some bracket)).written =
        some ((InvokeBracket (bracketCall env bracket)).status,
          { Status := false, Data := none,
            Errors := [{ kind := "VendorConnectionFailure", detail := "" }] })) ∧
    (coverOrderValidation cover = none →
      (InvokeCover (coverCall env cover)).err = none →
      (InvokeCover (coverCall env cover)).status ≠ 200 →
      (PlaceCoverOrder env InvokeCover Unmarshal (some cover)).aborted = true ∧
      (PlaceCoverOrder env InvokeCover Unmarshal (some cover)).written =
        some ((InvokeCover (coverCall env cover)).status,
          { Status := false, Data := none,
            Errors := [{ kind := "VendorConnectionFailure", detail := "" }] })) ∧
    ((InvokeModify (modifyCall env.toEnv env.BoModifyOrderAPI modify)).err = none →
      (InvokeModify (modifyCall env.toEnv env.BoModifyOrderAPI modify)).status ≠ 200 →
      (BracketOrderModify env.toEnv InvokeModify Unmarshal (some modify)).aborted = true ∧
      (BracketOrderModify env.toEnv InvokeModify Unmarshal (some modify)).written =
        some ((InvokeModify (modifyCall env.toEnv env.BoModifyOrderAPI modify)).status,
          { Status := false, Data := none, Message := "",
            Errors := [{ kind := "VendorConnectionFailure", detail := "" }] })) ∧
    ((InvokeModify (modifyCall env.toEnv env.CoModifyOrderApi modify)).err = none →
      (InvokeModify (modifyCall env.toEnv env.CoModifyOrderApi modify)).status ≠ 200 →
      (CoverOrderModify env.toEnv InvokeModify Unmarshal (some modify)).aborted = true ∧
      (CoverOrderModify env.toEnv InvokeModify Unmarshal (some modify)).written =
        some ((InvokeModify (modifyCall env.toEnv env.CoModifyOrderApi modify)).status,
          { Status := false, Data := none, Message := "",
            Errors := [{ kind := "VendorConnectionFailure", detail := "" }] })) ∧
    ((InvokeBook (orderBookCall env)).err = none →
      (InvokeBook (orderBookCall env)).status ≠ 200 →
      (OrderBook env lib InvokeBook UnmarshalOrders ctx).aborted = true ∧
      (OrderBook env lib InvokeBook UnmarshalOrders ctx).written =
        some ((InvokeBook (orderBookCall env)).status,
          { Status := false, Data := [],
            Errors := [{ kind := "VendorConnectionFailure", detail := "" }] })) := by
  refine ⟨?_, ?_, ?_, ?_, ?_, ?_, ?_⟩
  · intro hv he hs
    simp only [placeOrderCall] at he hs ⊢
    simp [PlaceOrder, hv, he, hs, Id.run, GinContext.JSON, GinContext.Abort,
      GinContext.invoked, GetErrorDetails, StatusOK]
  · intro he hs
    simp only [modifyCall] at he hs ⊢
    simp [ModifyOrder, he, hs, Id.run, GinContext.JSON, GinContext.Abort,
      GinContext.invoked, GetErrorDetails, StatusOK]
  · intro hv he hs
    simp only [bracketCall] at he hs ⊢
    simp [PlaceBracketOrder, hv, he, hs, Id.run, GinContext.JSON, GinContext.Abort,
      GinContext.invoked, GetErrorDetails, StatusOK]
  · intro hv he hs
    simp only [coverCall] at he hs ⊢
    simp [PlaceCoverOrder, hv, he, hs, Id.run, GinContext.JSON, GinContext.Abort,
      GinContext.invoked, GetErrorDetails, StatusOK]
  · intro he hs
    simp only [modifyCall] at he hs ⊢
    simp [BracketOrderModify, he, hs, Id.run, GinContext.JSON, GinContext.Abort,
      GinContext.invoked, GetErrorDetails, StatusOK]
  · intro he hs
    simp only [modifyCall] at he hs ⊢
    simp [CoverOrderModify, he, hs, Id.run, GinContext.JSON, GinContext.Abort,
      GinContext.invoked, GetErrorDetails, StatusOK]
  · intro he hs
    simp only [orderBookCall] at he hs ⊢
    simp [OrderBook, he, hs, Id.run, GinContext.JSON, GinContext.Abort,
      GinContext.invoked, GetErrorDetails, StatusOK]

/-- Witness of C14: the MKT order of the vendor-failure test cases, answered by
a reachable vendor with HTTP 404, is aborted and answered with HTTP 404 and one
VendorConnectionFailure error. -/
theorem non_200_passes_status_witness :
    (PlaceOrder sampleGatewayEnv.toEnv notFoundVendor sampleUnmarshal
      (some { TxnType := "B", Exchange := "NSE", Segment := "E", Product := "C",
              ExchangeToken := 1594, Quantity := 1, Validity := "DAY",
              OrderType := "MKT" })).aborted = true ∧
    (PlaceOrder sampleGatewayEnv.toEnv notFoundVendor sampleUnmarshal
      (some { TxnType := "B", Exchange := "NSE", Segment := "E", Product := "C",
              ExchangeToken := 1594, Quantity := 1, Validity := "DAY",
              OrderType := "MKT" })).written =
      some (404, { Status := false, Data := none,
                   Errors := [{ kind := "VendorConnectionFailure", detail := "" }] }) :=
  (non_200_passes_status sampleGatewayEnv sampleStrings notFoundVendor notFoundVendor
    notFoundVendor notFoundVendor notFoundVendor sampleUnmarshal
    (fun _ => none) (fun _ => none)
    { TxnType := "B", Exchange := "NSE", Segment := "E", Product := "C",
      ExchangeToken := 1594, Quantity := 1, Validity := "DAY", OrderType := "MKT" }
    {} {} {} {}).1 (by decide) (by decide) (by decide)

/-- C15 (counterexample): a reachable vendor that answers the position-book
query with HTTP 404 makes `PositionBook` answer HTTP 500, which is not the
status of the vendor; and a reachable vendor that answers the conversion
submission with HTTP 404 makes `ConvertPosition` answer HTTP 500 with a
VendorApiFailure error, not a VendorConnectionFailure error. -/
theorem position_non_200_counterexample :
    ((notFoundVendor (positionBookCall sampleGatewayEnv)).err = none ∧
     (notFoundVendor (positionBookCall sampleGatewayEnv)).status = 404 ∧
     (PositionBook sampleGatewayEnv notFoundVendor sampleBookUnmarshal).written =
       some (500, { Status := false, Data := {},
                    Errors := [{ kind := "VendorConnectionFailure", detail := "" }] }) ∧
     (PositionBook sampleGatewayEnv notFoundVendor sampleBookUnmarshal).written.map Prod.fst ≠
       some (notFoundVendor (positionBookCall sampleGatewayEnv)).status) ∧
    ((ConvertPosition sampleGatewayEnv convertNotFoundVendor sampleBookUnmarshal
        (fun _ => none) "TEST2" (some sampleConversion)).calls.length = 2 ∧
     (ConvertPosition sampleGatewayEnv convertNotFoundVendor sampleBookUnmarshal
        (fun _ => none) "TEST2" (some sampleConversion)).written =
       some (500, { Status := false, Data := "",
                    Errors := [{ kind := "VendorApiFailure", detail := "" }] })) := by
  refine ⟨⟨by decide, by decide, by decide, by decide⟩, by decide, by decide⟩

/-- C15 (amended): when the position-book fetch returns no transport error and
an HTTP status other than 200, `PositionBook` and `ConvertPosition` abort and
answer HTTP 500 with exactly one VendorConnectionFailure error; when the
conversion submission returns no transport error and an HTTP status other than
200, `ConvertPosition` aborts and answers HTTP 500 with exactly one
VendorApiFailure error.  The status of the vendor is not passed through. -/
theorem position_non_200 (env : GatewayEnv)
    (InvokePosition : VendorCall RupeeseedPositionBookRequest → VendorReply)
    (InvokeResty : VendorCall ConvertPayload → VendorReply)
    (UnmarshalBook : String → Option RupeeseedPositionBookResponse)
    (UnmarshalConvert : String → Option RuppeeseedConvertPositionResponse)
    (userId : String) (convert : ConvertPositionRequest) :
    ((InvokePosition (positionBookCall env)).err = none →
      (InvokePosition (positionBookCall env)).status ≠ 200 →
      (PositionBook env InvokePosition UnmarshalBook).aborted = true ∧
      (PositionBook env InvokePosition UnmarshalBook).written =
        some (500, { Status := false, Data := {},
                     Errors := [{ kind := "VendorConnectionFailure", detail := "" }] })) ∧
    ((InvokeResty ((positionBookCall env).mapBody ConvertPayload.positionBook)).err = none →
      (InvokeResty ((positionBookCall env).mapBody ConvertPayload.positionBook)).status ≠ 200 →
      (ConvertPosition env InvokeResty UnmarshalBook UnmarshalConvert userId
        (some convert)).aborted = true ∧
      (ConvertPosition env InvokeResty UnmarshalBook UnmarshalConvert userId
        (some convert)).written =
        some (500, { Status := false, Data := "",
                     Errors := [{ kind := "VendorConnectionFailure", detail := "" }] })) ∧
    ((fetchPositionBook env (fun call => InvokeResty (call.mapBody ConvertPayload.positionBook))
        UnmarshalBook).err = none →
      (scanPositions { convert with UserID := userId }
        (fetchPositionBook env
          (fun call => InvokeResty (call.mapBody ConvertPayload.positionBook))
          UnmarshalBook).obj.Data).2 = true →
      (InvokeResty ((convertCall env (getRupeeseedConvertPositionRequestBody env
        (scanPositions { convert with UserID := userId }
          (fetchPositionBook env
            (fun call => InvokeResty (call.mapBody ConvertPayload.positionBook))
            UnmarshalBook).obj.Data).1)).mapBody ConvertPayload.convert)).err = none →
      (InvokeResty ((convertCall env (getRupeeseedConvertPositionRequestBody env
        (scanPositions { convert with UserID := userId }
          (fetchPositionBook env
            (fun call => InvokeResty (call.mapBody ConvertPayload.positionBook))
            UnmarshalBook).obj.Data).1)).mapBody ConvertPayload.convert)).status ≠ 200 →
      (ConvertPosition env InvokeResty UnmarshalBook UnmarshalConvert userId
        (some convert)).aborted = true ∧
      (ConvertPosition env InvokeResty UnmarshalBook UnmarshalConvert userId
        (some convert)).written =
        some (500, { Status := false, Data := "",
                     Errors := [{ kind := "VendorApiFailure", detail := "" }] })) := by
  refine ⟨?_, ?_, ?_⟩
  · intro he hs
    have hf : (fetchPositionBook env InvokePosition UnmarshalBook).err =
        some { kind := "VendorConnectionFailure", detail := "" } := by
      simp only [positionBookCall] at he hs
      simp [fetchPositionBook, he, hs, Id.run, GetErrorDetails, StatusOK]
    simp [PositionBook, hf, Id.run, GinContext.JSON, GinContext.Abort, GinContext.invoked,
      BadRequest, StatusInternalServerError]
  · intro he hs
    have hf : (fetchPositionBook env
        (fun call => InvokeResty (call.mapBody ConvertPayload.positionBook))
        UnmarshalBook).err = some { kind := "VendorConnectionFailure", detail := "" } := by
      simp only [positionBookCall, VendorCall.mapBody] at he hs
      simp [fetchPositionBook, he, hs, Id.run, GetErrorDetails, VendorCall.mapBody, StatusOK]
    simp [ConvertPosition, hf, Id.run, GinContext.JSON, GinContext.Abort, GinContext.invoked,
      StatusInternalServerError]
  · intro hf hsc he hs
    have hc : (convertPosition env
        (fun call => InvokeResty (call.mapBody ConvertPayload.convert)) UnmarshalConvert
        (getRupeeseedConvertPositionRequestBody env
          (scanPositions { convert with UserID := userId }
            (fetchPositionBook env
              (fun call => InvokeResty (call.mapBody ConvertPayload.positionBook))
              UnmarshalBook).obj.Data).1)).err =
        some { kind := "VendorApiFailure", detail := "" } := by
      simp only [convertCall, VendorCall.mapBody] at he hs
      simp [convertPosition, he, hs, Id.run, GetErrorDetails, VendorCall.mapBody, StatusOK]
    simp [ConvertPosition, hf, hsc, hc, Id.run, GinContext.JSON, GinContext.Abort,
      GinContext.invoked, StatusInternalServerError, VendorOMSError]

/-- Witness of C15 (amended): the position-book query answered with HTTP 404
by a reachable vendor is answered by `PositionBook` with HTTP 500 and one
VendorConnectionFailure error. -/
theorem position_non_200_witness :
    (PositionBook sampleGatewayEnv notFoundVendor sampleBookUnmarshal).aborted = true ∧
    (PositionBook sampleGatewayEnv notFoundVendor sampleBookUnmarshal).written =
      some (500, { Status := false, Data := {},
                   Errors := [{ kind := "VendorConnectionFailure", detail := "" }] }) :=
  (position_non_200 sampleGatewayEnv notFoundVendor convertNotFoundVendor sampleBookUnmarshal
    (fun _ => none) "TEST2" sampleConversion).1 (by decide) (by decide)

/-- C16: for a vendor reply that is reachable (no transport error, HTTP 200),
decodes, and has a status other than the success token, every handler answers
what the spec's classifier gives for the vendor error code: BadRequest with
HTTP 400 iff the lookup table maps the code to 400, and InternalServerError
with HTTP 500 otherwise; a code absent from the table (read as `0`) never
yields BadRequest.  This holds for the three placements, the three modify
handlers, `OrderBook`, `fetchPositionBook` and `PositionBook`. -/
theorem vendor_code_classified {D : Type} (env : GatewayEnv) (lib : GoStrings)
    (InvokeNormal : VendorCall RupeeseedNormalOrderRequest → VendorReply)
    (InvokeModify : VendorCall VendorRequest → VendorReply)
    (InvokeBracket : VendorCall RupeseedBracketOrderRequest → VendorReply)
    (InvokeCover : VendorCall RupeseedCoverOrderRequest → VendorReply)
    (InvokeBook : VendorCall RupeeseedOrderBookRequest → VendorReply)
    (InvokePosition : VendorCall RupeeseedPositionBookRequest → VendorReply)
    (Unmarshal : String → Option (RupeeseedNormalOrderResponse D))
    (UnmarshalBracket : String → Option (RupeeseedBracketOrderResponse D))
    (UnmarshalOrders : String → Option RupeeseedOrderBookResponse)
    (UnmarshalBook : String → Option RupeeseedPositionBookResponse)
    (place : PlaceOrderRequest) (modify : ModifyOrderRequest)
    (bracket : PlaceBracketOrderRequest) (cover : PlaceCoverOrderRequest)
    (ctx : OrderQuery) :
    (∀ code message,
      ((classifyVendorCode env.RupeeseedErrors code message).1 = 400 ↔
        env.RupeeseedErrors code = 400) ∧
      ((classifyVendorCode env.RupeeseedErrors code message).2.kind = "BadRequest" ↔
        env.RupeeseedErrors code = 400) ∧
      (env.RupeeseedErrors code ≠ 400 →
        (classifyVendorCode env.RupeeseedErrors code message).1 = 500 ∧
        (classifyVendorCode env.RupeeseedErrors code message).2.kind = "InternalServerError") ∧
      (env.RupeeseedErrors code = 0 →
        classifyVendorCode env.RupeeseedErrors code message =
          (500, { kind := "InternalServerError", detail := "" }))) ∧
    (∀ obj, normalOrderValidation place = none →
      (InvokeNormal (placeOrderCall env.toEnv place)).err = none →
      (InvokeNormal (placeOrderCall env.toEnv place)).status = 200 →
      Unmarshal (InvokeNormal (placeOrderCall env.toEnv place)).body = some obj →
      obj.Status ≠ Success →
      (PlaceOrder env.toEnv InvokeNormal Unmarshal (some place)).aborted = true ∧
      (PlaceOrder env.toEnv InvokeNormal Unmarshal (some place)).written =
        some ((classifyVendorCode env.RupeeseedErrors obj.ErrCode obj.Message).1,
          { Status := false, Data := none,
            Errors := [(classifyVendorCode env.RupeeseedErrors obj.ErrCode obj.Message).2] })) ∧
    (∀ obj, bracketOrderValidation bracket = none →
      (InvokeBracket (bracketCall env bracket)).err = none →
      (InvokeBracket (bracketCall env bracket)).status = 200 →
      UnmarshalBracket (InvokeBracket (bracketCall env bracket)).body = some obj →
      obj.Status ≠ Success →
      (PlaceBracketOrder env InvokeBracket UnmarshalBracket (some bracket)).aborted = true ∧
      (PlaceBracketOrder env InvokeBracket UnmarshalBracket (some bracket)).written =
        some ((classifyVendorCode env.RupeeseedErrors obj.ErrCode obj.Message).1,
          { Status := false, Data := none,
            Errors := [(classifyVendorCode env.RupeeseedErrors obj.ErrCode obj.Message).2] })) ∧
    (∀ obj, coverOrderValidation cover = none →
      (InvokeCover (coverCall env cover)).err = none →
      (InvokeCover (coverCall env cover)).status = 200 →
      Unmarshal (InvokeCover (coverCall env cover)).body = some obj →
      obj.Status ≠ Success →
      (PlaceCoverOrder env InvokeCover Unmarshal (some cover)).aborted = true ∧
      (PlaceCoverOrder env InvokeCover Unmarshal (some cover)).written =
        some ((classifyVendorCode env.RupeeseedErrors obj.ErrCode obj.Message).1,
          { Status := false, Data := none,
            Errors := [(classifyVendorCode env.RupeeseedErrors obj.ErrCode obj.Message).2] })) ∧
    (∀ obj,
      (InvokeModify (modifyCall env.toEnv env.ModifyOrderApi modify)).err = none →
      (InvokeModify (modifyCall env.toEnv env.ModifyOrderApi modify)).status = 200 →
      Unmarshal (InvokeModify (modifyCall env.toEnv env.ModifyOrderApi modify)).body = some obj →
      obj.Status ≠ Success →
      (ModifyOrder env.toEnv InvokeModify Unmarshal (some modify)).aborted = true ∧
      (ModifyOrder env.toEnv InvokeModify Unmarshal (some modify)).written =
        some ((classifyVendorCode env.RupeeseedErrors obj.ErrCode obj.Message).1,
          { Status := false, Data := none, Message := "",
            Errors := [(classifyVendorCode env.RupeeseedErrors obj.ErrCode obj.Message).2] })) ∧
    (∀ obj,
      (InvokeModify (modifyCall env.toEnv env.BoModifyOrderAPI modify)).err = none →
      (InvokeModify (modifyCall env.toEnv env.BoModifyOrderAPI modify)).status = 200 →
      Unmarshal (InvokeModify (modifyCall env.toEnv env.BoModifyOrderAPI modify)).body = some obj →
      obj.Status ≠ Success →
      (BracketOrderModify env.toEnv InvokeModify Unmarshal (some modify)).aborted = true ∧
      (BracketOrderModify env.toEnv InvokeModify Unmarshal (some modify)).written =
        some ((classifyVendorCode env.RupeeseedErrors obj.ErrCode obj.Message).1,
          { Status := false, Data := none, Message := "",
            Errors := [(classifyVendorCode env.RupeeseedErrors obj.ErrCode obj.Message).2] })) ∧
    (∀ obj,
      (InvokeModify (modifyCall env.toEnv env.CoModifyOrderApi modify)).err = none →
      (InvokeModify (modifyCall env.toEnv env.CoModifyOrderApi modify)).status = 200 →
      Unmarshal (InvokeModify (modifyCall env.toEnv env.CoModifyOrderApi modify)).body = some obj →
      obj.Status ≠ Success →
      (CoverOrderModify env.toEnv InvokeModify Unmarshal (some modify)).aborted = true ∧
      (CoverOrderModify env.toEnv InvokeModify Unmarshal (some modify)).written =
        some ((classifyVendorCode env.RupeeseedErrors obj.ErrCode obj.Message).1,
          { Status := false, Data := none, Message := "",
            Errors := [(classifyVendorCode env.RupeeseedErrors obj.ErrCode obj.Message).2] })) ∧
    (∀ obj,
      (InvokeBook (orderBookCall env)).err = none →
      (InvokeBook (orderBookCall env)).status = 200 →
      UnmarshalOrders (InvokeBook (orderBookCall env)).body = some obj →
      obj.Status ≠ Success →
      (OrderBook env lib InvokeBook UnmarshalOrders ctx).aborted = true ∧
      (OrderBook env lib InvokeBook UnmarshalOrders ctx).written =
        some ((classifyVendorCode env.RupeeseedErrors obj.ErrorCode obj.Message).1,
          { Status := false, Data := [],
            Errors := [(classifyVendorCode env.RupeeseedErrors obj.ErrorCode obj.Message).2] })) ∧
    (∀ obj,
      (InvokePosition (positionBookCall env)).err = none →
      (InvokePosition (positionBookCall env)).status = 200 →
      UnmarshalBook (InvokePosition (positionBookCall env)).body = some obj →
      obj.Status ≠ Success →
      (fetchPositionBook env InvokePosition UnmarshalBook).err =
        some (classifyVendorCode env.RupeeseedErrors obj.ErrorCode obj.Message).2) ∧
    (∀ obj,
      (InvokePosition (positionBookCall env)).err = none →
      (InvokePosition (positionBookCall env)).status = 200 →
      UnmarshalBook (InvokePosition (positionBookCall env)).body = some obj →
      obj.Status ≠ Success →
      (PositionBook env InvokePosition UnmarshalBook).aborted = true ∧
      (PositionBook env InvokePosition UnmarshalBook).written =
        some ((classifyVendorCode env.RupeeseedErrors obj.ErrorCode obj.Message).1,
          { Status := false, Data := {},
            Errors := [(classifyVendorCode env.RupeeseedErrors obj.ErrorCode obj.Message).2] })) := by
  refine ⟨?_, ?_, ?_, ?_, ?_, ?_, ?_, ?_, ?_, ?_⟩
  · intro code message
    unfold classifyVendorCode
    refine ⟨?_, ?_, ?_, ?_⟩
    · split_ifs <;> simp_all
    · split_ifs <;> simp_all
    · intro h
      split_ifs <;> simp_all
    · intro h
      simp [h]
  · intro obj hv he hst hu hs
    simp only [placeOrderCall] at he hst hu
    unfold classifyVendorCode
    simp only [PlaceOrder, hv, he, hst, hu, hs, Id.run, GinContext.JSON, GinContext.Abort,
      GinContext.invoked, GetErrorDetails, StatusOK, StatusBadRequest,
      StatusInternalServerError]
    split_ifs <;> simp_all
  · intro obj hv he hst hu hs
    simp only [bracketCall] at he hst hu
    unfold classifyVendorCode
    simp only [PlaceBracketOrder, hv, he, hst, hu, hs, Id.run, GinContext.JSON, GinContext.Abort,
      GinContext.invoked, GetErrorDetails, StatusOK, StatusBadRequest,
      StatusInternalServerError]
    split_ifs <;> simp_all
  · intro obj hv he hst hu hs
    simp only [coverCall] at he hst hu
    unfold classifyVendorCode
    simp only [PlaceCoverOrder, hv, he, hst, hu, hs, Id.run, GinContext.JSON, GinContext.Abort,
      GinContext.invoked, GetErrorDetails, StatusOK, StatusBadRequest,
      StatusInternalServerError]
    split_ifs <;> simp_all
  · intro obj he hst hu hs
    simp only [modifyCall] at he hst hu
    unfold classifyVendorCode
    simp only [ModifyOrder, he, hst, hu, hs, Id.run, GinContext.JSON, GinContext.Abort,
      GinContext.invoked, GetErrorDetails, StatusOK, StatusBadRequest,
      StatusInternalServerError]
    split_ifs <;> simp_all
  · intro obj he hst hu hs
    simp only [modifyCall] at he hst hu
    unfold classifyVendorCode
    simp only [BracketOrderModify, he, hst, hu, hs, Id.run, GinContext.JSON, GinContext.Abort,
      GinContext.invoked, GetErrorDetails, StatusOK, StatusBadRequest,
      StatusInternalServerError]
    split_ifs <;> simp_all
  · intro obj he hst hu hs
    simp only [modifyCall] at he hst hu
    unfold classifyVendorCode
    simp only [CoverOrderModify, he, hst, hu, hs, Id.run, GinContext.JSON, GinContext.Abort,
      GinContext.invoked, GetErrorDetails, StatusOK, StatusBadRequest,
      StatusInternalServerError]
    split_ifs <;> simp_all
  · intro obj he hst hu hs
    simp only [orderBookCall] at he hst hu
    unfold classifyVendorCode
    simp only [OrderBook, he, hst, hu, hs, Id.run, GinContext.JSON, GinContext.Abort,
      GinContext.invoked, GetErrorDetails, StatusOK, StatusBadRequest,
      StatusInternalServerError]
    split_ifs <;> simp_all
  · intro obj he hst hu hs
    simp only [positionBookCall] at he hst hu
    unfold classifyVendorCode
    simp only [fetchPositionBook, he, hst, hu, hs, Id.run, GetErrorDetails, StatusOK,
      StatusBadRequest, StatusInternalServerError]
    split_ifs <;> simp_all
  · intro obj he hst hu hs
    have hf : (fetchPositionBook env InvokePosition UnmarshalBook).err =
        some (classifyVendorCode env.RupeeseedErrors obj.ErrorCode obj.Message).2 := by
      simp only [positionBookCall] at he hst hu
      unfold classifyVendorCode
      simp only [fetchPositionBook, he, hst, hu, hs, Id.run, GetErrorDetails, StatusOK,
        StatusBadRequest, StatusInternalServerError]
      split_ifs <;> simp_all
    simp only [PositionBook, hf, Id.run, GinContext.JSON, GinContext.Abort,
      GinContext.invoked]
    unfold classifyVendorCode
    split_ifs <;>
      simp_all [BadRequest, StatusBadRequest, StatusInternalServerError]

/-- Witness of C16: a rejection whose vendor code the lookup table does not
know is answered by `PlaceOrder` with HTTP 500 and one InternalServerError
error, never with BadRequest. -/
theorem vendor_code_classified_witness :
    (PlaceOrder sampleGatewayEnv.toEnv sampleVendor unknownCodeUnmarshal
      (some { OrderType := "MKT" })).aborted = true ∧
    (PlaceOrder sampleGatewayEnv.toEnv sampleVendor unknownCodeUnmarshal
      (some { OrderType := "MKT" })).written =
      some (500, { Status := false, Data := none,
                   Errors := [{ kind := "InternalServerError", detail := "" }] }) :=
  (vendor_code_classified sampleGatewayEnv sampleStrings sampleVendor sampleVendor
    sampleVendor sampleVendor sampleVendor sampleVendor unknownCodeUnmarshal
    (fun _ => none) (fun _ => none) (fun _ => none)
    { OrderType := "MKT" } {} {} {} {}).2.1
    { Status := "failure", ErrCode := "RS-9999", Message := "rejected" }
    (by decide) (by decide) (by decide) rfl (by decide)

/-- C17: the envelope status alone decides success.  For a request that passes
validation, `PlaceOrder` answers with status true only when the vendor call has
no transport error, HTTP status 200, a decodable body and an envelope status
equal to the success token; it then answers HTTP 200 with the data of the
vendor and an empty error list, without aborting and whatever the error code of
the envelope is; in every other case the answer is not a success. -/
theorem place_order_success_iff {D : Type} (env : Env)
    (InvokeHttp : VendorCall RupeeseedNormalOrderRequest → VendorReply)
    (Unmarshal : String → Option (RupeeseedNormalOrderResponse D))
    (request : PlaceOrderRequest) (hv : normalOrderValidation request = none) :
    ((∃ d, (PlaceOrder env InvokeHttp Unmarshal (some request)).written =
        some (200, { Status := true, Data := d, Errors := [] })) ↔
      ((InvokeHttp (placeOrderCall env request)).err = none ∧
       (InvokeHttp (placeOrderCall env request)).status = 200 ∧
       ∃ obj, Unmarshal (InvokeHttp (placeOrderCall env request)).body = some obj ∧
         obj.Status = Success)) ∧
    (∀ obj, (InvokeHttp (placeOrderCall env request)).err = none →
      (InvokeHttp (placeOrderCall env request)).status = 200 →
      Unmarshal (InvokeHttp (placeOrderCall env request)).body = some obj →
      obj.Status = Success →
      (PlaceOrder env InvokeHttp Unmarshal (some request)).written =
        some (200, { Status := true, Data := obj.Data, Errors := [] }) ∧
      (PlaceOrder env InvokeHttp Unmarshal (some request)).aborted = false) ∧
    (∀ code resp, (PlaceOrder env InvokeHttp Unmarshal (some request)).written =
        some (code, resp) → resp.Status = true →
      ((InvokeHttp (placeOrderCall env request)).err = none ∧
       (InvokeHttp (placeOrderCall env request)).status = 200 ∧
       ∃ obj, Unmarshal (InvokeHttp (placeOrderCall env request)).body = some obj ∧
         obj.Status = Success)) := by
  have ok : ∀ obj, (InvokeHttp (placeOrderCall env request)).err = none →
      (InvokeHttp (placeOrderCall env request)).status = 200 →
      Unmarshal (InvokeHttp (placeOrderCall env request)).body = some obj →
      obj.Status = Success →
      (PlaceOrder env InvokeHttp Unmarshal (some request)).written =
        some (200, { Status := true, Data := obj.Data, Errors := [] }) ∧
      (PlaceOrder env InvokeHttp Unmarshal (some request)).aborted = false := by
    intro obj he hst hu hs
    simp only [placeOrderCall] at he hst hu
    simp [PlaceOrder, hv, he, hst, hu, hs, Id.run, GinContext.JSON, GinContext.Abort,
      GinContext.invoked, StatusOK]
  have key : ∀ code resp, (PlaceOrder env InvokeHttp Unmarshal (some request)).written =
        some (code, resp) → resp.Status = true →
      ((InvokeHttp (placeOrderCall env request)).err = none ∧
       (InvokeHttp (placeOrderCall env request)).status = 200 ∧
       ∃ obj, Unmarshal (InvokeHttp (placeOrderCall env request)).body = some obj ∧
         obj.Status = Success) := by
    intro code resp hw hst
    simp only [placeOrderCall]
    by_cases he : (InvokeHttp ⟨MethodPost, env.EndPoint ++ env.OrderApi,
        getRupeeseedOrderRequestBody env request, env.rupeeseedHeaders,
        env.ApiTimeout⟩).err = none
    · by_cases h2 : (InvokeHttp ⟨MethodPost, env.EndPoint ++ env.OrderApi,
          getRupeeseedOrderRequestBody env request, env.rupeeseedHeaders,
          env.ApiTimeout⟩).status = 200
      · cases hu : Unmarshal (InvokeHttp ⟨MethodPost, env.EndPoint ++ env.OrderApi,
            getRupeeseedOrderRequestBody env request, env.rupeeseedHeaders,
            env.ApiTimeout⟩).body with
        | none =>
          exfalso
          simp [PlaceOrder, hv, he, h2, hu, Id.run, GinContext.JSON, GinContext.Abort,
            GinContext.invoked, StatusOK] at hw
          rw [← hw.2] at hst
          simp at hst
        | some obj =>
          by_cases hs : obj.Status = Success
          · exact ⟨he, h2, obj, rfl, hs⟩
          · exfalso
            simp only [PlaceOrder, hv, he, h2, hu, hs, Id.run, GinContext.JSON,
              GinContext.Abort, GinContext.invoked, StatusOK] at hw
            split_ifs at hw <;> simp at hw <;> (rw [← hw.2] at hst; simp at hst)
      · exfalso
        simp [PlaceOrder, hv, he, h2, Id.run, GinContext.JSON, GinContext.Abort,
          GinContext.invoked, StatusOK] at hw
        rw [← hw.2] at hst
        simp at hst
    · exfalso
      simp [PlaceOrder, hv, he, Id.run, GinContext.JSON, GinContext.Abort,
        GinContext.invoked] at hw
      rw [← hw.2] at hst
      simp at hst
  refine ⟨⟨?_, ?_⟩, ok, key⟩
  · rintro ⟨d, hd⟩
    exact key _ _ hd rfl
  · rintro ⟨he, hst, obj, hu, hs⟩
    exact ⟨obj.Data, (ok obj he hst hu hs).1⟩

/-- Witness of C17: the MKT order of the test case `Orderplaced`, whose success
envelope carries the error code `RS-0022`, is answered with HTTP 200, status
true, the data of the vendor and no error. -/
theorem place_order_success_iff_witness :
    (PlaceOrder sampleEnv sampleVendor orderPlacedUnmarshal
      (some { TxnType := "B", Exchange := "NSE", Segment := "E", Product := "C",
              ExchangeToken := 1594, Quantity := 1, Validity := "DAY",
              OrderType := "MKT" })).written =
      some (200, { Status := true, Data := some "112211242008", Errors := [] }) ∧
    (PlaceOrder sampleEnv sampleVendor orderPlacedUnmarshal
      (some { TxnType := "B", Exchange := "NSE", Segment := "E", Product := "C",
              ExchangeToken := 1594, Quantity := 1, Validity := "DAY",
              OrderType := "MKT" })).aborted = false :=
  (place_order_success_iff sampleEnv sampleVendor orderPlacedUnmarshal
    { TxnType := "B", Exchange := "NSE", Segment := "E", Product := "C",
      ExchangeToken := 1594, Quantity := 1, Validity := "DAY", OrderType := "MKT" }
    (by decide)).2.1
    { Status := "success", ErrCode := "RS-0022",
      Message := "Order submitted successfully. Your Order Ref No. 112211242008",
      Data := some "112211242008" }
    (by decide) (by decide) rfl (by decide)

/-- C18: the status and section mapping of `OrderBook` is the table of the seven
vendor statuses: Transit, Pending and Modified give Pending in section Open;
Part-traded gives Partially Executed in section Open; Traded gives Executed in
section Executed; Rejected gives Rejected in section Executed; Cancelled gives
Cancelled in section Executed. -/
theorem status_mapping_table (r : RupeeseedOrderBook) :
    (r.Status = "Transit" ∨ r.Status = "Pending" ∨ r.Status = "Modified" →
      (toOrderBookRow r).Status = "Pending" ∧ (toOrderBookRow r).Section = "Open") ∧
    (r.Status = "Part-traded" →
      (toOrderBookRow r).Status = "Partially Executed" ∧
      (toOrderBookRow r).Section = "Open") ∧
    (r.Status = "Traded" →
      (toOrderBookRow r).Status = "Executed" ∧ (toOrderBookRow r).Section = "Executed") ∧
    (r.Status = "Rejected" →
      (toOrderBookRow r).Status = "Rejected" ∧ (toOrderBookRow r).Section = "Executed") ∧
    (r.Status = "Cancelled" →
      (toOrderBookRow r).Status = "Cancelled" ∧ (toOrderBookRow r).Section = "Executed") ∧
    (Transit = "Transit" ∧ Pending = "Pending" ∧ Modified = "Modified" ∧
      PartTraded = "Part-traded" ∧ Traded = "Traded" ∧ Rejected = "Rejected" ∧
      Cancelled = "Cancelled" ∧ PartExecuted = "Partially Executed" ∧
      Executed = "Executed" ∧ Open = "Open") := by
  refine ⟨?_, ?_, ?_, ?_, ?_, by decide⟩
  · rintro (h | h | h) <;>
      simp [toOrderBookRow, Id.run, h, Traded, Rejected, Cancelled, Transit, Pending,
        Modified, PartTraded, Executed, PartExecuted, Open]
  · intro h
    simp [toOrderBookRow, Id.run, h, Traded, Rejected, Cancelled, Transit, Pending,
      Modified, PartTraded, Executed, PartExecuted, Open]
  · intro h
    simp [toOrderBookRow, Id.run, h, Traded, Rejected, Cancelled, Transit, Pending,
      Modified, PartTraded, Executed, PartExecuted, Open]
  · intro h
    simp [toOrderBookRow, Id.run, h, Traded, Rejected, Cancelled, Transit, Pending,
      Modified, PartTraded, Executed, PartExecuted, Open]
  · intro h
    simp [toOrderBookRow, Id.run, h, Traded, Rejected, Cancelled, Transit, Pending,
      Modified, PartTraded, Executed, PartExecuted, Open]

/-- Witness of C18: a vendor row with status `Part-traded` is shown as
Partially Executed in section Open. -/
theorem status_mapping_table_witness :
    (toOrderBookRow { Status := "Part-traded", SecurityID := "1594", Exchange := "NSE" }).Status =
      "Partially Executed" ∧
    (toOrderBookRow { Status := "Part-traded", SecurityID := "1594", Exchange := "NSE" }).Section =
      "Open" :=
  (status_mapping_table
    { Status := "Part-traded", SecurityID := "1594", Exchange := "NSE" }).2.1 rfl

/-- C19 (counterexample): for the vendor status Traded the first application of
the mapping gives the client status Executed in section Executed, and the
mapping applied to a row with that client status gives no section, so mapping
twice differs from mapping once. -/
theorem status_mapping_idempotent_counterexample :
    (toOrderBookRow { Status := "Traded" }).Status = "Executed" ∧
    (toOrderBookRow { Status := "Traded" }).Section = "Executed" ∧
    (toOrderBookRow { Status := (toOrderBookRow { Status := "Traded" }).Status }).Section = "" ∧
    (toOrderBookRow { Status := (toOrderBookRow { Status := "Traded" }).Status }).Section ≠
      (toOrderBookRow { Status := "Traded" }).Section := by
  refine ⟨by decide, by decide, by decide, by decide⟩

/-- C19 (amended): for the vendor statuses Transit, Pending, Modified, Rejected
and Cancelled, the mapping applied to a row whose status is the client status
already assigned returns the same client status and the same section; for
Part-traded and Traded it returns the same client status (Partially Executed,
Executed) and leaves the section empty. -/
theorem status_mapping_twice (r : RupeeseedOrderBook) :
    (r.Status = "Transit" ∨ r.Status = "Pending" ∨ r.Status = "Modified" ∨
      r.Status = "Rejected" ∨ r.Status = "Cancelled" →
      (toOrderBookRow { r with Status := (toOrderBookRow r).Status }).Status =
        (toOrderBookRow r).Status ∧
      (toOrderBookRow { r with Status := (toOrderBookRow r).Status }).Section =
        (toOrderBookRow r).Section) ∧
    (r.Status = "Part-traded" ∨ r.Status = "Traded" →
      (toOrderBookRow { r with Status := (toOrderBookRow r).Status }).Status =
        (toOrderBookRow r).Status ∧
      (toOrderBookRow { r with Status := (toOrderBookRow r).Status }).Section = "") := by
  constructor
  · rintro (h | h | h | h | h) <;>
      simp [toOrderBookRow, Id.run, h, Traded, Rejected, Cancelled, Transit, Pending,
        Modified, PartTraded, Executed, PartExecuted, Open]
  · rintro (h | h) <;>
      simp [toOrderBookRow, Id.run, h, Traded, Rejected, Cancelled, Transit, Pending,
        Modified, PartTraded, Executed, PartExecuted, Open]

/-- Witness of C19 (amended): mapping a Cancelled row twice gives Cancelled in
section Executed both times. -/
theorem status_mapping_twice_witness :
    (toOrderBookRow { Status := (toOrderBookRow { Status := "Cancelled" }).Status }).Status =
      (toOrderBookRow { Status := "Cancelled" }).Status ∧
    (toOrderBookRow { Status := (toOrderBookRow { Status := "Cancelled" }).Status }).Section =
      (toOrderBookRow { Status := "Cancelled" }).Section :=
  (status_mapping_twice { Status := "Cancelled" }).1 (Or.inr (Or.inr (Or.inr (Or.inr rfl))))

/-- Go's `&&` is true exactly when both operands are. -/
theorem boolAnd_eq_true (a b : Bool) : boolAnd a b = true ↔ (a = true ∧ b = true) := by
  cases a <;> cases b <;> simp [boolAnd]

/-- Go's `||` is true exactly when one operand is. -/
theorem boolOr_eq_true (a b : Bool) : boolOr a b = true ↔ (a = true ∨ b = true) := by
  cases a <;> cases b <;> simp [boolOr]

/-- C20: `filterOrder` is the conjunction of the supplied filters.  It returns
true iff every query parameter that is not blank after trimming matches the
row: the search text is, ignoring case, a substring of the symbol or of the
display name; segment and option type are equal ignoring case; the section
matches the status group of the row.  A blank or absent parameter filters
nothing, so with all four blank every row passes. -/
theorem filterOrder_conjunction (lib : GoStrings) (ctx : OrderQuery)
    (order : RupeeseedOrderBook) :
    (filterOrder lib ctx order = true ↔
      ((lib.TrimSpace ctx.SearchTxt ≠ "" →
          (Contains (lib.ToLower order.Symbol) (lib.ToLower (lib.TrimSpace ctx.SearchTxt)) = true ∨
           Contains (lib.ToLower order.DisplayName)
             (lib.ToLower (lib.TrimSpace ctx.SearchTxt)) = true)) ∧
       (lib.TrimSpace ctx.Segment ≠ "" →
          lib.ToLower order.Segment = lib.ToLower (lib.TrimSpace ctx.Segment)) ∧
       (lib.TrimSpace ctx.OptionsType ≠ "" →
          lib.ToLower order.OptType = lib.ToLower (lib.TrimSpace ctx.OptionsType)) ∧
       (lib.TrimSpace ctx.Status ≠ "" → sectionMatches lib ctx.Status order.Status))) ∧
    (lib.TrimSpace ctx.SearchTxt = "" → lib.TrimSpace ctx.Segment = "" →
      lib.TrimSpace ctx.OptionsType = "" → lib.TrimSpace ctx.Status = "" →
      filterOrder lib ctx order = true) := by
  have e1 := lib.toLower_eq_empty (lib.TrimSpace ctx.SearchTxt)
  have e2 := lib.toLower_eq_empty (lib.TrimSpace ctx.Segment)
  have e3 := lib.toLower_eq_empty (lib.TrimSpace ctx.OptionsType)
  have e4 := lib.toLower_eq_empty (lib.TrimSpace ctx.Status)
  constructor
  · unfold filterOrder sectionMatches
    simp only [Id.run, ne_eq, e1, e2, e3, e4]
    by_cases h1 : lib.TrimSpace ctx.SearchTxt = "" <;>
    by_cases h2 : lib.TrimSpace ctx.Segment = "" <;>
    by_cases h3 : lib.TrimSpace ctx.OptionsType = "" <;>
    by_cases h4 : lib.TrimSpace ctx.Status = "" <;>
    simp only [h1, h2, h3, h4, not_true_eq_false, not_false_eq_true, if_true, if_false,
      ite_true, ite_false, true_imp_iff, false_imp_iff, and_true, true_and] <;>
    (try split_ifs) <;>
    simp [boolAnd_eq_true, boolOr_eq_true, and_assoc]
  · intro h1 h2 h3 h4
    have t1 := e1.mpr h1
    have t2 := e2.mpr h2
    have t3 := e3.mpr h3
    have t4 := e4.mpr h4
    unfold filterOrder
    simp only [Id.run, ne_eq, t1, t2, t3, t4, not_true_eq_false, if_false]
    rfl

/-- Witness of C20: with a search text of blanks only and the other parameters
absent, a Traded row passes the filter. -/
theorem filterOrder_conjunction_witness :
    filterOrder sampleStrings { SearchTxt := "  " }
      { Symbol := "TCS", DisplayName := "Tata Consultancy", Status := "Traded" } = true :=
  (filterOrder_conjunction sampleStrings { SearchTxt := "  " }
    { Symbol := "TCS", DisplayName := "Tata Consultancy", Status := "Traded" }).2
    (by decide) (by decide) (by decide) (by decide)

/-- The loop of `OrderBook` appends, in vendor order, the mapped rows that pass
the filter. -/
theorem orderBook_loop (lib : GoStrings) (ctx : OrderQuery) (rows : List RupeeseedOrderBook)
    (acc : List OrderBookRow) :
    rows.foldl
        (fun orderBookList rOrderBook =>
          if filterOrder lib ctx rOrderBook = false then orderBookList
          else orderBookList ++ [toOrderBookRow rOrderBook])
        acc =
      acc ++ (rows.filter (filterOrder lib ctx)).map toOrderBookRow := by
  induction rows generalizing acc with
  | nil => simp
  | cons r rest ih =>
    simp only [List.foldl_cons, List.filter_cons]
    cases h : filterOrder lib ctx r
    · simp [ih]
    · simp [ih]

/-- The loop of `PositionBook` adds `orderPL` of each row to the running total
and appends the copied rows, in vendor order. -/
theorem positionBook_loop (rows : List RupeeSeedPositionBook)
    (acc : Float64 × List OrderPositionBook) :
    rows.foldl
        (fun (acc : Float64 × List OrderPositionBook) rPosition =>
          (acc.1 + orderPL rPosition, acc.2 ++ [positionRow rPosition]))
        acc =
      ((rows.map orderPL).foldl (fun total x => total + x) acc.1,
        acc.2 ++ rows.map positionRow) := by
  induction rows generalizing acc with
  | nil => simp
  | cons r rest ih =>
    simp only [List.foldl_cons, ih, List.map_cons, List.append_assoc, List.singleton_append]

/-- On the success path (reachable vendor, decodable body, success token)
`OrderBook` answers 404 with one NoDataFound error when no row passes the
filter, and otherwise 200 with the mapped rows that pass it. -/
theorem OrderBook_success_path (env : GatewayEnv) (lib : GoStrings)
    (InvokeHttp : VendorCall RupeeseedOrderBookRequest → VendorReply)
    (Unmarshal : String → Option RupeeseedOrderBookResponse) (ctx : OrderQuery)
    (obj : RupeeseedOrderBookResponse)
    (he : (InvokeHttp (orderBookCall env)).err = none)
    (hst : (InvokeHttp (orderBookCall env)).status = 200)
    (hu : Unmarshal (InvokeHttp (orderBookCall env)).body = some obj)
    (hs : obj.Status = Success) :
    (obj.Data.filter (filterOrder lib ctx) = [] →
      (OrderBook env lib InvokeHttp Unmarshal ctx).aborted = true ∧
      (OrderBook env lib InvokeHttp Unmarshal ctx).written =
        some (404, { Status := false, Data := [],
                     Errors := [{ kind := "NoDataFound",
                                  detail := "order not found in OrderBook." }] })) ∧
    (obj.Data.filter (filterOrder lib ctx) ≠ [] →
      (OrderBook env lib InvokeHttp Unmarshal ctx).aborted = false ∧
      (OrderBook env lib InvokeHttp Unmarshal ctx).written =
        some (200, { Status := true,
                     Data := (obj.Data.filter (filterOrder lib ctx)).map toOrderBookRow,
                     Errors := [] })) := by
  simp only [orderBookCall] at he hst hu
  constructor
  · intro hempty
    simp [OrderBook, he, hst, hu, hs, Id.run, GinContext.JSON, GinContext.Abort,
      GinContext.invoked, GetErrorDetails, StatusOK, StatusNotFound, orderBook_loop, hempty]
  · intro hne
    simp [OrderBook, he, hst, hu, hs, Id.run, GinContext.JSON, GinContext.Abort,
      GinContext.invoked, GetErrorDetails, StatusOK, StatusNotFound, orderBook_loop, hne]

/-- Off the success path `OrderBook` answers with status false, an empty list
and an HTTP status other than 200. -/
theorem OrderBook_failure_paths (env : GatewayEnv) (lib : GoStrings)
    (InvokeHttp : VendorCall RupeeseedOrderBookRequest → VendorReply)
    (Unmarshal : String → Option RupeeseedOrderBookResponse) (ctx : OrderQuery)
    (hfail : ¬ ((InvokeHttp (orderBookCall env)).err = none ∧
      (InvokeHttp (orderBookCall env)).status = 200 ∧
      ∃ obj, Unmarshal (InvokeHttp (orderBookCall env)).body = some obj ∧
        obj.Status = Success))
    (code : Int) (resp : OrderBookResponse)
    (hw : (OrderBook env lib InvokeHttp Unmarshal ctx).written = some (code, resp)) :
    resp.Data = [] ∧ resp.Status = false ∧ code ≠ 200 := by
  simp only [orderBookCall] at hfail
  by_cases he : (InvokeHttp ⟨MethodPost, env.EndPoint ++ env.OrderBookApi,
      getOrderBookRupeeseedRequestBody env, env.rupeeseedHeaders, env.ApiTimeout⟩).err = none
  · by_cases h2 : (InvokeHttp ⟨MethodPost, env.EndPoint ++ env.OrderBookApi,
        getOrderBookRupeeseedRequestBody env, env.rupeeseedHeaders,
        env.ApiTimeout⟩).status = 200
    · cases hu : Unmarshal (InvokeHttp ⟨MethodPost, env.EndPoint ++ env.OrderBookApi,
          getOrderBookRupeeseedRequestBody env, env.rupeeseedHeaders,
          env.ApiTimeout⟩).body with
      | none =>
        simp [OrderBook, he, h2, hu, Id.run, GinContext.JSON, GinContext.Abort,
          GinContext.invoked, StatusOK, StatusInternalServerError] at hw
        obtain ⟨hc, hr⟩ := hw
        subst hc hr
        simp
      | some obj =>
        have hs : obj.Status ≠ Success := fun hs => hfail ⟨he, h2, obj, hu, hs⟩
        simp only [OrderBook, he, h2, hu, hs, Id.run, GinContext.JSON, GinContext.Abort,
          GinContext.invoked, StatusOK, StatusBadRequest, StatusInternalServerError] at hw
        split_ifs at hw <;>
          first
          | contradiction
          | (simp at hw
             obtain ⟨hc, hr⟩ := hw
             subst hc hr
             simp)
    · simp [OrderBook, he, h2, Id.run, GinContext.JSON, GinContext.Abort,
        GinContext.invoked, StatusOK] at hw
      obtain ⟨hc, hr⟩ := hw
      subst hc hr
      simpa using h2
  · simp [OrderBook, he, Id.run, GinContext.JSON, GinContext.Abort, GinContext.invoked,
      StatusInternalServerError] at hw
    obtain ⟨hc, hr⟩ := hw
    subst hc hr
    simp

/-- C21: the section filter fails closed.  When the section parameter is not
blank after trimming and is, ignoring case, neither Open nor Executed,
`filterOrder` returns false for every row whatever the other parameters are,
and `OrderBook` returns no row: its answer is never a success and carries an
empty list. -/
theorem section_filter_fail_closed (env : GatewayEnv) (lib : GoStrings)
    (InvokeHttp : VendorCall RupeeseedOrderBookRequest → VendorReply)
    (Unmarshal : String → Option RupeeseedOrderBookResponse) (ctx : OrderQuery)
    (hb : lib.TrimSpace ctx.Status ≠ "")
    (ho : lib.ToLower (lib.TrimSpace ctx.Status) ≠ lib.ToLower Open)
    (he : lib.ToLower (lib.TrimSpace ctx.Status) ≠ lib.ToLower Executed) :
    (∀ order, filterOrder lib ctx order = false) ∧
    (∀ code resp, (OrderBook env lib InvokeHttp Unmarshal ctx).written = some (code, resp) →
      resp.Data = [] ∧ resp.Status = false ∧ code ≠ 200) := by
  have hf : ∀ order, filterOrder lib ctx order = false := by
    intro order
    have hb2 : lib.ToLower (lib.TrimSpace ctx.Status) ≠ "" := fun h =>
      hb ((lib.toLower_eq_empty _).mp h)
    unfold filterOrder
    simp only [Id.run, ne_eq, hb2, ho, he, not_false_eq_true, if_true, if_false]
    repeat' split
    all_goals rfl
  refine ⟨hf, ?_⟩
  intro code resp hw
  by_cases hok : (InvokeHttp (orderBookCall env)).err = none ∧
      (InvokeHttp (orderBookCall env)).status = 200 ∧
      ∃ obj, Unmarshal (InvokeHttp (orderBookCall env)).body = some obj ∧
        obj.Status = Success
  · obtain ⟨h1, h2, obj, hu, hs⟩ := hok
    have hempty : obj.Data.filter (filterOrder lib ctx) = [] := by
      rw [List.filter_eq_nil_iff]
      intro a _
      simp [hf a]
    have h := (OrderBook_success_path env lib InvokeHttp Unmarshal ctx obj h1 h2 hu hs).1 hempty
    rw [h.2] at hw
    simp only [Option.some.injEq, Prod.mk.injEq] at hw
    obtain ⟨hc, hr⟩ := hw
    subst hc hr
    simp
  · exact OrderBook_failure_paths env lib InvokeHttp Unmarshal ctx hok code resp hw

/-- Witness of C21: with the section parameter `closed` a Traded row is
rejected by the filter. -/
theorem section_filter_fail_closed_witness :
    filterOrder sampleStrings { Status := "closed" }
      { Symbol := "TCS", Status := "Traded" } = false :=
  (section_filter_fail_closed sampleGatewayEnv sampleStrings sampleVendor (fun _ => none)
    { Status := "closed" } (by decide) (by decide) (by decide)).1
    { Symbol := "TCS", Status := "Traded" }

/-- On a reachable vendor, a decodable body and the success token,
`fetchPositionBook` hands back the decoded envelope and no error. -/
theorem fetchPositionBook_success (env : GatewayEnv)
    (InvokeResty : VendorCall RupeeseedPositionBookRequest → VendorReply)
    (Unmarshal : String → Option RupeeseedPositionBookResponse)
    (obj : RupeeseedPositionBookResponse)
    (he : (InvokeResty (positionBookCall env)).err = none)
    (hst : (InvokeResty (positionBookCall env)).status = 200)
    (hu : Unmarshal (InvokeResty (positionBookCall env)).body = some obj)
    (hs : obj.Status = Success) :
    fetchPositionBook env InvokeResty Unmarshal = ⟨positionBookCall env, obj, none⟩ := by
  simp only [positionBookCall] at he hst hu ⊢
  simp [fetchPositionBook, he, hst, hu, hs, Id.run, StatusOK]

/-- Off that path `fetchPositionBook` hands back an error. -/
theorem fetchPositionBook_failure (env : GatewayEnv)
    (InvokeResty : VendorCall RupeeseedPositionBookRequest → VendorReply)
    (Unmarshal : String → Option RupeeseedPositionBookResponse)
    (hfail : ¬ ((InvokeResty (positionBookCall env)).err = none ∧
      (InvokeResty (positionBookCall env)).status = 200 ∧
      ∃ obj, Unmarshal (InvokeResty (positionBookCall env)).body = some obj ∧
        obj.Status = Success)) :
    (fetchPositionBook env InvokeResty Unmarshal).err ≠ none := by
  simp only [positionBookCall] at hfail
  by_cases he : (InvokeResty ⟨MethodPost, env.EndPoint ++ env.PositionBookApi,
      getPositionBookRupeeseedRequestBody env, [], 700⟩).err = none
  · by_cases h2 : (InvokeResty ⟨MethodPost, env.EndPoint ++ env.PositionBookApi,
        getPositionBookRupeeseedRequestBody env, [], 700⟩).status = 200
    · cases hu : Unmarshal (InvokeResty ⟨MethodPost, env.EndPoint ++ env.PositionBookApi,
          getPositionBookRupeeseedRequestBody env, [], 700⟩).body with
      | none => simp [fetchPositionBook, he, h2, hu, Id.run, StatusOK]
      | some obj =>
        have hs : obj.Status ≠ Success := fun hs => hfail ⟨he, h2, obj, hu, hs⟩
        simp only [fetchPositionBook, he, h2, hu, hs, Id.run, StatusOK]
        repeat' split
        all_goals simp_all
    · simp [fetchPositionBook, he, h2, Id.run, StatusOK]
  · simp [fetchPositionBook, he, Id.run]

/-- With a fetched position book, `PositionBook` answers 404 with one
NoDataFound error when the book is empty, and otherwise 200 with the copied
rows and the running total of the per-row profit and loss. -/
theorem PositionBook_success_path (env : GatewayEnv)
    (InvokeResty : VendorCall RupeeseedPositionBookRequest → VendorReply)
    (Unmarshal : String → Option RupeeseedPositionBookResponse)
    (obj : RupeeseedPositionBookResponse)
    (he : (InvokeResty (positionBookCall env)).err = none)
    (hst : (InvokeResty (positionBookCall env)).status = 200)
    (hu : Unmarshal (InvokeResty (positionBookCall env)).body = some obj)
    (hs : obj.Status = Success) :
    (obj.Data = [] →
      (PositionBook env InvokeResty Unmarshal).aborted = true ∧
      (PositionBook env InvokeResty Unmarshal).written =
        some (404, { Status := false, Data := {},
                     Errors := [{ kind := "NoDataFound",
                                  detail := "order not found in PositionBook." }] })) ∧
    (obj.Data ≠ [] →
      (PositionBook env InvokeResty Unmarshal).aborted = false ∧
      (PositionBook env InvokeResty Unmarshal).written =
        some (200, { Status := true,
                     Data := { OrderPosition := obj.Data.map positionRow,
                               TotalProfitLoss := floatSum (obj.Data.map orderPL) },
                     Errors := [] })) := by
  have hf := fetchPositionBook_success env InvokeResty Unmarshal obj he hst hu hs
  constructor
  · intro hempty
    simp [PositionBook, hf, Id.run, GinContext.JSON, GinContext.Abort, GinContext.invoked,
      GetErrorDetails, StatusNotFound, positionBook_loop, hempty]
  · intro hne
    simp [PositionBook, hf, Id.run, GinContext.JSON, GinContext.Abort, GinContext.invoked,
      GetErrorDetails, StatusOK, positionBook_loop, hne, floatSum]

/-- Off the success path `PositionBook` answers with status false and no
rows. -/
theorem PositionBook_failure_paths (env : GatewayEnv)
    (InvokeResty : VendorCall RupeeseedPositionBookRequest → VendorReply)
    (Unmarshal : String → Option RupeeseedPositionBookResponse)
    (hfail : ¬ ((InvokeResty (positionBookCall env)).err = none ∧
      (InvokeResty (positionBookCall env)).status = 200 ∧
      ∃ obj, Unmarshal (InvokeResty (positionBookCall env)).body = some obj ∧
        obj.Status = Success))
    (code : Int) (resp : PositionBookResponse)
    (hw : (PositionBook env InvokeResty Unmarshal).written = some (code, resp)) :
    resp.Data.OrderPosition = [] ∧ resp.Status = false := by
  have hf := fetchPositionBook_failure env InvokeResty Unmarshal hfail
  cases herr : (fetchPositionBook env InvokeResty Unmarshal).err with
  | none => exact absurd herr hf
  | some err =>
    simp only [PositionBook, herr, Id.run, GinContext.JSON, GinContext.Abort,
      GinContext.invoked] at hw
    split_ifs at hw <;>
      (simp at hw
       obtain ⟨hc, hr⟩ := hw
       subst hc hr
       simp)

/-- C22: absence is an error.  On the success path of the vendor call,
`OrderBook` answers HTTP 404 with status false and exactly one NoDataFound
error when no row passes the filter, and `PositionBook` does the same when the
position list is empty; so every success answer of either handler carries a
non-empty list, and that of `OrderBook` holds exactly the rows that pass
`filterOrder`, in vendor order. -/
theorem absence_is_an_error (env : GatewayEnv) (lib : GoStrings)
    (InvokeBook : VendorCall RupeeseedOrderBookRequest → VendorReply)
    (InvokePosition : VendorCall RupeeseedPositionBookRequest → VendorReply)
    (UnmarshalOrders : String → Option RupeeseedOrderBookResponse)
    (UnmarshalBook : String → Option RupeeseedPositionBookResponse)
    (ctx : OrderQuery) :
    (∀ obj, (InvokeBook (orderBookCall env)).err = none →
      (InvokeBook (orderBookCall env)).status = 200 →
      UnmarshalOrders (InvokeBook (orderBookCall env)).body = some obj →
      obj.Status = Success →
      obj.Data.filter (filterOrder lib ctx) = [] →
      (OrderBook env lib InvokeBook UnmarshalOrders ctx).aborted = true ∧
      (OrderBook env lib InvokeBook UnmarshalOrders ctx).written =
        some (404, { Status := false, Data := [],
                     Errors := [{ kind := "NoDataFound",
                                  detail := "order not found in OrderBook." }] })) ∧
    (∀ obj, (InvokePosition (positionBookCall env)).err = none →
      (InvokePosition (positionBookCall env)).status = 200 →
      UnmarshalBook (InvokePosition (positionBookCall env)).body = some obj →
      obj.Status = Success →
      obj.Data = [] →
      (PositionBook env InvokePosition UnmarshalBook).aborted = true ∧
      (PositionBook env InvokePosition UnmarshalBook).written =
        some (404, { Status := false, Data := {},
                     Errors := [{ kind := "NoDataFound",
                                  detail := "order not found in PositionBook." }] })) ∧
    (∀ code resp,
      (OrderBook env lib InvokeBook UnmarshalOrders ctx).written = some (code, resp) →
      resp.Status = true →
      resp.Data ≠ [] ∧
      ∃ obj, UnmarshalOrders (InvokeBook (orderBookCall env)).body = some obj ∧
        resp.Data = (obj.Data.filter (filterOrder lib ctx)).map toOrderBookRow) ∧
    (∀ code resp,
      (PositionBook env InvokePosition UnmarshalBook).written = some (code, resp) →
      resp.Status = true →
      resp.Data.OrderPosition ≠ []) := by
  refine ⟨?_, ?_, ?_, ?_⟩
  · intro obj he hst hu hs hempty
    exact (OrderBook_success_path env lib InvokeBook UnmarshalOrders ctx obj he hst hu hs).1
      hempty
  · intro obj he hst hu hs hempty
    exact (PositionBook_success_path env InvokePosition UnmarshalBook obj he hst hu hs).1
      hempty
  · intro code resp hw htrue
    by_cases hok : (InvokeBook (orderBookCall env)).err = none ∧
        (InvokeBook (orderBookCall env)).status = 200 ∧
        ∃ obj, UnmarshalOrders (InvokeBook (orderBookCall env)).body = some obj ∧
          obj.Status = Success
    · obtain ⟨h1, h2, obj, hu, hs⟩ := hok
      have hp := OrderBook_success_path env lib InvokeBook UnmarshalOrders ctx obj h1 h2 hu hs
      by_cases hempty : obj.Data.filter (filterOrder lib ctx) = []
      · have h := (hp.1 hempty).2
        rw [h] at hw
        simp only [Option.some.injEq, Prod.mk.injEq] at hw
        rw [← hw.2] at htrue
        simp at htrue
      · have h := (hp.2 hempty).2
        rw [h] at hw
        simp only [Option.some.injEq, Prod.mk.injEq] at hw
        rw [← hw.2]
        exact ⟨by simpa using hempty, obj, hu, rfl⟩
    · have h := OrderBook_failure_paths env lib InvokeBook UnmarshalOrders ctx hok code resp hw
      rw [h.2.1] at htrue
      simp at htrue
  · intro code resp hw htrue
    by_cases hok : (InvokePosition (positionBookCall env)).err = none ∧
        (InvokePosition (positionBookCall env)).status = 200 ∧
        ∃ obj, UnmarshalBook (InvokePosition (positionBookCall env)).body = some obj ∧
          obj.Status = Success
    · obtain ⟨h1, h2, obj, hu, hs⟩ := hok
      have hp := PositionBook_success_path env InvokePosition UnmarshalBook obj h1 h2 hu hs
      by_cases hempty : obj.Data = []
      · have h := (hp.1 hempty).2
        rw [h] at hw
        simp only [Option.some.injEq, Prod.mk.injEq] at hw
        rw [← hw.2] at htrue
        simp at htrue
      · have h := (hp.2 hempty).2
        rw [h] at hw
        simp only [Option.some.injEq, Prod.mk.injEq] at hw
        rw [← hw.2]
        simpa using hempty
    · have h := PositionBook_failure_paths env InvokePosition UnmarshalBook hok code resp hw
      rw [h.2] at htrue
      simp at htrue

/-- Witness of C22: a vendor position book without rows makes `PositionBook`
answer HTTP 404 with one NoDataFound error. -/
theorem absence_is_an_error_witness :
    (PositionBook sampleGatewayEnv sampleVendor
      (fun _ => some { Status := "success", Data := [] })).aborted = true ∧
    (PositionBook sampleGatewayEnv sampleVendor
      (fun _ => some { Status := "success", Data := [] })).written =
      some (404, { Status := false, Data := {},
                   Errors := [{ kind := "NoDataFound",
                                detail := "order not found in PositionBook." }] }) :=
  (absence_is_an_error sampleGatewayEnv sampleStrings sampleVendor sampleVendor
    (fun _ => none) (fun _ => some { Status := "success", Data := [] }) {}).2.1
    { Status := "success", Data := [] } (by decide) (by decide) rfl (by decide) rfl

/-! ## Floating-point arithmetic: theorems -/

/-- A rational integer is left as it is by the rounding to the nearest
integer. -/
theorem Float64.roundHalfEven_intCast (m : Int) : Float64.roundHalfEven (m : ℚ) = m := by
  simp [Float64.roundHalfEven]

/-- The distance between neighbouring floats is positive. -/
theorem Float64.ulp_pos (q : ℚ) : 0 < Float64.ulp q := by
  unfold Float64.ulp
  positivity

/-- An integer multiple of the distance between neighbouring floats is its own
nearest multiple. -/
theorem Float64.nearest_of_int_multiple (q : ℚ) (m : Int) (h : q / Float64.ulp q = m) :
    Float64.nearest q = q := by
  unfold Float64.nearest
  rw [h, Float64.roundHalfEven_intCast, ← h]
  exact div_mul_cancel₀ q (Float64.ulp_pos q).ne'

/-- A rational below `2 ^ 1024` in absolute value that is its own nearest
multiple is a float. -/
theorem Float64.ofRat_of_nearest (q : ℚ) (h : Float64.nearest q = q) (hlt : |q| < 2 ^ 1024) :
    Float64.ofRat q = Float64.num q := by
  have h1 := abs_lt.mp hlt
  unfold Float64.ofRat
  simp only [h]
  rw [if_neg (not_le.mpr h1.2), if_neg (not_le.mpr h1.1)]
  have : ¬ (q = 0 ∧ q < 0) := by
    rintro ⟨h0, hn⟩
    rw [h0] at hn
    exact lt_irrefl _ hn
  rw [if_neg this]

/-- Every integer of absolute value at most `2 ^ 53` is a float. -/
theorem Float64.ofRat_intCast (n : Int) (h : |n| ≤ 2 ^ 53) :
    Float64.ofRat (n : ℚ) = Float64.num (n : ℚ) := by
  apply Float64.ofRat_of_nearest
  · by_cases h0 : n = 0
    · subst h0
      apply Float64.nearest_of_int_multiple _ 0
      simp
    · have ha : (0 : ℚ) < |(n : ℚ)| := abs_pos.mpr (by exact_mod_cast h0)
      have h1 : (1 : ℚ) ≤ |(n : ℚ)| := by
        have : (1 : Int) ≤ |n| := Int.one_le_abs h0
        exact_mod_cast this
      have hle : |(n : ℚ)| ≤ 2 ^ 53 := by exact_mod_cast h
      have hlo : 0 ≤ Int.log 2 |(n : ℚ)| := by
        rw [← Int.zpow_le_iff_le_log (by norm_num) ha]
        simpa using h1
      have hhi : Int.log 2 |(n : ℚ)| < 54 := by
        rw [← Int.lt_zpow_iff_log_lt (by norm_num) ha]
        calc |(n : ℚ)| ≤ 2 ^ 53 := hle
          _ < ((2 : ℕ) : ℚ) ^ (54 : ℤ) := by norm_num
      have hexp : Float64.exponent (n : ℚ) = Int.log 2 |(n : ℚ)| := by
        unfold Float64.exponent
        omega
      by_cases h53 : Int.log 2 |(n : ℚ)| = 53
      · have hge : (2 : ℚ) ^ 53 ≤ |(n : ℚ)| := by
          have := Int.zpow_log_le_self (b := 2) (r := |(n : ℚ)|) (by norm_num) ha
          rw [h53] at this
          norm_num at this
          exact this
        have habs : |(n : ℚ)| = 2 ^ 53 := le_antisymm hle hge
        have hu : Float64.ulp (n : ℚ) = 2 := by
          unfold Float64.ulp
          rw [hexp, h53]
          norm_num
        rcases abs_eq (by positivity : (0 : ℚ) ≤ 2 ^ 53) |>.mp habs with hn | hn
        · apply Float64.nearest_of_int_multiple _ (2 ^ 52)
          rw [hu, hn]
          norm_num
        · apply Float64.nearest_of_int_multiple _ (-(2 ^ 52))
          rw [hu, hn]
          norm_num
      · obtain ⟨k, hk⟩ : ∃ k : ℕ, (52 : ℤ) - Int.log 2 |(n : ℚ)| = k :=
          ⟨(52 - Int.log 2 |(n : ℚ)|).toNat, by omega⟩
        apply Float64.nearest_of_int_multiple _ (n * 2 ^ k)
        unfold Float64.ulp
        rw [hexp]
        have : Int.log 2 |(n : ℚ)| - 52 = -(k : ℤ) := by omega
        rw [this, zpow_neg, zpow_natCast, div_inv_eq_mul]
        push_cast
        ring
  · have : |(n : ℚ)| ≤ 2 ^ 53 := by exact_mod_cast h
    calc |(n : ℚ)| ≤ 2 ^ 53 := this
      _ < 2 ^ 1024 := by norm_num

/-- A rational that equals an integer of absolute value at most `2 ^ 53` is a
float. -/
theorem Float64.representable_of_int (q : ℚ) (n : Int) (hq : q = n)
    (h : n.natAbs ≤ 9007199254740992) : Float64.representable q := by
  unfold Float64.representable
  rw [hq]
  apply Float64.ofRat_intCast
  rw [Int.abs_eq_natAbs]
  have : ((n.natAbs : ℕ) : Int) ≤ (9007199254740992 : ℕ) := by exact_mod_cast h
  simpa using this

/-- A finite float has its rational value as finite value. -/
theorem Float64.finite?_of_isFinite (x : Float64) (h : x.isFinite) :
    x.finite? = some x.toRat := by
  unfold Float64.isFinite at h
  unfold Float64.toRat
  cases hx : x.finite? with
  | none => exact absurd hx h
  | some a => rfl

/-- The negation of a finite float is exact. -/
theorem Float64.neg_finite (y : Float64) (b : ℚ) (hy : y.finite? = some b) :
    (Float64.neg y).finite? = some (-b) := by
  cases y with
  | num q =>
    simp only [Float64.finite?, Option.some.injEq] at hy
    subst hy
    by_cases h0 : q = 0
    · simp [Float64.neg, Float64.finite?, h0]
    · simp [Float64.neg, Float64.finite?, h0]
  | negZero =>
    simp only [Float64.finite?, Option.some.injEq] at hy
    subst hy
    simp [Float64.neg, Float64.finite?]
  | posInf => simp [Float64.finite?] at hy
  | negInf => simp [Float64.finite?] at hy
  | nan => simp [Float64.finite?] at hy

/-- The sum of two finite floats is exact when the exact sum is a float. -/
theorem Float64.add_finite (x y : Float64) (a b : ℚ) (hx : x.finite? = some a)
    (hy : y.finite? = some b) (hr : Float64.representable (a + b)) :
    (x + y).finite? = some (a + b) := by
  show (Float64.add x y).finite? = some (a + b)
  unfold Float64.representable at hr
  cases x <;> cases y <;> simp only [Float64.finite?, Option.some.injEq] at hx hy <;>
    first
    | contradiction
    | (subst hx hy
       simp [Float64.add, Float64.finite?, hr])

/-- Adding a finite float to a total that is not the negative zero is exact
when the exact sum is a float, and the new total is not the negative zero. -/
theorem Float64.num_add_finite (a b : ℚ) (y : Float64) (hy : y.finite? = some b)
    (hr : Float64.representable (a + b)) : Float64.num a + y = Float64.num (a + b) := by
  show Float64.add (Float64.num a) y = Float64.num (a + b)
  unfold Float64.representable at hr
  cases y <;> simp only [Float64.finite?, Option.some.injEq] at hy <;>
    first
    | contradiction
    | (subst hy
       simp [Float64.add, hr])

/-- The difference of two finite floats is exact when the exact difference is
a float. -/
theorem Float64.sub_finite (x y : Float64) (a b : ℚ) (hx : x.finite? = some a)
    (hy : y.finite? = some b) (hr : Float64.representable (a - b)) :
    (x - y).finite? = some (a - b) := by
  show (x + Float64.neg y).finite? = some (a - b)
  rw [sub_eq_add_neg] at hr ⊢
  exact Float64.add_finite x (Float64.neg y) a (-b) hx (Float64.neg_finite y b hy) hr

/-- The product of two finite floats is exact when the exact product is a
float. -/
theorem Float64.mul_finite (x y : Float64) (a b : ℚ) (hx : x.finite? = some a)
    (hy : y.finite? = some b) (hr : Float64.representable (a * b)) :
    (x * y).finite? = some (a * b) := by
  show (Float64.mul x y).finite? = some (a * b)
  unfold Float64.representable at hr
  have hxn : x ≠ Float64.nan := by
    rintro rfl
    simp [Float64.finite?] at hx
  have hyn : y ≠ Float64.nan := by
    rintro rfl
    simp [Float64.finite?] at hy
  unfold Float64.mul
  simp only [hxn, hyn, or_self, if_false, hx, hy]
  by_cases h0 : a * b = 0
  · rw [if_pos h0, h0]
    split <;> rfl
  · rw [if_neg h0, hr]
    rfl

/-- The conversion of an integer is exact when the integer is a float. -/
theorem Float64.ofInt_finite (n : Int) (hr : Float64.representable (n : ℚ)) :
    (Float64.ofInt n).finite? = some (n : ℚ) := by
  unfold Float64.representable at hr
  unfold Float64.ofInt
  rw [hr]
  rfl

/-- The sum of two finite values other than the negative zero is the rounded
exact sum. -/
theorem Float64.num_add_num (a b : ℚ) :
    Float64.num a + Float64.num b = Float64.ofRat (a + b) :=
  rfl

/-- The difference of two finite values, the second not a zero, is the rounded
exact difference. -/
theorem Float64.num_sub_num (a b : ℚ) (hb : b ≠ 0) :
    Float64.num a - Float64.num b = Float64.ofRat (a - b) := by
  show Float64.add (Float64.num a) (Float64.neg (Float64.num b)) = Float64.ofRat (a - b)
  simp [Float64.neg, hb, Float64.add, sub_eq_add_neg]

/-- The product of two finite values is the rounded exact product when that is
not zero. -/
theorem Float64.num_mul_num (a b : ℚ) (h : a * b ≠ 0) :
    Float64.num a * Float64.num b = Float64.ofRat (a * b) := by
  show Float64.mul (Float64.num a) (Float64.num b) = Float64.ofRat (a * b)
  simp [Float64.mul, Float64.finite?, h]

/-- A rational that equals an integer of absolute value at most `2 ^ 53`
rounds to itself. -/
theorem Float64.ofRat_of_int (q : ℚ) (n : Int) (hq : q = n)
    (h : n.natAbs ≤ 9007199254740992) : Float64.ofRat q = Float64.num q :=
  Float64.representable_of_int q n hq h

/-! ## Position book and conversion: further theorems -/

/-- The profit and loss of a row in the code is the spec's unrealised profit
and loss plus the realised profit. -/
theorem orderPL_eq (rPosition : RupeeSeedPositionBook) :
    orderPL rPosition = unrealizedPL rPosition + rPosition.RealisedProfit := by
  unfold orderPL unrealizedPL
  simp only [Id.run]
  rcases lt_trichotomy rPosition.NetQty 0 with h | h | h
  · have h1 : ¬ rPosition.NetQty > 0 := by omega
    have h2 : ¬ rPosition.NetQty = 0 := by omega
    simp [h, h1, h2]
  · simp [h]
  · have h2 : ¬ rPosition.NetQty = 0 := by omega
    simp [h, h2]

/-- The profit and loss of a row on which no operation rounds has the exact
total of the row as its value. -/
theorem orderPL_finite (rPosition : RupeeSeedPositionBook) (h : roundsNowhere rPosition) :
    (orderPL rPosition).finite? = some (exactOrderPL rPosition) := by
  obtain ⟨hreal, hpl, hnz, hpos, hneg⟩ := h
  have hR := Float64.finite?_of_isFinite _ hreal
  rw [orderPL_eq]
  unfold exactOrderPL at hpl ⊢
  rcases lt_trichotomy rPosition.NetQty 0 with h0 | h0 | h0
  · have h1 : ¬ rPosition.NetQty > 0 := by omega
    have h2 : ¬ rPosition.NetQty = 0 := by omega
    obtain ⟨hs, hl, hd⟩ := hneg h0
    obtain ⟨hn, hu⟩ := hnz h2
    have e : exactUnrealizedPL rPosition =
        (rPosition.NetQty : ℚ) *
          (rPosition.SellAvg.toRat - rPosition.LastTradedPrice.toRat) := by
      simp [exactUnrealizedPL, h1, h2]
    have eu : unrealizedPL rPosition =
        Float64.ofInt rPosition.NetQty * (rPosition.SellAvg - rPosition.LastTradedPrice) := by
      simp [unrealizedPL, h1, h2]
    rw [e] at hu hpl ⊢
    rw [eu]
    exact Float64.add_finite _ _ _ _
      (Float64.mul_finite _ _ _ _ (Float64.ofInt_finite _ hn)
        (Float64.sub_finite _ _ _ _ (Float64.finite?_of_isFinite _ hs)
          (Float64.finite?_of_isFinite _ hl) hd) hu) hR hpl
  · have e : exactUnrealizedPL rPosition = 0 := by simp [exactUnrealizedPL, h0]
    have eu : unrealizedPL rPosition = Float64.num 0 := by simp [unrealizedPL, h0]
    rw [e] at hpl ⊢
    rw [eu]
    exact Float64.add_finite _ _ _ _ rfl hR hpl
  · have h2 : ¬ rPosition.NetQty = 0 := by omega
    obtain ⟨hl, hb, hd⟩ := hpos h0
    obtain ⟨hn, hu⟩ := hnz h2
    have e : exactUnrealizedPL rPosition =
        (rPosition.NetQty : ℚ) *
          (rPosition.LastTradedPrice.toRat - rPosition.BuyAvg.toRat) := by
      simp [exactUnrealizedPL, h0, h2]
    have eu : unrealizedPL rPosition =
        Float64.ofInt rPosition.NetQty * (rPosition.LastTradedPrice - rPosition.BuyAvg) := by
      simp [unrealizedPL, h0, h2]
    rw [e] at hu hpl ⊢
    rw [eu]
    exact Float64.add_finite _ _ _ _
      (Float64.mul_finite _ _ _ _ (Float64.ofInt_finite _ hn)
        (Float64.sub_finite _ _ _ _ (Float64.finite?_of_isFinite _ hl)
          (Float64.finite?_of_isFinite _ hb) hd) hu) hR hpl

/-- The running total of rows on which no operation rounds, started at the
float `a`, is the exact sum when the exact value of every intermediate total
is a float. -/
theorem runningTotal_exact (rows : List RupeeSeedPositionBook) (a : ℚ)
    (hrows : ∀ r ∈ rows, roundsNowhere r)
    (hpre : ∀ k ≤ rows.length,
      Float64.representable (a + ((rows.take k).map exactOrderPL).sum)) :
    (rows.map orderPL).foldl (fun total x => total + x) (Float64.num a) =
      Float64.num (a + (rows.map exactOrderPL).sum) := by
  induction rows generalizing a with
  | nil => simp
  | cons r rest ih =>
    have h1 := hpre 1 (by simp)
    simp only [List.take_succ_cons, List.take_zero, List.map_cons, List.map_nil, List.sum_cons,
      List.sum_nil, add_zero] at h1
    have hstep : Float64.num a + orderPL r = Float64.num (a + exactOrderPL r) :=
      Float64.num_add_finite a (exactOrderPL r) (orderPL r)
        (orderPL_finite r (hrows r (List.mem_cons_self r rest))) h1
    simp only [List.map_cons, List.foldl_cons, hstep, List.sum_cons]
    rw [ih (a + exactOrderPL r) (fun x hx => hrows x (List.mem_cons_of_mem r hx))]
    · rw [add_assoc]
    · intro k hk
      have h := hpre (k + 1) (by simpa using hk)
      simp only [List.take_succ_cons, List.map_cons, List.sum_cons] at h
      rw [add_assoc]
      exact h

/-- The profit and loss of a long row is the product of the converted net
quantity and the price difference, plus the realised profit. -/
theorem orderPL_of_pos (rPosition : RupeeSeedPositionBook) (h : rPosition.NetQty > 0) :
    orderPL rPosition =
      Float64.ofInt rPosition.NetQty * (rPosition.LastTradedPrice - rPosition.BuyAvg) +
        rPosition.RealisedProfit := by
  simp [orderPL, Id.run, h]

/-- The profit and loss of a short row is the product of the converted net
quantity and the price difference, plus the realised profit. -/
theorem orderPL_of_neg (rPosition : RupeeSeedPositionBook) (h : rPosition.NetQty < 0) :
    orderPL rPosition =
      Float64.ofInt rPosition.NetQty * (rPosition.SellAvg - rPosition.LastTradedPrice) +
        rPosition.RealisedProfit := by
  have h1 : ¬ rPosition.NetQty > 0 := by omega
  simp [orderPL, Id.run, h, h1]

/-- The running total of a single value is that value added to zero. -/
theorem floatSum_singleton (x : Float64) : floatSum [x] = Float64.num 0 + x :=
  rfl

/-- The profit and loss of the long position of spec §8 is 200. -/
theorem orderPL_longPosition : orderPL longPosition = Float64.num 200 := by
  have e1 : Float64.ofInt 100 = Float64.num 100 :=
    Float64.ofRat_of_int _ 100 (by norm_num) (by decide)
  have e2 : Float64.num 12 - Float64.num 10 = Float64.num 2 := by
    rw [Float64.num_sub_num _ _ (by norm_num)]
    norm_num
    exact Float64.ofRat_of_int _ 2 (by norm_num) (by decide)
  have e3 : Float64.num 100 * Float64.num 2 = Float64.num 200 := by
    rw [Float64.num_mul_num _ _ (by norm_num)]
    norm_num
    exact Float64.ofRat_of_int _ 200 (by norm_num) (by decide)
  have e4 : Float64.num 200 + Float64.num 0 = Float64.num 200 := by
    rw [Float64.num_add_num]
    norm_num
    exact Float64.ofRat_of_int _ 200 (by norm_num) (by decide)
  have h := orderPL_of_pos longPosition (by decide)
  simp only [longPosition] at h ⊢
  rw [h, e1, e2, e3, e4]

/-- The profit and loss of the short position of spec §8 is -100. -/
theorem orderPL_shortPosition : orderPL shortPosition = Float64.num (-100) := by
  have e1 : Float64.ofInt (-50) = Float64.num (-50) :=
    Float64.ofRat_of_int _ (-50) (by norm_num) (by decide)
  have e2 : Float64.num 20 - Float64.num 18 = Float64.num 2 := by
    rw [Float64.num_sub_num _ _ (by norm_num)]
    norm_num
    exact Float64.ofRat_of_int _ 2 (by norm_num) (by decide)
  have e3 : Float64.num (-50) * Float64.num 2 = Float64.num (-100) := by
    rw [Float64.num_mul_num _ _ (by norm_num)]
    norm_num
    exact Float64.ofRat_of_int _ (-100) (by norm_num) (by decide)
  have e4 : Float64.num (-100) + Float64.num 0 = Float64.num (-100) := by
    rw [Float64.num_add_num]
    norm_num
    exact Float64.ofRat_of_int _ (-100) (by norm_num) (by decide)
  have h := orderPL_of_neg shortPosition (by decide)
  simp only [shortPosition] at h ⊢
  rw [h, e1, e2, e3, e4]

/-- Adding an integer of absolute value at most `2 ^ 53` to the zero total
gives that integer. -/
theorem zero_add_int (q : ℚ) (n : Int) (hq : q = n) (h : n.natAbs ≤ 9007199254740992) :
    Float64.num 0 + Float64.num q = Float64.num q := by
  rw [Float64.num_add_num, zero_add]
  exact Float64.ofRat_of_int q n hq h

/-- No operation rounds on the long position of spec §8, whose exact total is
200. -/
theorem roundsNowhere_longPosition :
    roundsNowhere longPosition ∧ exactOrderPL longPosition = 200 := by
  have hd : longPosition.LastTradedPrice.toRat - longPosition.BuyAvg.toRat = 2 := by
    norm_num [longPosition, Float64.toRat, Float64.finite?]
  have hu : exactUnrealizedPL longPosition = 200 := by
    norm_num [exactUnrealizedPL, longPosition, Float64.toRat, Float64.finite?]
  have ht : exactOrderPL longPosition = 200 := by
    rw [exactOrderPL, hu]
    norm_num [longPosition, Float64.toRat, Float64.finite?]
  have hf : ∀ q : ℚ, (Float64.num q).isFinite := fun q => by
    simp [Float64.isFinite, Float64.finite?]
  refine ⟨⟨hf 0, ?_, fun _ => ⟨?_, ?_⟩, fun _ => ⟨hf 12, hf 10, ?_⟩,
    fun h => absurd h (by decide)⟩, ht⟩
  · exact Float64.representable_of_int _ 200 (by rw [ht]; norm_num) (by decide)
  · exact Float64.representable_of_int _ 100 (by norm_num [longPosition]) (by decide)
  · exact Float64.representable_of_int _ 200 (by rw [hu]; norm_num) (by decide)
  · exact Float64.representable_of_int _ 2 (by rw [hd]; norm_num) (by decide)

/-- C23: on success the total profit and loss of `PositionBook` is the sum,
over all vendor position rows, of the unrealised profit and loss of the row
plus its realised profit, the rows being added in vendor order with the
operations of `float64`; whenever none of these operations rounds, the total is
the exact sum of `netQty * (price difference) + realised profit` over the rows;
and for the single row with net quantity 100, average buy price 10, last traded
price 12 and no realised profit the total is 200. -/
theorem total_profit_loss (env : GatewayEnv)
    (InvokePosition : VendorCall RupeeseedPositionBookRequest → VendorReply)
    (UnmarshalBook : String → Option RupeeseedPositionBookResponse)
    (obj : RupeeseedPositionBookResponse)
    (he : (InvokePosition (positionBookCall env)).err = none)
    (hst : (InvokePosition (positionBookCall env)).status = 200)
    (hu : UnmarshalBook (InvokePosition (positionBookCall env)).body = some obj)
    (hs : obj.Status = Success) (hne : obj.Data ≠ []) :
    (PositionBook env InvokePosition UnmarshalBook).written =
      some (200, { Status := true,
                   Data := { OrderPosition := obj.Data.map positionRow,
                             TotalProfitLoss :=
                               floatSum (obj.Data.map
                                 (fun r => unrealizedPL r + r.RealisedProfit)) },
                   Errors := [] }) ∧
    ((∀ r ∈ obj.Data, roundsNowhere r) →
      (∀ k ≤ obj.Data.length,
        Float64.representable ((obj.Data.take k).map exactOrderPL).sum) →
      floatSum (obj.Data.map (fun r => unrealizedPL r + r.RealisedProfit)) =
        Float64.num (obj.Data.map exactOrderPL).sum) ∧
    floatSum ([longPosition].map (fun r => unrealizedPL r + r.RealisedProfit)) =
      Float64.num 200 := by
  have e : ∀ rows : List RupeeSeedPositionBook,
      rows.map (fun r => unrealizedPL r + r.RealisedProfit) = rows.map orderPL :=
    fun rows => List.map_congr_left (fun r _ => (orderPL_eq r).symm)
  refine ⟨?_, ?_, ?_⟩
  · have h := ((PositionBook_success_path env InvokePosition UnmarshalBook obj he hst hu
      hs).2 hne).2
    rw [h, e]
  · intro hrows hpre
    rw [e]
    have h := runningTotal_exact obj.Data 0 hrows
      (fun k hk => by rw [zero_add]; exact hpre k hk)
    rw [zero_add] at h
    exact h
  · rw [e, List.map_cons, List.map_nil, floatSum_singleton, orderPL_longPosition]
    exact zero_add_int 200 200 (by norm_num) (by decide)

/-- Witness of C23: the position book holding the single long row of net
quantity 100, average buy price 10 and last traded price 12 is answered with
HTTP 200 and the total 200; no operation rounds on that row, so the total is
the exact sum. -/
theorem total_profit_loss_witness :
    (PositionBook sampleGatewayEnv sampleVendor longPositionUnmarshal).written =
      some (200, { Status := true,
                   Data := { OrderPosition := [longPosition].map positionRow,
                             TotalProfitLoss := Float64.num 200 },
                   Errors := [] }) ∧
    floatSum ([longPosition].map (fun r => unrealizedPL r + r.RealisedProfit)) =
      Float64.num ([longPosition].map exactOrderPL).sum := by
  have h := total_profit_loss sampleGatewayEnv sampleVendor longPositionUnmarshal
    { Status := "success", Data := [longPosition] }
    (by decide) (by decide) rfl (by decide) (by simp)
  refine ⟨by rw [h.1, h.2.2], h.2.1 ?_ ?_⟩
  · intro r hr
    rw [List.mem_singleton.mp hr]
    exact roundsNowhere_longPosition.1
  · intro k hk
    have hk1 : k = 0 ∨ k = 1 := by
      simp only [List.length_singleton] at hk
      omega
    rcases hk1 with rfl | rfl
    · exact Float64.representable_of_int _ 0 (by simp) (by decide)
    · exact Float64.representable_of_int _ 200
        (by simp [roundsNowhere_longPosition.2]) (by decide)

/-- C24 (the code at the failing input): for the open short position with net
quantity -50, average sell price 20 and last traded price 18 the code computes
the profit and loss -50 * (20 - 18) = -100, and `PositionBook` reports the
total -100. -/
theorem short_position_profit_negative :
    orderPL { NetQty := -50, SellAvg := Float64.num 20, LastTradedPrice := Float64.num 18,
              RealisedProfit := Float64.num 0 } = Float64.num (-100) ∧
    (PositionBook sampleGatewayEnv sampleVendor shortPositionUnmarshal).written.map
      (fun w => w.2.Data.TotalProfitLoss) = some (Float64.num (-100)) := by
  constructor
  · exact orderPL_shortPosition
  · have h := ((PositionBook_success_path sampleGatewayEnv sampleVendor shortPositionUnmarshal
      { Status := "success", Data := [shortPosition] }
      (by decide) (by decide) rfl (by decide)).2 (by simp)).2
    rw [h]
    simp only [Option.map_some', List.map_cons, List.map_nil, floatSum_singleton,
      orderPL_shortPosition]
    exact congrArg some (zero_add_int (-100) (-100) (by norm_num) (by decide))

/-- The segment of the request plays no part in the eligibility of a row. -/
theorem positionMatches_segment (request : ConvertPositionRequest) (s : String) :
    positionMatches { request with Segment := s } = positionMatches request :=
  rfl

/-- The segment of the request plays no part in the test of the loop. -/
theorem rowConverts_segment (request : ConvertPositionRequest) (s : String) :
    rowConverts { request with Segment := s } = rowConverts request :=
  rfl

/-- An integer from 0 to `2 ^ 63 - 1` is held by Go's 64-bit `int` as it is. -/
theorem wrapInt64_of_range (x : Int) (h0 : 0 ≤ x) (h1 : x < 9223372036854775808) :
    wrapInt64 x = x := by
  unfold wrapInt64
  omega

/-- On a row whose net quantity is above the least value of Go's 64-bit `int`
the test of the loop is the spec's eligibility. -/
theorem rowConverts_eq_positionMatches (request : ConvertPositionRequest)
    (position : RupeeSeedPositionBook) (h : minInt64 < position.NetQty) :
    rowConverts request position = positionMatches request position := by
  unfold minInt64 at h
  unfold rowConverts positionMatches
  by_cases hpos : position.NetQty > 0
  · rw [abs_of_pos hpos]
    simp only [hpos, if_true]
  · have hw : wrapInt64 (position.NetQty * -1) = |position.NetQty| := by
      rw [abs_of_nonpos (by omega)]
      rw [wrapInt64_of_range _ (by omega) (by omega)]
      ring
    simp only [hpos, if_false, hw]

/-- The matcher loop in closed form: on the first row that passes its test it
stops with the segment of that row; without such a row it ends with the segment
`E` when some row has a non-zero net quantity, and with the segment of the
request otherwise. -/
theorem scanPositions_eq (request : ConvertPositionRequest)
    (rows : List RupeeSeedPositionBook) :
    scanPositions request rows =
      match rows.find? (rowConverts request) with
      | some row => ({ request with Segment := row.Segment }, true)
      | none =>
        ({ request with
            Segment := if rows.any (fun r => decide (r.NetQty ≠ 0)) = true then "E"
                       else request.Segment }, false) := by
  induction rows generalizing request with
  | nil => simp [scanPositions]
  | cons position rest ih =>
    by_cases h0 : position.NetQty = 0
    · have hm : rowConverts request position = false := by
        simp [rowConverts, h0]
      rw [scanPositions]
      simp only [h0, if_true, List.find?_cons, hm, List.any_cons, ne_eq, not_true_eq_false,
        decide_False, Bool.false_or]
      exact ih request
    · rw [scanPositions]
      simp only [h0, if_false]
      by_cases hc : (if position.NetQty > 0 then BUY else SELL) = request.PositionType ∧
          position.Exchange = request.Exchange ∧
          position.SecurityID = request.ExchangeToken ∧
          position.Product = request.PositionFrom ∧
          (if position.NetQty > 0 then position.NetQty
            else wrapInt64 (position.NetQty * -1)) ≥ request.Quantity
      · have hm : rowConverts request position = true := by
          unfold rowConverts
          exact decide_eq_true ⟨h0, hc⟩
        simp only [hc, and_self, if_true, List.find?_cons, hm]
      · have hm : rowConverts request position = false := by
          unfold rowConverts
          exact decide_eq_false (fun h => hc h.2)
        simp only [hc, if_false, List.find?_cons, hm, List.any_cons]
        rw [ih, rowConverts_segment]
        simp only [ne_eq, h0, not_false_eq_true, decide_True, Bool.true_or, if_true]
        cases List.find? (rowConverts request) rest <;> simp

/-- In a book whose net quantities are all above the least value of Go's
64-bit `int` the first row that passes the test of the loop is the first
eligible row. -/
theorem find_rowConverts (request : ConvertPositionRequest)
    (rows : List RupeeSeedPositionBook) (hmin : ∀ row ∈ rows, minInt64 < row.NetQty) :
    rows.find? (rowConverts request) = rows.find? (positionMatches request) := by
  induction rows with
  | nil => rfl
  | cons r rest ih =>
    rw [List.find?_cons, List.find?_cons,
      rowConverts_eq_positionMatches request r (hmin r (List.mem_cons_self r rest)),
      ih (fun x hx => hmin x (List.mem_cons_of_mem r hx))]

/-- C25 (counterexample): the short position whose net quantity is the least
value of Go's 64-bit `int` is eligible for the request SELL, NSE, 1594, from C,
quantity 50 (its absolute net quantity exceeds 50), yet the matcher finds no
match and leaves the segment `E`: the product `qty * -1` wraps around to the
same negative value. -/
theorem matcher_first_match_counterexample :
    positionMatches { sampleConversion with PositionType := SELL } leastPosition = true ∧
    scanPositions { sampleConversion with PositionType := SELL } [leastPosition] =
      ({ sampleConversion with PositionType := SELL, Segment := "E" }, false) := by
  refine ⟨by decide, by decide⟩

/-- C25 (amended): in a position book whose net quantities are all above the
least value of the integer type, the conversion matcher finds a match iff some
position row is eligible (net quantity not zero, side derived from its sign
equal to the requested side, exchange, token and product equal to those of the
request, absolute net quantity at least the requested quantity), and it then
writes into the request the segment of the first eligible row in vendor order;
a row whose net quantity is that least value is not matched by a request for a
larger quantity.  For the positions of spec §8 and the request BUY, NSE, 1594,
from C, quantity 50, the second row matches and its segment is copied. -/
theorem matcher_first_match (request : ConvertPositionRequest)
    (rows : List RupeeSeedPositionBook) (hmin : ∀ row ∈ rows, minInt64 < row.NetQty) :
    ((scanPositions request rows).2 = true ↔
      ∃ row ∈ rows, positionMatches request row = true) ∧
    (∀ row, rows.find? (positionMatches request) = some row →
      scanPositions request rows = ({ request with Segment := row.Segment }, true)) ∧
    (∀ least : RupeeSeedPositionBook, least.NetQty = minInt64 →
      minInt64 < request.Quantity →
      scanPositions request [least] = ({ request with Segment := "E" }, false)) ∧
    scanPositions sampleConversion examplePositions =
      ({ sampleConversion with Segment := "D" }, true) := by
  refine ⟨?_, ?_, ?_, by decide⟩
  · rw [scanPositions_eq, find_rowConverts request rows hmin]
    constructor
    · intro h
      cases hf : rows.find? (positionMatches request) with
      | none => rw [hf] at h; simp at h
      | some row =>
        exact ⟨row, List.mem_of_find?_eq_some hf, List.find?_some hf⟩
    · rintro ⟨row, hmem, hm⟩
      cases hf : rows.find? (positionMatches request) with
      | none =>
        rw [List.find?_eq_none] at hf
        exact absurd hm (hf row hmem)
      | some row2 => rfl
  · intro row hf
    rw [scanPositions_eq, find_rowConverts request rows hmin, hf]
  · intro least hl hq
    have hm : rowConverts request least = false := by
      unfold rowConverts
      apply decide_eq_false
      rintro ⟨_, _, _, _, _, hge⟩
      rw [hl] at hge
      unfold minInt64 wrapInt64 at hge
      unfold minInt64 at hq
      norm_num at hge
      omega
    have hne : least.NetQty ≠ 0 := by
      rw [hl]
      decide
    rw [scanPositions_eq]
    simp [hm, hne]

/-- Witness of C25 (amended): in the position book of spec §8 the first
eligible row is the second one, so the matcher stops there with its segment. -/
theorem matcher_first_match_witness :
    scanPositions sampleConversion examplePositions =
      ({ sampleConversion with Segment := "D" }, true) :=
  (matcher_first_match sampleConversion examplePositions (by decide)).2.1
    { NetQty := 100, Exchange := "NSE", SecurityID := "1594", Product := "C", Segment := "D" }
    (by decide)

/-- C26 (counterexample): scanning an empty position book, or one whose only
row has net quantity zero, finds no match and leaves the segment `D` that the
request carried, which is not the equity code `E`. -/
theorem no_match_segment_counterexample :
    (scanPositions { sampleConversion with Segment := "D" } []).2 = false ∧
    (scanPositions { sampleConversion with Segment := "D" } []).1.Segment = "D" ∧
    (scanPositions { sampleConversion with Segment := "D" } [{ NetQty := 0 }]).2 = false ∧
    (scanPositions { sampleConversion with Segment := "D" } [{ NetQty := 0 }]).1.Segment = "D" ∧
    (scanPositions { sampleConversion with Segment := "D" } []).1.Segment ≠ "E" := by
  refine ⟨by decide, by decide, by decide, by decide, by decide⟩

/-- C26 (amended): when the matcher exhausts the position book without a match,
the segment of the request is the equity code `E` if some row of the book has a
non-zero net quantity, and is the segment the request carried before otherwise
(an empty book, or a book whose rows all have net quantity zero). -/
theorem no_match_segment (request : ConvertPositionRequest)
    (rows : List RupeeSeedPositionBook) (h : (scanPositions request rows).2 = false) :
    ((∃ row ∈ rows, row.NetQty ≠ 0) → (scanPositions request rows).1.Segment = "E") ∧
    ((∀ row ∈ rows, row.NetQty = 0) →
      (scanPositions request rows).1.Segment = request.Segment) := by
  rw [scanPositions_eq] at h ⊢
  cases hf : rows.find? (rowConverts request) with
  | some row => rw [hf] at h; simp at h
  | none =>
    constructor
    · rintro ⟨row, hmem, hne⟩
      have hany : rows.any (fun r => decide (r.NetQty ≠ 0)) = true := by
        rw [List.any_eq_true]
        exact ⟨row, hmem, by simpa using hne⟩
      show (if rows.any (fun r => decide (r.NetQty ≠ 0)) = true then "E"
        else request.Segment) = "E"
      rw [if_pos hany]
    · intro hall
      have hany : ¬ rows.any (fun r => decide (r.NetQty ≠ 0)) = true := by
        rw [List.any_eq_true]
        rintro ⟨row, hmem, hne⟩
        simp [hall row hmem] at hne
      show (if rows.any (fun r => decide (r.NetQty ≠ 0)) = true then "E"
        else request.Segment) = request.Segment
      rw [if_neg hany]

/-- Witness of C26 (amended): a book with one open row that does not match (a
short position against a BUY request) ends the scan with the segment `E`. -/
theorem no_match_segment_witness :
    (scanPositions { sampleConversion with Segment := "D" }
      [{ NetQty := -100, Exchange := "NSE", SecurityID := "1594", Product := "C",
         Segment := "D" }]).1.Segment = "E" :=
  (no_match_segment { sampleConversion with Segment := "D" }
    [{ NetQty := -100, Exchange := "NSE", SecurityID := "1594", Product := "C",
       Segment := "D" }] (by decide)).1
    ⟨_, List.mem_singleton.mpr rfl, by decide⟩

/-- C27 (counterexample): a conversion request for 500 against the sample book,
whose only open row holds 100, matches no row, and `ConvertPosition` answers
HTTP 400 with one error whose kind is NoDataFound, not BadRequest. -/
theorem no_match_error_counterexample :
    (ConvertPosition sampleGatewayEnv sampleVendor sampleBookUnmarshal (fun _ => none) "TEST2"
      (some { sampleConversion with Quantity := 500 })).written =
      some (400, { Status := false, Data := "",
                   Errors := [{ kind := "NoDataFound",
                                detail := "no matching open positions available to convert" }] }) ∧
    (ConvertPosition sampleGatewayEnv sampleVendor sampleBookUnmarshal (fun _ => none) "TEST2"
      (some { sampleConversion with Quantity := 500 })).written.map
        (fun w => w.2.Errors.map ErrorDetail.kind) ≠ some ["BadRequest"] := by
  refine ⟨by decide, by decide⟩

/-- C27 (amended): when the position book is fetched and no row matches the
conversion request, `ConvertPosition` aborts and answers HTTP 400 with exactly
one NoDataFound error whose detail says that no matching open position is
available; the conversion submission is not issued, so the position-book fetch
is the only vendor call. -/
theorem no_match_error (env : GatewayEnv)
    (InvokeResty : VendorCall ConvertPayload → VendorReply)
    (UnmarshalBook : String → Option RupeeseedPositionBookResponse)
    (UnmarshalConvert : String → Option RuppeeseedConvertPositionResponse)
    (userId : String) (convert : ConvertPositionRequest)
    (book : RupeeseedPositionBookResponse)
    (hf : fetchPositionBook env
        (fun call => InvokeResty (call.mapBody ConvertPayload.positionBook)) UnmarshalBook =
      ⟨positionBookCall env, book, none⟩)
    (hs : (scanPositions { convert with UserID := userId } book.Data).2 = false) :
    (ConvertPosition env InvokeResty UnmarshalBook UnmarshalConvert userId
      (some convert)).aborted = true ∧
    (ConvertPosition env InvokeResty UnmarshalBook UnmarshalConvert userId
      (some convert)).written =
      some (400, { Status := false, Data := "",
                   Errors := [{ kind := "NoDataFound",
                                detail := "no matching open positions available to convert" }] }) ∧
    (ConvertPosition env InvokeResty UnmarshalBook UnmarshalConvert userId
      (some convert)).calls =
      [(positionBookCall env).mapBody ConvertPayload.positionBook] := by
  simp [ConvertPosition, hf, hs, Id.run, GinContext.JSON, GinContext.Abort,
    GinContext.invoked, GetErrorDetails, StatusBadRequest]

/-- Witness of C27 (amended): the request for 500 against the sample book makes
exactly one vendor call, the position-book fetch. -/
theorem no_match_error_witness :
    (ConvertPosition sampleGatewayEnv sampleVendor sampleBookUnmarshal (fun _ => none) "TEST2"
      (some { sampleConversion with Quantity := 500 })).calls =
      [(positionBookCall sampleGatewayEnv).mapBody ConvertPayload.positionBook] :=
  (no_match_error sampleGatewayEnv sampleVendor sampleBookUnmarshal (fun _ => none) "TEST2"
    { sampleConversion with Quantity := 500 }
    { Status := "success", Data := samplePositions } rfl (by decide)).2.2

/-- C28: when the position book is fetched, a row matches, and the conversion
submission is reachable (no transport error, HTTP 200, decodable body) with a
status other than the success token, `ConvertPosition` answers HTTP 200 with
status false, the message of the vendor as data and no error if the vendor code
is `RS-0022`, and aborts with HTTP 500 and exactly one error for any other
vendor code. -/
theorem conversion_declined (env : GatewayEnv)
    (InvokeResty : VendorCall ConvertPayload → VendorReply)
    (UnmarshalBook : String → Option RupeeseedPositionBookResponse)
    (UnmarshalConvert : String → Option RuppeeseedConvertPositionResponse)
    (userId : String) (convert scanned : ConvertPositionRequest)
    (book : RupeeseedPositionBookResponse) (obj1 : RuppeeseedConvertPositionResponse)
    (hf : fetchPositionBook env
        (fun call => InvokeResty (call.mapBody ConvertPayload.positionBook)) UnmarshalBook =
      ⟨positionBookCall env, book, none⟩)
    (hs : scanPositions { convert with UserID := userId } book.Data = (scanned, true))
    (he : (InvokeResty ((convertCall env
        (getRupeeseedConvertPositionRequestBody env scanned)).mapBody
          ConvertPayload.convert)).err = none)
    (hst : (InvokeResty ((convertCall env
        (getRupeeseedConvertPositionRequestBody env scanned)).mapBody
          ConvertPayload.convert)).status = 200)
    (hu : UnmarshalConvert (InvokeResty ((convertCall env
        (getRupeeseedConvertPositionRequestBody env scanned)).mapBody
          ConvertPayload.convert)).body = some obj1)
    (hns : obj1.Status ≠ Success) :
    (obj1.ErrorCode = "RS-0022" →
      (ConvertPosition env InvokeResty UnmarshalBook UnmarshalConvert userId
        (some convert)).written =
        some (200, { Status := false, Data := obj1.Message, Errors := [] }) ∧
      (ConvertPosition env InvokeResty UnmarshalBook UnmarshalConvert userId
        (some convert)).aborted = false) ∧
    (obj1.ErrorCode ≠ "RS-0022" →
      (ConvertPosition env InvokeResty UnmarshalBook UnmarshalConvert userId
        (some convert)).written =
        some (500, { Status := false, Data := "",
                     Errors := [{ kind := "VendorApiFailure",
                                  detail := ":" ++ obj1.Message }] }) ∧
      (ConvertPosition env InvokeResty UnmarshalBook UnmarshalConvert userId
        (some convert)).aborted = true) := by
  simp only [convertCall, VendorCall.mapBody] at he hst hu
  constructor
  · intro hc
    have hcv : convertPosition env
        (fun call => InvokeResty (call.mapBody ConvertPayload.convert)) UnmarshalConvert
        (getRupeeseedConvertPositionRequestBody env scanned) =
        ⟨convertCall env (getRupeeseedConvertPositionRequestBody env scanned), obj1,
          some { kind := "VendorOMSError", detail := "" }⟩ := by
      simp [convertPosition, convertCall, VendorCall.mapBody, he, hst, hu, hns, hc, Id.run,
        GetErrorDetails, StatusOK]
    simp [ConvertPosition, hf, hs, hcv, Id.run, GinContext.JSON, GinContext.Abort,
      GinContext.invoked, VendorOMSError, StatusOK]
  · intro hc
    have hcv : convertPosition env
        (fun call => InvokeResty (call.mapBody ConvertPayload.convert)) UnmarshalConvert
        (getRupeeseedConvertPositionRequestBody env scanned) =
        ⟨convertCall env (getRupeeseedConvertPositionRequestBody env scanned), obj1,
          some { kind := "VendorApiFailure", detail := ":" ++ obj1.Message }⟩ := by
      simp [convertPosition, convertCall, VendorCall.mapBody, he, hst, hu, hns, hc, Id.run,
        GetErrorDetails, StatusOK]
    simp [ConvertPosition, hf, hs, hcv, Id.run, GinContext.JSON, GinContext.Abort,
      GinContext.invoked, VendorOMSError, StatusInternalServerError]

/-- Witness of C28: the sample conversion, declined by the vendor with the code
`RS-0022`, is answered with HTTP 200, status false and the message of the
vendor. -/
theorem conversion_declined_witness :
    (ConvertPosition sampleGatewayEnv sampleVendor sampleBookUnmarshal omsDeclinedUnmarshal
      "TEST2" (some sampleConversion)).written =
      some (200, { Status := false, Data := "conversion declined", Errors := [] }) ∧
    (ConvertPosition sampleGatewayEnv sampleVendor sampleBookUnmarshal omsDeclinedUnmarshal
      "TEST2" (some sampleConversion)).aborted = false :=
  (conversion_declined sampleGatewayEnv sampleVendor sampleBookUnmarshal omsDeclinedUnmarshal
    "TEST2" sampleConversion { sampleConversion with UserID := "TEST2", Segment := "E" }
    { Status := "success", Data := samplePositions }
    { Status := "failure", ErrorCode := "RS-0022", Message := "conversion declined" }
    rfl (by decide) (by decide) (by decide) rfl (by decide)).1 rfl

/-- A row that passes `filterOrder` under a non-blank section parameter has a
vendor status in the status group of that section. -/
theorem filterOrder_section (lib : GoStrings) (ctx : OrderQuery) (order : RupeeseedOrderBook)
    (hpass : filterOrder lib ctx order = true) (hb : lib.TrimSpace ctx.Status ≠ "") :
    sectionMatches lib ctx.Status order.Status := by
  have e1 := lib.toLower_eq_empty (lib.TrimSpace ctx.SearchTxt)
  have e2 := lib.toLower_eq_empty (lib.TrimSpace ctx.Segment)
  have e3 := lib.toLower_eq_empty (lib.TrimSpace ctx.OptionsType)
  have e4 := lib.toLower_eq_empty (lib.TrimSpace ctx.Status)
  revert hpass
  unfold filterOrder sectionMatches
  simp only [Id.run, ne_eq, e1, e2, e3, e4]
  by_cases h1 : lib.TrimSpace ctx.SearchTxt = "" <;>
  by_cases h2 : lib.TrimSpace ctx.Segment = "" <;>
  by_cases h3 : lib.TrimSpace ctx.OptionsType = "" <;>
  simp only [h1, h2, h3, hb, not_true_eq_false, not_false_eq_true, if_true, if_false,
    ite_true, ite_false] <;>
  (try split_ifs) <;>
  simp [boolAnd_eq_true, boolOr_eq_true, and_assoc]

/-- C29 (counterexample): a vendor row whose status is `TRADED`, which differs
from Traded in letter case only, passes the filter of section Executed, and the
mapping assigns it no section. -/
theorem filter_section_agree_counterexample :
    filterOrder sampleStrings { Status := "Executed" } { Status := "TRADED" } = true ∧
    (toOrderBookRow { Status := "TRADED" }).Section = "" ∧
    (toOrderBookRow { Status := "TRADED" }).Section ≠ Executed := by
  refine ⟨by decide, by decide, by decide⟩

/-- C29 (amended): for a vendor row whose status is exactly one of the seven
known vendor statuses, the section filter and the assigned section agree: if
the section filter is Open and the row passes `filterOrder`, its section is
Open and its status Pending or Partially Executed; if the section filter is
Executed and the row passes, its section is Executed.  Lower-casing is assumed
to keep the seven statuses apart and to keep Open apart from Executed. -/
theorem filter_section_agree (lib : GoStrings) (ctx : OrderQuery)
    (order : RupeeseedOrderBook)
    (hinj : ∀ a ∈ knownStatuses, ∀ b ∈ knownStatuses, lib.ToLower a = lib.ToLower b → a = b)
    (hoe : lib.ToLower Open ≠ lib.ToLower Executed)
    (hk : order.Status ∈ knownStatuses)
    (hpass : filterOrder lib ctx order = true) :
    (lib.ToLower (lib.TrimSpace ctx.Status) = lib.ToLower Open →
      (toOrderBookRow order).Section = Open ∧
      ((toOrderBookRow order).Status = Pending ∨
        (toOrderBookRow order).Status = PartExecuted)) ∧
    (lib.ToLower (lib.TrimSpace ctx.Status) = lib.ToLower Executed →
      (toOrderBookRow order).Section = Executed) := by
  constructor
  · intro hO
    have hb : lib.TrimSpace ctx.Status ≠ "" := by
      intro h
      have h2 := (lib.toLower_eq_empty _).mpr h
      rw [hO] at h2
      have h3 := (lib.toLower_eq_empty _).mp h2
      exact absurd h3 (by decide)
    have hm := filterOrder_section lib ctx order hpass hb
    unfold sectionMatches at hm
    rw [if_pos hO] at hm
    simp only [List.map_cons, List.map_nil, List.mem_cons, List.mem_singleton,
      List.not_mem_nil, or_false] at hm
    have hst : order.Status = Transit ∨ order.Status = Pending ∨ order.Status = Modified ∨
        order.Status = PartTraded := by
      rcases hm with h | h | h | h
      · exact Or.inl (hinj _ hk _ (by decide) h)
      · exact Or.inr (Or.inl (hinj _ hk _ (by decide) h))
      · exact Or.inr (Or.inr (Or.inl (hinj _ hk _ (by decide) h)))
      · exact Or.inr (Or.inr (Or.inr (hinj _ hk _ (by decide) h)))
    rcases hst with h | h | h | h <;>
      simp [toOrderBookRow, Id.run, h, Traded, Rejected, Cancelled, Transit, Pending,
        Modified, PartTraded, Executed, PartExecuted, Open]
  · intro hE
    have hb : lib.TrimSpace ctx.Status ≠ "" := by
      intro h
      have h2 := (lib.toLower_eq_empty _).mpr h
      rw [hE] at h2
      have h3 := (lib.toLower_eq_empty _).mp h2
      exact absurd h3 (by decide)
    have hnO : ¬ lib.ToLower (lib.TrimSpace ctx.Status) = lib.ToLower Open := by
      rw [hE]
      exact fun h => hoe h.symm
    have hm := filterOrder_section lib ctx order hpass hb
    unfold sectionMatches at hm
    rw [if_neg hnO, if_pos hE] at hm
    simp only [List.map_cons, List.map_nil, List.mem_cons, List.mem_singleton,
      List.not_mem_nil, or_false] at hm
    have hst : order.Status = Traded ∨ order.Status = Rejected ∨ order.Status = Cancelled := by
      rcases hm with h | h | h
      · exact Or.inl (hinj _ hk _ (by decide) h)
      · exact Or.inr (Or.inl (hinj _ hk _ (by decide) h))
      · exact Or.inr (Or.inr (hinj _ hk _ (by decide) h))
    rcases hst with h | h | h <;>
      simp [toOrderBookRow, Id.run, h, Traded, Rejected, Cancelled, Transit, Pending,
        Modified, PartTraded, Executed, PartExecuted, Open]

/-- Witness of C29 (amended): a Traded row that passes the filter of section
`executed` is assigned the section Executed. -/
theorem filter_section_agree_witness :
    (toOrderBookRow { Status := "Traded" }).Section = Executed :=
  (filter_section_agree sampleStrings { Status := "executed" } { Status := "Traded" }
    (by decide) (by decide) (by decide) (by decide)).2 (by decide)

/-- The two product tests of `parseVendorRequestBody` both compare with the
cover product code: the leg number and the algo order number are written for a
cover-order request and for no other. -/
theorem parseVendorRequestBody_leg_fields (env : Env) (req : ModifyOrderRequest) :
    (req.Product ≠ CoProductValue →
      (parseVendorRequestBody env req).Data.LegNo = "" ∧
      (parseVendorRequestBody env req).Data.AlgoOrderNo = "") ∧
    (req.Product = CoProductValue →
      (parseVendorRequestBody env req).Data.LegNo = sprintfD (floatToInt req.LegNo) ∧
      (parseVendorRequestBody env req).Data.AlgoOrderNo = req.AlgoOrderNo) := by
  constructor
  · intro h
    simp [parseVendorRequestBody, Id.run, h]
  · intro h
    simp [parseVendorRequestBody, Id.run, h]

/-- C30 (the code at the failing input): for a bracket-order modify request
(product `B`, leg number 2, algo order number `A1`) the payload of
`parseVendorRequestBody` has an empty `LegNo` and an empty `AlgoOrderNo`,
where the integer form of the leg number is `2`; the same request with the
cover product code `V` gets both fields. -/
theorem bracket_modify_leg_fields :
    (parseVendorRequestBody sampleEnv
        { Product := BoProductValue, LegNo := 2, AlgoOrderNo := "A1" }).Data.LegNo = "" ∧
    (parseVendorRequestBody sampleEnv
        { Product := BoProductValue, LegNo := 2, AlgoOrderNo := "A1" }).Data.AlgoOrderNo = "" ∧
    sprintfD (floatToInt 2) = "2" ∧
    (parseVendorRequestBody sampleEnv
        { Product := CoProductValue, LegNo := 2, AlgoOrderNo := "A1" }).Data.LegNo = "2" ∧
    (parseVendorRequestBody sampleEnv
        { Product := CoProductValue, LegNo := 2, AlgoOrderNo := "A1" }).Data.AlgoOrderNo =
      "A1" := by
  have hb := (parseVendorRequestBody_leg_fields sampleEnv
    { Product := BoProductValue, LegNo := 2, AlgoOrderNo := "A1" }).1 (by decide)
  have hc := (parseVendorRequestBody_leg_fields sampleEnv
    { Product := CoProductValue, LegNo := 2, AlgoOrderNo := "A1" }).2 rfl
  have h2 : sprintfD (floatToInt 2) = "2" := by decide
  refine ⟨hb.1, hb.2, h2, ?_, hc.2⟩
  rw [hc.1]
  exact h2

end Trade
